import Mathlib

/-!
# manga-nft-client: deployment and interaction scripts

A shallow embedding of the command-line scripts of the repository
(`deploy/DeployNFT.js`, `nft/FreeMint.js`, `nft/PublishNFT.js`, `nft/Register.js`,
`uploader/getCreator.js`, `uploader/getInvestor.js`).

Every script is an `async function main()` that talks to three things: the
console, the chain (through ethers) and, for the deployment, the file system.
A script is embedded as a state-passing function over a `World` holding these
three; what the outside answers (the result of each awaited call, the clock)
is supplied by an environment record, one field per call site in program
order.  A JavaScript `throw` and `process.exit` are the two ways a script
stops early; `try`/`catch` intercepts only the former.
-/

namespace MangaNftClient

/-! ## Values, console and chain operations -/

/-- A JavaScript error object. The scripts only ever read `message`. -/
structure JsError where
  message : String
deriving DecidableEq, Repr

deriving instance DecidableEq for Except

/-- A value handed to `console.log`. Formatting done by library code
(`formatEther`, `toFixed`) is kept symbolic in the value. -/
inductive Val where
  /-- a string -/
  | str (s : String)
  /-- an integer `Number` or a `bigint`, shown in decimal -/
  | num (n : Nat)
  /-- an error object -/
  | err (e : JsError)
  /-- `ethers.utils.formatUnits(value, decimals)` -/
  | units (value decimals : Nat)
  /-- `x.toFixed(2)` below `1e21`: the sign and the integer `n` with `n / 100` nearest to `|x|` -/
  | fixed2 (negative : Bool) (hundredths : Nat)
  /-- `String(x)` of a finite number that is not printed digit by digit here -/
  | numStr (x : ℚ)
  /-- `String(Infinity)`, `String(-Infinity)` -/
  | infinity (negative : Bool)
  /-- `String(NaN)` -/
  | notANumber
  /-- `undefined` -/
  | undefined
  /-- `new Date(seconds * 1000).toLocaleString()` -/
  | localeTime (seconds : Nat)
  /-- string concatenation `a + b` -/
  | cat (a b : Val)
deriving DecidableEq, Repr

/-- The three console streams the scripts use. -/
inductive Stream where
  | log
  | warn
  | error
deriving DecidableEq, Repr

/-- One console statement: the stream and the argument list. -/
structure Line where
  stream : Stream
  args : List Val
deriving DecidableEq, Repr

/-- An interaction with the chain, in the order the script issues them. -/
inductive ChainOp where
  /-- `wallet.getBalance()` -/
  | getBalance (account : String)
  /-- `provider.getNetwork()` -/
  | getNetwork
  /-- `factory.deploy(...args, { gasLimit, gasPrice })` -/
  | deploy (contract : String) (args : List Val) (gasLimit gasPrice : Nat)
  /-- `contract.deployed()` -/
  | awaitDeployed (address : String)
  /-- a state-changing method call; `gas` are the overrides when given -/
  | send (target method : String) (args : List Val) (gas : Option (Nat × Nat))
  /-- `tx.wait()` -/
  | awaitTx (hash : String)
  /-- a read-only method call -/
  | query (target method : String) (args : List Val)
deriving DecidableEq, Repr

/-! ## The deployment record and the artifact store -/

/-- The `abi` member of a build artifact, kept as the list of its entries. -/
abbrev Abi := List String

/-- What `JSON.parse(fs.readFileSync(...))` of a Foundry artifact gives. -/
structure Artifact where
  abi : Abi
  bytecode : String
deriving DecidableEq, Repr

/-- The `config` object of `DeployNFT.js`. -/
structure Config where
  rpcUrl : String
  privateKey : String
  platformAddress : String
  paymentToken : String
  uri : String
  gasLimit : Nat
  gasPrice : Nat
deriving DecidableEq, Repr

/-- One entry of `deploymentInfo.contracts`. -/
structure ContractEntry where
  address : String
  constructorArgs : List String
  abi : Abi
deriving DecidableEq, Repr

/-- What `provider.getNetwork()` resolves to. -/
structure Network where
  name : String
  chainId : Nat
deriving DecidableEq, Repr

/-- The `deploymentInfo` object. `contracts` is the object with the members
`monthlyDataUploader` and `mangaNFT`, kept as the list of its members in key order. -/
structure DeploymentInfo where
  network : String
  chainId : Nat
  deployer : String
  deploymentTime : String
  contracts : List (String × ContractEntry)
  config : Config
deriving DecidableEq, Repr

/-- The names under which files are written into the `deployments` directory. -/
inductive FileKey where
  /-- `deployment-${Date.now()}.json` -/
  | deployment (timestamp : Nat)
  /-- `latest-deployment.json` -/
  | latest
  /-- `DeployMangaNFT.s.sol` -/
  | foundryScript
deriving DecidableEq, Repr

/-- File contents: a serialised deployment record or plain text. -/
inductive Content where
  /-- `JSON.stringify(deploymentInfo, null, 2)` -/
  | json (info : DeploymentInfo)
  /-- a text file -/
  | text (s : String)
deriving DecidableEq, Repr

/-- The `deployments` directory: whether it exists and the files in it. -/
structure Store where
  dirExists : Bool
  entries : List (FileKey × Content)
deriving DecidableEq, Repr

/-- The content stored under a key, if any. -/
def Store.read (s : Store) (k : FileKey) : Option Content :=
  (s.entries.find? (fun e => e.1 == k)).map Prod.snd

/-- The effect of `fs.writeFileSync` (flag `w`): create the file or replace its content. -/
def Store.write (s : Store) (k : FileKey) (c : Content) : Store :=
  { s with entries := (s.entries.filter (fun e => !(e.1 == k))) ++ [(k, c)] }

/-- The timestamp of a timestamp-qualified file name. -/
def FileKey.timestamp : FileKey → Option Nat
  | .deployment t => some t
  | _ => none

/-- The timestamps of the timestamp-qualified files in the store. -/
def Store.timestamps (s : Store) : List Nat :=
  s.entries.filterMap (fun e => e.1.timestamp)

/-! ## Scripts -/

/-- Everything a script can act on. `console` and `chain` grow at the end. -/
structure World where
  console : List Line
  chain : List ChainOp
  files : Store
deriving DecidableEq, Repr

/-- A fresh world: empty console, no chain operation, no deployments directory. -/
def World.empty : World := ⟨[], [], ⟨false, []⟩⟩

/-- The two ways control leaves the normal flow. -/
inductive Abort where
  /-- a thrown error (or rejected promise), which `catch` intercepts -/
  | thrown (e : JsError)
  /-- `process.exit(code)`, which nothing intercepts -/
  | exit (code : Nat)
deriving DecidableEq, Repr

/-- A script fragment: from a world to a result and the world it leaves. -/
def Script (α : Type) : Type := World → Except Abort α × World

namespace Script

/-- Return a value, leaving the world alone. -/
def ret {α : Type} (a : α) : Script α := fun w => (.ok a, w)

/-- Sequencing: the rest runs only if the first part did not stop. -/
def andThen {α β : Type} (m : Script α) (f : α → Script β) : Script β := fun w =>
  match m w with
  | (.ok a, w1) => f a w1
  | (.error e, w1) => (.error e, w1)

instance : Monad Script where
  pure := ret
  bind := andThen

/-- The statement form `try { body } catch (error) { handler }`. -/
def tryCatch {α : Type} (body : Script α) (handler : JsError → Script α) : Script α := fun w =>
  match body w with
  | (.error (.thrown e), w1) => handler e w1
  | r => r

/-- The call `console.log(...args)`. -/
def log (args : List Val) : Script Unit := fun w =>
  (.ok (), { w with console := w.console ++ [⟨.log, args⟩] })

/-- The call `console.warn(...args)`. -/
def warn (args : List Val) : Script Unit := fun w =>
  (.ok (), { w with console := w.console ++ [⟨.warn, args⟩] })

/-- The call `console.error(...args)`. -/
def logError (args : List Val) : Script Unit := fun w =>
  (.ok (), { w with console := w.console ++ [⟨.error, args⟩] })

/-- The call `process.exit(code)`. -/
def processExit {α : Type} (code : Nat) : Script α := fun w => (.error (.exit code), w)

/-- A local operation that may throw (a constructor, a file read). -/
def attempt {α : Type} (outcome : Except JsError α) : Script α := fun w =>
  match outcome with
  | .ok a => (.ok a, w)
  | .error e => (.error (.thrown e), w)

/-- An awaited chain operation: it is issued, then resolves or rejects. -/
def await {α : Type} (op : ChainOp) (outcome : Except JsError α) : Script α := fun w =>
  let w1 := { w with chain := w.chain ++ [op] }
  match outcome with
  | .ok a => (.ok a, w1)
  | .error e => (.error (.thrown e), w1)

/-- The call `fs.existsSync` on the deployments directory. -/
def dirExists : Script Bool := fun w => (.ok w.files.dirExists, w)

/-- The call `fs.mkdirSync(dir, { recursive: true })`. -/
def mkdir (outcome : Except JsError Unit) : Script Unit := fun w =>
  match outcome with
  | .ok _ => (.ok (), { w with files := { w.files with dirExists := true } })
  | .error e => (.error (.thrown e), w)

/-- The call `fs.writeFileSync(file, content)`; a failed write leaves the store as it was. -/
def writeFile (k : FileKey) (c : Content) (outcome : Except JsError Unit) : Script Unit := fun w =>
  match outcome with
  | .ok _ => (.ok (), { w with files := w.files.write k c })
  | .error e => (.error (.thrown e), w)

end Script

/-- How the process ended. -/
inductive Termination where
  /-- `process.exit(code)` was called -/
  | exited (code : Nat)
  /-- `main` settled and nothing called `process.exit`: the process ends on its own -/
  | ranToEnd
deriving DecidableEq, Repr

/-- The exit status the shell sees. -/
def Termination.status : Termination → Nat
  | .exited code => code
  | .ranToEnd => 0

/-- The result of running a whole command. -/
structure Run where
  termination : Termination
  world : World
deriving DecidableEq, Repr

open Script

/-! ## deploy/DeployNFT.js -/

/-- The environment variables `DeployNFT.js` reads. -/
structure ProcessEnv where
  RPC_URL : Option String
  PRIVATE_KEY : Option String
  PLATFORM_ADDRESS : Option String
  PAYMENT_TOKEN : Option String
  BASE_URI : Option String
deriving DecidableEq, Repr

/-- The expression `process.env.X || fallback`: unset and empty both fall back. -/
def orDefault (v : Option String) (fallback : String) : String :=
  match v with
  | some s => if s = "" then fallback else s
  | none => fallback

/-- The constant `ethers.constants.AddressZero`. -/
def AddressZero : String := "0x0000000000000000000000000000000000000000"

/-- The `config` literal at the head of `main`. -/
def loadConfig (penv : ProcessEnv) : Config where
  rpcUrl := orDefault penv.RPC_URL "https://rpc-amoy.polygon.technology"
  privateKey := orDefault penv.PRIVATE_KEY
    "a561d28ee8f35c86c88132952f0f82bc39ec24e240dd511c5229435f15927416"
  platformAddress := orDefault penv.PLATFORM_ADDRESS "0x12E2C1e3A8CA617689A4E4E6d6a098Faf08B8189"
  paymentToken := orDefault penv.PAYMENT_TOKEN "0x0000000000000000000000000000000000001010"
  uri := orDefault penv.BASE_URI "https://api.manga.com/metadata/"
  gasLimit := 5000000
  gasPrice := 20 * 10 ^ 9

/-- What the outside answers during one run of `DeployNFT.js`, one field per
call site, in program order. -/
structure DeployEnv where
  /-- `new ethers.providers.JsonRpcProvider(config.rpcUrl)` and
  `new ethers.Wallet(config.privateKey, provider)`: the wallet address -/
  wallet : Except JsError String
  /-- `wallet.getBalance()` -/
  balance : Except JsError Nat
  /-- `provider.getNetwork()` in the banner -/
  networkAtStart : Except JsError Network
  /-- reading and parsing `MonthlyDataUploader.json` -/
  artifactMDU : Except JsError Artifact
  /-- reading and parsing `MangaNFT.json` -/
  artifactNFT : Except JsError Artifact
  /-- `new ethers.ContractFactory` for MonthlyDataUploader -/
  factoryMDU : Except JsError Unit
  /-- `monthlyDataUploaderFactory.deploy(...)`: the address of the new contract -/
  deployMDU : Except JsError String
  /-- `monthlyDataUploader.deployed()` -/
  deployedMDU : Except JsError Unit
  /-- `new ethers.ContractFactory` for MangaNFT -/
  factoryNFT : Except JsError Unit
  /-- `mangaNFTFactory.deploy(...)`: the address of the new contract -/
  deployNFT : Except JsError String
  /-- `mangaNFT.deployed()` -/
  deployedNFT : Except JsError Unit
  /-- `monthlyDataUploader.updateMangaNFTContract(...)`: the transaction hash -/
  updateTx : Except JsError String
  /-- `updateTx.wait()` -/
  updateWait : Except JsError Unit
  /-- `monthlyDataUploader.mangaNFTContract()` -/
  readMangaNFTContract : Except JsError String
  /-- `mangaNFT.monthlyDataUploader()` -/
  readMonthlyDataUploader : Except JsError String
  /-- `provider.getNetwork()` for `deploymentInfo.network` -/
  networkForName : Except JsError Network
  /-- `provider.getNetwork()` for `deploymentInfo.chainId` -/
  networkForChainId : Except JsError Network
  /-- `new Date().toISOString()` -/
  isoTime : String
  /-- `fs.mkdirSync` -/
  mkdir : Except JsError Unit
  /-- `Date.now()` -/
  now : Nat
  /-- `fs.writeFileSync` of the timestamped file -/
  writeTimestamped : Except JsError Unit
  /-- `fs.writeFileSync` of `latest-deployment.json` -/
  writeLatest : Except JsError Unit
  /-- `fs.writeFileSync` of the Foundry script -/
  writeScript : Except JsError Unit

/-- The function `generateFoundryScript(deploymentInfo)`: a template filled with
three members of `deploymentInfo.config`. -/
def generateFoundryScript (deploymentInfo : DeploymentInfo) : String :=
  String.intercalate "\n" [
    "// SPDX-License-Identifier: MIT",
    "pragma solidity ^0.8.24;",
    "",
    "import \"forge-std/Script.sol\";",
    "import \"../src/MonthlyDataUploader.sol\";",
    "import \"../src/MangaNFT.sol\";",
    "",
    "contract DeployMangaNFT is Script \x7b",
    "    function run() public \x7b",
    "        // Configuration",
    "        address platformAddress = " ++ deploymentInfo.config.platformAddress ++ ";",
    "        address paymentToken = " ++ deploymentInfo.config.paymentToken ++ ";",
    "        string memory uri = \"" ++ deploymentInfo.config.uri ++ "\";",
    "",
    "        // Start broadcasting",
    "        vm.startBroadcast();",
    "",
    "        // Deploy MonthlyDataUploader",
    "        MonthlyDataUploader monthlyDataUploader = new MonthlyDataUploader(",
    "            platformAddress,",
    "            address(0) // Temporary MangaNFT address",
    "        );",
    "        console.log(\"MonthlyDataUploader deployed at:\", address(monthlyDataUploader));",
    "",
    "        // Deploy MangaNFT",
    "        MangaNFT mangaNFT = new MangaNFT(",
    "            uri,",
    "            platformAddress,",
    "            paymentToken,",
    "            address(monthlyDataUploader)",
    "        );",
    "        console.log(\"MangaNFT deployed at:\", address(mangaNFT));",
    "",
    "        // Update MonthlyDataUploader with correct MangaNFT address",
    "        monthlyDataUploader.updateMangaNFTContract(address(mangaNFT));",
    "        console.log(\"Updated MangaNFT contract address in MonthlyDataUploader\");",
    "",
    "        vm.stopBroadcast();",
    "",
    "        // Verify deployment",
    "        require(monthlyDataUploader.mangaNFTContract() == address(mangaNFT), \"MangaNFT address not set correctly\");",
    "        require(mangaNFT.monthlyDataUploader() == address(monthlyDataUploader), \"MonthlyDataUploader address not set correctly\");",
    "        ",
    "        console.log(\"Deployment verification successful!\");",
    "    \x7d",
    "\x7d"]

/-- What steps 1 to 3 leave in scope for the rest of `main`. -/
structure Deployed where
  monthlyDataUploaderArtifact : Artifact
  mangaNFTArtifact : Artifact
  /-- `monthlyDataUploader.address` -/
  monthlyDataUploader : String
  /-- `mangaNFT.address` -/
  mangaNFT : String
deriving DecidableEq, Repr

/-- Loading the artifacts and steps 1 to 3 of `main`: deploy MonthlyDataUploader,
deploy MangaNFT, call `updateMangaNFTContract`. -/
def deployAndBind (config : Config) (env : DeployEnv) : Script Deployed := do
  log [.str "📦 Loading contract artifacts from Foundry..."]
  let monthlyDataUploaderArtifact ← attempt env.artifactMDU
  let mangaNFTArtifact ← attempt env.artifactNFT
  log [.str "✅ Contract artifacts loaded successfully\n"]
  -- Step 1
  log [.str "📦 Step 1: Deploying MonthlyDataUploader..."]
  attempt env.factoryMDU
  let monthlyDataUploader ← await
    (.deploy "MonthlyDataUploader" [.str config.platformAddress, .str AddressZero]
      config.gasLimit config.gasPrice)
    env.deployMDU
  await (.awaitDeployed monthlyDataUploader) env.deployedMDU
  log [.str "✅ MonthlyDataUploader deployed to:", .str monthlyDataUploader]
  -- Step 2
  log [.str "\n📦 Step 2: Deploying MangaNFT..."]
  attempt env.factoryNFT
  let mangaNFT ← await
    (.deploy "MangaNFT"
      [.str config.uri, .str config.platformAddress, .str config.paymentToken,
        .str monthlyDataUploader]
      config.gasLimit config.gasPrice)
    env.deployNFT
  await (.awaitDeployed mangaNFT) env.deployedNFT
  log [.str "✅ MangaNFT deployed to:", .str mangaNFT]
  -- Step 3
  log [.str "\n📦 Step 3: Updating MonthlyDataUploader with MangaNFT address..."]
  let updateTx ← await
    (.send monthlyDataUploader "updateMangaNFTContract" [.str mangaNFT]
      (some (200000, config.gasPrice)))
    env.updateTx
  await (.awaitTx updateTx) env.updateWait
  log [.str "✅ MonthlyDataUploader updated with MangaNFT address"]
  pure ⟨monthlyDataUploaderArtifact, mangaNFTArtifact, monthlyDataUploader, mangaNFT⟩

/-- Step 4 of `main`: read both references back and compare them. -/
def verifyConnections (env : DeployEnv) (d : Deployed) : Script Unit := do
  log [.str "\n🔍 Step 4: Verifying contract connections..."]
  let mangaNFTAddress ← await
    (.query d.monthlyDataUploader "mangaNFTContract" []) env.readMangaNFTContract
  let monthlyDataUploaderAddress ← await
    (.query d.mangaNFT "monthlyDataUploader" []) env.readMonthlyDataUploader
  log [.str "   MonthlyDataUploader.mangaNFTContract():", .str mangaNFTAddress]
  log [.str "   MangaNFT.monthlyDataUploader():", .str monthlyDataUploaderAddress]
  if mangaNFTAddress = d.mangaNFT ∧ monthlyDataUploaderAddress = d.monthlyDataUploader then
    log [.str "✅ Contract connections verified successfully!"]
  else
    log [.str "❌ Contract connections verification failed!"]

/-- Step 5 of `main`, first half: the `deploymentInfo` object. -/
def buildDeploymentInfo (config : Config) (walletAddress : String) (env : DeployEnv)
    (d : Deployed) : Script DeploymentInfo := do
  log [.str "\n💾 Step 5: Saving deployment information..."]
  let networkForName ← await .getNetwork env.networkForName
  let networkForChainId ← await .getNetwork env.networkForChainId
  pure {
    network := networkForName.name
    chainId := networkForChainId.chainId
    deployer := walletAddress
    deploymentTime := env.isoTime
    contracts := [
      ("monthlyDataUploader", {
        address := d.monthlyDataUploader
        constructorArgs := [config.platformAddress, AddressZero]
        abi := d.monthlyDataUploaderArtifact.abi }),
      ("mangaNFT", {
        address := d.mangaNFT
        constructorArgs :=
          [config.uri, config.platformAddress, config.paymentToken, d.monthlyDataUploader]
        abi := d.mangaNFTArtifact.abi })]
    config := config }

/-- Step 5, second half, and step 6 of `main`: the three files. -/
def saveDeployment (env : DeployEnv) (deploymentInfo : DeploymentInfo) : Script Unit := do
  if !(← dirExists) then
    mkdir env.mkdir
  writeFile (.deployment env.now) (.json deploymentInfo) env.writeTimestamped
  log [.str "✅ Deployment information saved to:", .cat (.cat (.str "deployment-") (.num env.now)) (.str ".json")]
  writeFile .latest (.json deploymentInfo) env.writeLatest
  log [.str "✅ Latest deployment information saved to:", .str "latest-deployment.json"]
  log [.str "\n📝 Step 6: Generating Foundry deployment script..."]
  let foundryScript := generateFoundryScript deploymentInfo
  writeFile .foundryScript (.text foundryScript) env.writeScript
  log [.str "✅ Foundry deployment script saved to:", .str "DeployMangaNFT.s.sol"]

/-- Step 7 of `main`: the summary. -/
def displaySummary (walletAddress : String) (d : Deployed) (deploymentInfo : DeploymentInfo) :
    Script Unit := do
  log [.str "\n🎉 Deployment Summary:"]
  log [.str "   ==================="]
  log [.str "   MonthlyDataUploader:", .str d.monthlyDataUploader]
  log [.str "   MangaNFT:", .str d.mangaNFT]
  log [.str "   Network:", .str deploymentInfo.network]
  log [.str "   Chain ID:", .num deploymentInfo.chainId]
  log [.str "   Deployer:", .str walletAddress]
  log [.str "   Deployment Time:", .str deploymentInfo.deploymentTime]
  log [.str "\n📋 Next Steps:"]
  log [.str "   1. Verify contracts on block explorer"]
  log [.str "   2. Set up frontend integration"]
  log [.str "   3. Test contract functionality"]
  log [.str "   4. Configure platform settings"]
  log [.str "\n🔧 Foundry Commands:"]
  log [.str "   forge script script/DeployMangaNFT.s.sol --rpc-url <RPC_URL> --broadcast"]
  log [.str "   forge verify-contract <CONTRACT_ADDRESS> src/MangaNFT.sol:MangaNFT --chain-id <CHAIN_ID>"]

/-- The body of the `try` block of `main`. -/
def deployTryBody (config : Config) (walletAddress : String) (env : DeployEnv) : Script Unit := do
  let d ← deployAndBind config env
  verifyConnections env d
  let deploymentInfo ← buildDeploymentInfo config walletAddress env d
  saveDeployment env deploymentInfo
  displaySummary walletAddress d deploymentInfo

/-- The `catch (error)` block of `main`. -/
def deployCatch (error : JsError) : Script Unit := do
  logError [.str "\n❌ Deployment failed:", .err error]
  processExit 1

/-- The part of `main` before the `try`: banner, configuration, connection. It
returns `wallet.address`. -/
def deployConnect (config : Config) (env : DeployEnv) : Script String := do
  log [.str "🚀 Starting deployment of MangaNFT and MonthlyDataUploader contracts using Foundry...\n"]
  let walletAddress ← attempt env.wallet
  log [.str "📝 Deploying contracts with account:", .str walletAddress]
  let balance ← await (.getBalance walletAddress) env.balance
  log [.str "💰 Account balance:", .units balance 18, .str "ETH"]
  let network ← await .getNetwork env.networkAtStart
  log [.str "🌐 Network:", .str network.name]
  log [.str "🔗 RPC URL:", .str config.rpcUrl]
  log [.str "\n⚙️  Deployment Configuration:"]
  log [.str "   Platform Address:", .str config.platformAddress]
  log [.str "   Payment Token:", .str config.paymentToken]
  log [.str "   Base URI:", .str config.uri]
  log [.str "   Gas Limit:", .num config.gasLimit]
  log [.str "   Gas Price:", .units config.gasPrice 9, .str "gwei\n"]
  pure walletAddress

/-- The function `main` of `DeployNFT.js`. -/
def deployMain (penv : ProcessEnv) (env : DeployEnv) : Script Unit := do
  let config := loadConfig penv
  let walletAddress ← deployConnect config env
  tryCatch (deployTryBody config walletAddress env) deployCatch

/-- The last statement of the file:
`main().then(() => process.exit(0)).catch((error) => ... process.exit(1))`. -/
def runDeploy (penv : ProcessEnv) (env : DeployEnv) (w : World) : Run :=
  match deployMain penv env w with
  | (.ok _, w1) => ⟨.exited 0, w1⟩
  | (.error (.exit code), w1) => ⟨.exited code, w1⟩
  | (.error (.thrown e), w1) =>
    ⟨.exited 1, { w1 with console := w1.console ++
      [⟨.error, [.str "❌ Deployment script failed:", .err e]⟩] }⟩

/-! ## JavaScript numbers -/

/-- A JavaScript `Number` (IEEE-754 binary64). A finite number is kept as the
rational it denotes; the sign of zero is not kept. -/
inductive JsNumber where
  | finite (q : ℚ)
  | infinite (negative : Bool)
  | nan
deriving DecidableEq, Repr

/-- The nearest integer, a tie going to the even one. -/
def roundHalfEven (y : ℚ) : ℤ :=
  let f := ⌊y⌋
  let r := y - f
  if r < 1 / 2 then f
  else if 1 / 2 < r then f + 1
  else if f % 2 = 0 then f
  else f + 1

/-- Rounding of a real to binary64, round-to-nearest-even: 53 significant bits,
exponent at least `-1022` (gradual underflow), overflow to infinity from `2^1024`. -/
def roundToDouble (x : ℚ) : JsNumber :=
  if x = 0 then .finite 0
  else
    let e : ℤ := max (Int.log 2 |x|) (-1022)
    let ulp : ℚ := 2 ^ (e - 52)
    let r : ℚ := (roundHalfEven (|x| / ulp) : ℚ) * ulp
    if 2 ^ (1024 : ℕ) ≤ r then .infinite (decide (x < 0))
    else if x < 0 then .finite (-r)
    else .finite r

namespace JsNumber

/-- The conversion `Number(n)` of a non-negative `bigint`. -/
def ofBigInt (n : Nat) : JsNumber := roundToDouble n

/-- The operator `a / b`. -/
def div : JsNumber → JsNumber → JsNumber
  | .finite x, .finite y =>
    if y = 0 then (if x = 0 then .nan else .infinite (decide (x < 0)))
    else roundToDouble (x / y)
  | .finite _, .infinite _ => .finite 0
  | .infinite s, .finite y => .infinite (xor s (decide (y < 0)))
  | .infinite _, .infinite _ => .nan
  | .nan, _ => .nan
  | _, .nan => .nan

/-- The operator `a * b`. -/
def mul : JsNumber → JsNumber → JsNumber
  | .finite x, .finite y => roundToDouble (x * y)
  | .finite x, .infinite s => if x = 0 then .nan else .infinite (xor s (decide (x < 0)))
  | .infinite s, .finite y => if y = 0 then .nan else .infinite (xor s (decide (y < 0)))
  | .infinite s, .infinite t => .infinite (xor s t)
  | .nan, _ => .nan
  | _, .nan => .nan

/-- The function `Math.floor`. -/
def floor : JsNumber → JsNumber
  | .finite x => .finite ⌊x⌋
  | .infinite s => .infinite s
  | .nan => .nan

/-- The method `x.toFixed(2)`. -/
def toFixed2 : JsNumber → Val
  | .finite x =>
    if (10 : ℚ) ^ (21 : ℕ) ≤ |x| then .numStr x
    else .fixed2 (decide (x < 0)) ⌊|x| * 100 + 1 / 2⌋.toNat
  | .infinite s => .infinity s
  | .nan => .notANumber

/-- A number passed as a value: a non-negative integer is shown in decimal. -/
def toVal : JsNumber → Val
  | .finite x => if x = (⌊x⌋.toNat : ℚ) then .num ⌊x⌋.toNat else .numStr x
  | .infinite s => .infinity s
  | .nan => .notANumber

end JsNumber

/-! ## Strings as numbers -/

/-- A `StrWhiteSpaceChar`: white space or a line terminator. -/
def isStrWhiteSpaceChar (c : Char) : Bool :=
  [0x09, 0x0A, 0x0B, 0x0C, 0x0D, 0x20, 0xA0, 0x1680, 0x2028, 0x2029, 0x202F, 0x205F,
    0x3000, 0xFEFF].contains c.toNat || (0x2000 ≤ c.toNat && c.toNat ≤ 0x200A)

/-- The string without leading and trailing `StrWhiteSpaceChar`s. -/
def trimWhiteSpace (cs : List Char) : List Char :=
  ((cs.dropWhile isStrWhiteSpaceChar).reverse.dropWhile isStrWhiteSpaceChar).reverse

/-- The value of a digit character in the given radix. -/
def digitValue (radix : Nat) (c : Char) : Option Nat :=
  let v : Option Nat :=
    if 48 ≤ c.toNat ∧ c.toNat ≤ 57 then some (c.toNat - 48)
    else if 97 ≤ c.toNat ∧ c.toNat ≤ 102 then some (c.toNat - 87)
    else if 65 ≤ c.toNat ∧ c.toNat ≤ 70 then some (c.toNat - 55)
    else none
  v.bind fun d => if d < radix then some d else none

/-- The value of a possibly empty run of digits; `none` when a character is no digit. -/
def digitsOrZero (radix : Nat) (cs : List Char) : Option Nat :=
  cs.foldl (fun acc c => acc.bind fun n => (digitValue radix c).map fun d => n * radix + d)
    (some 0)

/-- The value of a run of at least one digit. -/
def digitsValue (radix : Nat) (cs : List Char) : Option Nat :=
  if cs.isEmpty then none else digitsOrZero radix cs

/-- The mathematical value of a `StrNumericLiteral`. -/
inductive NumericValue where
  /-- `Infinity`, `+Infinity`, `-Infinity` -/
  | infinity (negative : Bool)
  /-- the value `± digits × 10 ^ exponent` -/
  | scaled (negative : Bool) (digits : Nat) (exponent : Int)
deriving DecidableEq, Repr

/-- A `SignedInteger`, the digits of an `ExponentPart`. -/
def signedInteger (cs : List Char) : Option Int :=
  match cs with
  | '+' :: rest => (digitsValue 10 rest).map fun n => (n : Int)
  | '-' :: rest => (digitsValue 10 rest).map fun n => -(n : Int)
  | _ => (digitsValue 10 cs).map fun n => (n : Int)

/-- A `StrUnsignedDecimalLiteral` other than `Infinity`: digits with an optional
fraction and an optional exponent part, as `(digits, exponent)`. -/
def unsignedDecimal (cs : List Char) : Option (Nat × Int) :=
  let mantissa := cs.takeWhile (fun c => c != 'e' && c != 'E')
  let exponent : Option Int :=
    match cs.dropWhile (fun c => c != 'e' && c != 'E') with
    | [] => some 0
    | _ :: rest => signedInteger rest
  let whole := mantissa.takeWhile (fun c => c != '.')
  let fraction := (mantissa.dropWhile (fun c => c != '.')).drop 1
  let digits : Option Nat :=
    if !mantissa.contains '.' then digitsValue 10 whole
    else if whole.isEmpty && fraction.isEmpty then none
    else (digitsOrZero 10 whole).bind fun a =>
      (digitsOrZero 10 fraction).map fun b => a * 10 ^ fraction.length + b
  digits.bind fun d => exponent.map fun e => (d, e - fraction.length)

/-- A `StrDecimalLiteral`: an optional sign, then `Infinity` or a decimal literal. -/
def strDecimalLiteral (cs : List Char) : Option NumericValue :=
  let signed : Bool × List Char :=
    match cs with
    | '+' :: rest => (false, rest)
    | '-' :: rest => (true, rest)
    | _ => (false, cs)
  if signed.2 = "Infinity".data then some (.infinity signed.1)
  else (unsignedDecimal signed.2).map fun v => .scaled signed.1 v.1 v.2

/-- A `StrNumericLiteral`: a hexadecimal, octal or binary integer literal (no sign),
or a decimal literal. `none` when the characters are no numeric literal. -/
def strNumericLiteral (cs : List Char) : Option NumericValue :=
  match cs with
  | '0' :: 'x' :: rest => (digitsValue 16 rest).map fun n => .scaled false n 0
  | '0' :: 'X' :: rest => (digitsValue 16 rest).map fun n => .scaled false n 0
  | '0' :: 'o' :: rest => (digitsValue 8 rest).map fun n => .scaled false n 0
  | '0' :: 'O' :: rest => (digitsValue 8 rest).map fun n => .scaled false n 0
  | '0' :: 'b' :: rest => (digitsValue 2 rest).map fun n => .scaled false n 0
  | '0' :: 'B' :: rest => (digitsValue 2 rest).map fun n => .scaled false n 0
  | _ => strDecimalLiteral cs

/-- The number for a mathematical value: the nearest double. (The language lets an
engine round a literal of more than 20 significant digits after cutting it to 20; the
engines round the exact value, as is done here.) -/
def NumericValue.toNumber : NumericValue → JsNumber
  | .infinity s => .infinite s
  | .scaled s d e => roundToDouble ((if s then -1 else 1) * (d : ℚ) * 10 ^ e)

/-- The abstract operation `StringToNumber`, which the language applies to a string
operand of `isNaN` and of a comparison with a number: white space is trimmed, the
empty string is `0`, anything that is no `StrNumericLiteral` is `NaN`. -/
def stringToNumber (s : String) : JsNumber :=
  let cs := trimWhiteSpace s.data
  if cs.isEmpty then .finite 0
  else
    match strNumericLiteral cs with
    | some v => v.toNumber
    | none => .nan

/-- A number that is not `NaN` and is strictly greater than `0`. -/
def JsNumber.isPositive : JsNumber → Prop
  | .finite q => 0 < q
  | .infinite s => s = false
  | .nan => False

/-- The global function `isNaN` applied to a string. -/
def isNaN (value : String) : Bool := decide (stringToNumber value = .nan)

/-- The operator `a <= b` on numbers: false when an operand is `NaN`. -/
def JsNumber.le : JsNumber → JsNumber → Bool
  | .finite x, .finite y => decide (x ≤ y)
  | .finite _, .infinite t => !t
  | .infinite s, .finite _ => s
  | .infinite s, .infinite t => s || !t
  | .nan, _ => false
  | _, .nan => false

/-- The abstract operation `StringToBigInt`, behind `BigInt(string)`: white space is
trimmed, the empty string is `0n`, then a decimal integer with an optional sign or a
hexadecimal, octal or binary literal (no sign). `none` stands for the `SyntaxError`. -/
def stringToBigInt (s : String) : Option Int :=
  let cs := trimWhiteSpace s.data
  if cs.isEmpty then some 0
  else
    match cs with
    | '0' :: 'x' :: rest => (digitsValue 16 rest).map fun n => (n : Int)
    | '0' :: 'X' :: rest => (digitsValue 16 rest).map fun n => (n : Int)
    | '0' :: 'o' :: rest => (digitsValue 8 rest).map fun n => (n : Int)
    | '0' :: 'O' :: rest => (digitsValue 8 rest).map fun n => (n : Int)
    | '0' :: 'b' :: rest => (digitsValue 2 rest).map fun n => (n : Int)
    | '0' :: 'B' :: rest => (digitsValue 2 rest).map fun n => (n : Int)
    | _ => signedInteger cs

/-- The function `getBigInt` of ethers 6 on a string argument: the empty string is refused;
of a string that starts with one `-` the rest is read and negated; any other string goes
to `BigInt(value)`. `none` stands for the error `invalid BigNumberish string`. -/
def getBigInt (value : String) : Option Int :=
  match value.data with
  | [] => none
  | '-' :: rest =>
    if rest.head? = some '-' then stringToBigInt value
    else (stringToBigInt (String.mk rest)).map fun n => -n
  | _ => stringToBigInt value

/-- How ethers 6 encodes a string given for a `uint256` parameter (the token identifier
of `balanceOf` and `investorRegistration`): the integer `getBigInt` reads, which must lie
in `0 .. 2 ^ 256 - 1`. `none` stands for the error thrown otherwise. -/
def encodeUint256 (value : String) : Option Nat :=
  (getBigInt value).bind fun n => if 0 ≤ n ∧ n < 2 ^ 256 then some n.toNat else none

/-- The spacing of binary64 numbers in the binade of a positive normal `z`. -/
def ulp (z : ℚ) : ℚ := 2 ^ (Int.log 2 z - 52)

/-- Round-to-nearest-even of a positive normal `z`, as a rational. -/
def rdq (z : ℚ) : ℚ := (roundHalfEven (z / ulp z) : ℚ) * ulp z

/-- The rational `d` is a multiple of `2 ^ k`. -/
def OnGrid (d : ℚ) (k : ℤ) : Prop := ∃ n : ℤ, d = n * 2 ^ k

/-- The method `String.prototype.includes`. -/
def includes (s sub : String) : Bool := decide (sub.data <:+: s.data)

/-- The test `!X` on an environment variable: unset or empty. -/
def unset (v : Option String) : Bool :=
  match v with
  | some s => decide (s = "")
  | none => true

/-! ## Event decoding (nft/PublishNFT.js, nft/Register.js) -/

/-- A raw log entry of a receipt. -/
structure RawLog where
  address : String
  topics : List String
  data : String
deriving DecidableEq, Repr

/-- A decoded event argument. -/
inductive ArgVal where
  /-- an unsigned integer -/
  | uint (n : Nat)
  /-- an address or a string -/
  | text (s : String)
deriving DecidableEq, Repr

/-- What `iface.parseLog(log)` gives for a log that matches an event of the ABI. -/
structure LogDescription where
  name : String
  args : List (String × ArgVal)
deriving DecidableEq, Repr

/-- What `tx.wait()` resolves to. -/
structure Receipt where
  blockNumber : Nat
  logs : List RawLog
deriving DecidableEq, Repr

/-- The part of ethers that decodes: the ABI files are not in the repository, so
the decoder built from them is a parameter. -/
structure Decoder where
  /-- `iface.parseLog(log)`; `none` when the log matches no event of the ABI
  (the library then throws, or returns `null` and the next property access throws) -/
  parseLog : RawLog → Option LogDescription

/-- A member of `parsedLog.args` taken by destructuring; `none` stands for `undefined`. -/
def LogDescription.arg (d : LogDescription) (field : String) : Option ArgVal :=
  (d.args.find? (fun a => a.1 == field)).map Prod.snd

/-- An argument handed to `console.log` as it is. -/
def showArg : Option ArgVal → Val
  | some (.uint n) => .num n
  | some (.text s) => .str s
  | none => .undefined

/-- The call `value.toString()`; it throws on `undefined`. -/
def argToString : Option ArgVal → Except JsError Val
  | some (.uint n) => .ok (.num n)
  | some (.text s) => .ok (.str s)
  | none => .error ⟨"Cannot read properties of undefined (reading 'toString')"⟩

/-- The call `mintTime.toNumber()`. `PublishNFT.js` is written against ethers 6
(`new ethers.JsonRpcProvider`, `new ethers.Interface`), which decodes an integer to a
`bigint`. A `bigint` has no method `toNumber`, no more than a string has, so the call
throws a `TypeError` whatever the value is. -/
def argToNumber : Option ArgVal → Except JsError Nat
  | some (.uint _) => .error ⟨"mintTime.toNumber is not a function"⟩
  | some (.text _) => .error ⟨"mintTime.toNumber is not a function"⟩
  | none => .error ⟨"Cannot read properties of undefined (reading 'toNumber')"⟩

/-- The decoding step of both loops: `iface.parseLog(log)` and the first use of the result. -/
def parse (dec : Decoder) (entry : RawLog) : Script LogDescription :=
  match dec.parseLog entry with
  | some d => pure d
  | none => attempt (.error ⟨"no matching event"⟩)

/-- The body of the `try` inside the loop of `PublishNFT.js`. -/
def publishLogBody (dec : Decoder) (entry : RawLog) : Script Unit := do
  let parsedLog ← parse dec entry
  if parsedLog.name = "ChapterCreated" then
    log [.str "\n🎉 ChapterCreated 事件:"]
    log [.str "  🔸 tokenId:     ", ← attempt (argToString (parsedLog.arg "tokenId"))]
    log [.str "  🔸 creator:     ", showArg (parsedLog.arg "creator")]
    log [.str "  🔸 mangaTitleZh:", showArg (parsedLog.arg "mangaTitleZh")]
    log [.str "  🔸 mangaTitleEn:", showArg (parsedLog.arg "mangaTitleEn")]
    log [.str "  🔸 mangaTitleJp:", showArg (parsedLog.arg "mangaTitleJp")]
  if parsedLog.name = "ChapterMinted" then
    log [.str "\n🔔 ChapterMinted 事件:"]
    log [.str "  🔸 tokenId:     ", ← attempt (argToString (parsedLog.arg "tokenId"))]
    log [.str "  🔸 to:          ", showArg (parsedLog.arg "to")]
    log [.str "  🔸 amountMinted:", ← attempt (argToString (parsedLog.arg "amountMinted"))]
    log [.str "  🔸 mintTime:    ",
      .localeTime (← attempt (argToNumber (parsedLog.arg "mintTime")))]

/-- The `catch (parseError)` of both loops. -/
def skipLog (_parseError : JsError) : Script Unit :=
  log [.str "跳过无效事件日志"]

/-- The loop `for (const log of receipt.logs)` of `PublishNFT.js`. -/
def publishDecodeLoop (dec : Decoder) : List RawLog → Script Unit
  | [] => pure ()
  | entry :: rest => do
    tryCatch (publishLogBody dec entry) skipLog
    publishDecodeLoop dec rest

/-- The body of the `try` inside the loop of `Register.js`. -/
def registerLogBody (dec : Decoder) (entry : RawLog) : Script Unit := do
  let parsedLog ← parse dec entry
  if parsedLog.name = "InvestorNFTAcquired" then
    log [.str "\n🎉 InvestorNFTAcquired 事件:"]
    log [.str "  🔸 investor:     ", showArg (parsedLog.arg "investor")]
    log [.str "  🔸 acquiredCount:", ← attempt (argToString (parsedLog.arg "acquiredCount"))]
    log [.str "  🔸 totalAcquired:", ← attempt (argToString (parsedLog.arg "totalAcquired"))]

/-- The loop `for (const log of receipt.logs)` of `Register.js`. -/
def registerDecodeLoop (dec : Decoder) : List RawLog → Script Unit
  | [] => pure ()
  | entry :: rest => do
    tryCatch (registerLogBody dec entry) skipLog
    registerDecodeLoop dec rest

/-- The console lines the loop of `PublishNFT.js` prints for one log entry. -/
def publishLogLines (dec : Decoder) (entry : RawLog) : List Line :=
  (tryCatch (publishLogBody dec entry) skipLog World.empty).2.console

/-- The console lines the loop of `Register.js` prints for one log entry. -/
def registerLogLines (dec : Decoder) (entry : RawLog) : List Line :=
  (tryCatch (registerLogBody dec entry) skipLog World.empty).2.console

/-- The last statement of the other scripts:
`main().catch((error) => { console.error("❌ 执行出错:", error); process.exit(1); })`. -/
def runMain (main : Script Unit) (w : World) : Run :=
  match main w with
  | (.ok _, w1) => ⟨.ranToEnd, w1⟩
  | (.error (.exit code), w1) => ⟨.exited code, w1⟩
  | (.error (.thrown e), w1) =>
    ⟨.exited 1, { w1 with console := w1.console ++ [⟨.error, [.str "❌ 执行出错:", .err e]⟩] }⟩

/-! ## nft/PublishNFT.js -/

/-- What the outside answers during one run of `PublishNFT.js`. -/
structure PublishEnv where
  RPC_URL : Option String
  CREATOR_KEY : Option String
  MANGA_NFT_ADDRESS : Option String
  /-- `path.resolve(__dirname, '../../abi/MangaNFT.json')` -/
  abiPath : String
  /-- `fs.existsSync(abiPath)` -/
  abiExists : Bool
  /-- `JSON.parse(fs.readFileSync(abiPath, 'utf8')).abi` -/
  abi : Except JsError Abi
  /-- `new ethers.JsonRpcProvider(RPC_URL)` and `new ethers.Wallet(PRIVATE_KEY, provider)`:
  the wallet address -/
  signer : Except JsError String
  /-- `new ethers.Contract(MANGA_NFT_ADDRESS, abi, wallet)` -/
  contract : Except JsError Unit
  /-- `contract.platformAddress()` -/
  platformAddress : Except JsError String
  /-- `contract.monthlyDataUploader()` -/
  monthlyDataUploader : Except JsError String
  /-- `contract.createChapter(...)`: the transaction hash -/
  createChapter : Except JsError String
  /-- `tx.wait()` -/
  receipt : Except JsError Receipt
  /-- `new ethers.Interface(abi)` -/
  interface : Except JsError Decoder

/-- The first `try` of `main`: the contract state check, whose `catch` only reports. -/
def publishCheckState (env : PublishEnv) (target walletAddress : String) : Script Unit :=
  tryCatch
    (do
      let platformAddress ← await (.query target "platformAddress" []) env.platformAddress
      log [.str "平台地址:", .str platformAddress]
      let monthlyDataUploader ←
        await (.query target "monthlyDataUploader" []) env.monthlyDataUploader
      log [.str "MonthlyDataUploader地址:", .str monthlyDataUploader]
      if walletAddress.toLower ≠ platformAddress.toLower then
        warn [.str "⚠️  警告: 调用者地址与平台地址不匹配"]
        warn [.str "   调用者:", .str walletAddress]
        warn [.str "   平台地址:", .str platformAddress])
    (fun error => logError [.str "获取合约状态失败:", .str error.message])

/-- The second `try` of `main`: send `createChapter`, wait, decode the receipt. -/
def publishCreateChapter (env : PublishEnv) (target : String) : Script Unit :=
  tryCatch
    (do
      log [.str "\n开始调用 createChapter..."]
      let tx ← await
        (.send target "createChapter"
          [.str "海贼王 第一话 冒险的黎明",
           .str "One Piece Chapter 1: Dawn of the Adventure",
           .str "ワンピース 第1話 冒険の夜明け",
           .str "伟大的冒险开始了！路飞踏上旅程的第一步。",
           .str "The grand adventure begins! Luffy sets off on his journey.",
           .str "壮大な冒険が始まる！ルフィの旅の第一歩。",
           .num 100,
           .str "https://gateway.pinata.cloud/ipfs/bafkreihepqt2p3szkcjfwiipmtgsgmyoz6vtpxiulcc3agv4zw6ezkfhvq",
           .str "0x1E86A3da7301AC98DD170278E2c5cF9D6d9616C7"]
          none)
        env.createChapter
      log [.str "✅ 交易已发送，交易哈希:", .str tx]
      log [.str "等待交易确认..."]
      let receipt ← await (.awaitTx tx) env.receipt
      log [.str "✅ 交易已确认，区块号:", .num receipt.blockNumber]
      let iface ← attempt env.interface
      publishDecodeLoop iface receipt.logs)
    (fun err => do
      logError [.str "❌ 执行出错:", .str err.message]
      if includes err.message "require(false)" then
        logError [.str "\n🔍 可能的原因:"]
        logError [.str "1. 调用者不是平台地址"]
        logError [.str "2. maxCopies 不是10的倍数"]
        logError [.str "3. MonthlyDataUploader 合约配置问题"]
        logError [.str "4. 合约权限问题"]
      if includes err.message "insufficient funds" then
        logError [.str "余额不足，请检查账户余额"]
      if includes err.message "nonce" then
        logError [.str "Nonce 错误，请等待之前的交易确认或手动设置 nonce"]
      processExit 1)

/-- The function `main` of `PublishNFT.js`. -/
def publishMain (env : PublishEnv) : Script Unit := do
  if unset env.RPC_URL || unset env.CREATOR_KEY || unset env.MANGA_NFT_ADDRESS then
    logError [.str "请确认 .env 文件中已正确设置 RPC_URL、CREATOR_KEY 和 MANGA_NFT_ADDRESS"]
    processExit 1
  let MANGA_NFT_ADDRESS := env.MANGA_NFT_ADDRESS.getD ""
  log [.str "ABI路径:", .str env.abiPath]
  if !env.abiExists then
    logError [.str "ABI文件不存在，请先运行 forge build"]
    processExit 1
  let _abi ← attempt env.abi
  let walletAddress ← attempt env.signer
  attempt env.contract
  log [.str "准备调用 createChapter 方法..."]
  log [.str "调用者地址:", .str walletAddress]
  log [.str "合约地址:", .str MANGA_NFT_ADDRESS]
  publishCheckState env MANGA_NFT_ADDRESS walletAddress
  publishCreateChapter env MANGA_NFT_ADDRESS

/-! ## nft/Register.js: the registration call -/

/-- What the outside answers to the last `try` block of `Register.js`. -/
structure RegisterTxEnv where
  /-- `contract.investorRegistration(investorAddress, tokenId)`: the transaction hash -/
  investorRegistration : Except JsError String
  /-- `tx.wait()` -/
  receipt : Except JsError Receipt
  /-- `new ethers.Interface(abi)` -/
  interface : Except JsError Decoder
  /-- the error (`INVALID_ARGUMENT`) the contract method throws for a token identifier
  that ethers cannot encode -/
  argumentError : String → JsError

/-- A contract method called with the token identifier string: ethers encodes the
arguments before anything is sent, and throws when the string is no `uint256`. -/
def encodeTokenId (argumentError : String → JsError) (tokenId : String) : Script Nat :=
  match encodeUint256 tokenId with
  | some n => pure n
  | none => attempt (.error (argumentError tokenId))

/-- The last `try` block of `main` in `Register.js`: send `investorRegistration`, wait,
decode the receipt. `tokenId` is the command-line string, passed on as it is. -/
def registerSubmit (env : RegisterTxEnv) (target investorAddress tokenId : String) :
    Script Unit :=
  tryCatch
    (do
      log [.str "\n开始调用 investorRegistration..."]
      let _id ← encodeTokenId env.argumentError tokenId
      let tx ← await
        (.send target "investorRegistration" [.str investorAddress, .str tokenId] none)
        env.investorRegistration
      log [.str "✅ 交易已发送，交易哈希:", .str tx]
      log [.str "等待交易确认..."]
      let receipt ← await (.awaitTx tx) env.receipt
      log [.str "✅ 交易已确认，区块号:", .num receipt.blockNumber]
      let iface ← attempt env.interface
      registerDecodeLoop iface receipt.logs
      log [.str "\n🎉 投资者注册成功！"])
    (fun err => do
      logError [.str "❌ 执行出错:", .str err.message]
      if includes err.message "require(false)" then
        logError [.str "\n🔍 可能的原因:"]
        logError [.str "1. 调用者不是平台地址"]
        logError [.str "2. 投资者不持有该代币"]
        logError [.str "3. 投资者已经注册过该代币"]
        logError [.str "4. MonthlyDataUploader 合约配置问题"]
      if includes err.message "insufficient funds" then
        logError [.str "余额不足，请检查账户余额"]
      if includes err.message "nonce" then
        logError [.str "Nonce 错误，请等待之前的交易确认或手动设置 nonce"]
      processExit 1)

/-! ## nft/Register.js -/

/-- What the outside answers during one run of `Register.js`. -/
structure RegisterEnv where
  RPC_URL : Option String
  CREATOR_KEY : Option String
  MANGA_NFT_ADDRESS : Option String
  /-- `path.resolve(__dirname, '../../abi/MangaNFT.json')` -/
  abiPath : String
  /-- `fs.existsSync(abiPath)` -/
  abiExists : Bool
  /-- `JSON.parse(fs.readFileSync(abiPath, 'utf8')).abi` -/
  abi : Except JsError Abi
  /-- `new ethers.JsonRpcProvider(RPC_URL)` and `new ethers.Wallet(PRIVATE_KEY, provider)`:
  the wallet address -/
  signer : Except JsError String
  /-- `new ethers.Contract(MANGA_NFT_ADDRESS, abi, wallet)` -/
  contract : Except JsError Unit
  /-- `contract.platformAddress()` -/
  platformAddress : Except JsError String
  /-- `process.argv.slice(2)` -/
  argv : List String
  /-- the library function `ethers.isAddress` -/
  isAddress : String → Bool
  /-- `contract.balanceOf(investorAddress, tokenId)` -/
  balanceOf : Except JsError Nat
  /-- the calls of the last `try` block -/
  submit : RegisterTxEnv

/-- The first `try` of `main` in `Register.js`: the contract state check, whose `catch`
only reports. -/
def registerCheckState (env : RegisterEnv) (target walletAddress : String) : Script Unit :=
  tryCatch
    (do
      let platformAddress ← await (.query target "platformAddress" []) env.platformAddress
      log [.str "平台地址:", .str platformAddress]
      if walletAddress.toLower ≠ platformAddress.toLower then
        warn [.str "⚠️  警告: 调用者地址与平台地址不匹配"]
        warn [.str "   调用者:", .str walletAddress]
        warn [.str "   平台地址:", .str platformAddress])
    (fun error => logError [.str "获取合约状态失败:", .str error.message])

/-- The second `try` of `main` in `Register.js`: the balance check. -/
def registerCheckBalance (env : RegisterEnv) (target investorAddress tokenId : String) :
    Script Unit :=
  tryCatch
    (do
      let _id ← encodeTokenId env.submit.argumentError tokenId
      let balance ← await
        (.query target "balanceOf" [.str investorAddress, .str tokenId]) env.balanceOf
      log [.str "  当前余额:", .num balance]
      if balance = 0 then
        logError [.str "❌ 投资者不持有该代币，无法注册"]
        processExit 1)
    (fun error => do
      logError [.str "❌ 检查余额失败:", .str error.message]
      processExit 1)

/-- The function `main` of `Register.js`. -/
def registerMain (env : RegisterEnv) : Script Unit := do
  if unset env.RPC_URL || unset env.CREATOR_KEY || unset env.MANGA_NFT_ADDRESS then
    logError [.str "请确认 .env 文件中已正确设置 RPC_URL、CREATOR_KEY 和 MANGA_NFT_ADDRESS"]
    processExit 1
  let MANGA_NFT_ADDRESS := env.MANGA_NFT_ADDRESS.getD ""
  log [.str "ABI路径:", .str env.abiPath]
  if !env.abiExists then
    logError [.str "ABI文件不存在，请先运行 forge build"]
    processExit 1
  let _abi ← attempt env.abi
  let walletAddress ← attempt env.signer
  attempt env.contract
  log [.str "准备调用 investorRegistration 方法..."]
  log [.str "调用者地址:", .str walletAddress]
  log [.str "合约地址:", .str MANGA_NFT_ADDRESS]
  registerCheckState env MANGA_NFT_ADDRESS walletAddress
  if env.argv.length < 2 then
    logError [.str "❌ 请提供投资者地址和代币ID"]
    logError [.str "用法: node scripts/investorRegistration.js <investor_address> <token_id>"]
    logError [.str "示例: node scripts/investorRegistration.js 0x1234... 1234567890"]
    processExit 1
  let investorAddress := env.argv.headD ""
  let tokenId := env.argv.tail.headD ""
  if !env.isAddress investorAddress then
    logError [.str "❌ 无效的投资者地址:", .str investorAddress]
    processExit 1
  if isNaN tokenId || (stringToNumber tokenId).le (.finite 0) then
    logError [.str "❌ 无效的代币ID:", .str tokenId]
    processExit 1
  log [.str "\n📋 注册信息:"]
  log [.str "  投资者地址:", .str investorAddress]
  log [.str "  代币ID:", .str tokenId]
  registerCheckBalance env MANGA_NFT_ADDRESS investorAddress tokenId
  registerSubmit env.submit MANGA_NFT_ADDRESS investorAddress tokenId

/-! ## nft/FreeMint.js -/

/-- What the outside answers during one run of `FreeMint.js`. -/
structure FreeMintEnv where
  MANGA_NFT_ADDRESS : Option String
  /-- `path.resolve(__dirname, '../../abi/MangaNFT.json')` -/
  abiPath : String
  /-- `fs.existsSync(abiPath)` -/
  abiExists : Bool
  /-- `JSON.parse(fs.readFileSync(abiPath, 'utf8')).abi` -/
  abi : Except JsError Abi
  /-- `new ethers.JsonRpcProvider(process.env.RPC_URL)` and
  `new ethers.Wallet(process.env.PRIVATE_KEY, provider)` -/
  signer : Except JsError Unit
  /-- `new ethers.Contract(process.env.MANGA_NFT_ADDRESS, abi, wallet)` -/
  contract : Except JsError Unit
  /-- `contract.freeMint(toAddress, tokenId, 1)`: the transaction hash -/
  freeMint : Except JsError String
  /-- `tx.wait()` -/
  wait : Except JsError Unit

/-- The function `main` of `FreeMint.js`. -/
def freeMintMain (env : FreeMintEnv) : Script Unit := do
  log [.str "ABI路径:", .str env.abiPath]
  if !env.abiExists then
    logError [.str "ABI文件不存在，请先运行 forge build"]
    processExit 1
  let _abi ← attempt env.abi
  attempt env.signer
  attempt env.contract
  let toAddress := "0xdbe41aFD9e285b446735Ca523C53a01Ad98e78C9"
  let tokenId := "1753619893000001"
  log [.str ("正在 mint tokenId = " ++ tokenId ++ " 给 " ++ toAddress ++ "...")]
  let tx ← await
    (.send (env.MANGA_NFT_ADDRESS.getD "") "freeMint" [.str toAddress, .str tokenId, .num 1] none)
    env.freeMint
  await (.awaitTx tx) env.wait
  log [.str "✅ Mint 成功！"]

/-- The last statement of `FreeMint.js`:
`main().catch((err) => { console.error("❌ Mint 失败：", err); })`. The handler prints
and returns, so the process ends on its own. -/
def runFreeMint (env : FreeMintEnv) (w : World) : Run :=
  match freeMintMain env w with
  | (.ok _, w1) => ⟨.ranToEnd, w1⟩
  | (.error (.exit code), w1) => ⟨.exited code, w1⟩
  | (.error (.thrown err), w1) =>
    ⟨.ranToEnd, { w1 with console := w1.console ++ [⟨.error, [.str "❌ Mint 失败：", .err err]⟩] }⟩

/-! ## uploader/getCreator.js -/

/-- What `contract.getCreatorStats(address)` resolves to. -/
structure CreatorStats where
  /-- `stats[0]` -/
  totalPublished : Nat
  /-- `stats[1]` -/
  totalAcquired : Nat
  /-- `stats[2]` -/
  currentHeld : Nat
deriving DecidableEq, Repr

/-- What the outside answers during one run of `getCreator.js`. -/
structure CreatorEnv where
  RPC_URL : Option String
  CREATOR_KEY : Option String
  DATAUPLOADER_ADDRESS : Option String
  /-- `path.resolve(__dirname, '../../abi/MonthlyDataUploader.json')` -/
  abiPath : String
  /-- `fs.existsSync(abiPath)` -/
  abiExists : Bool
  /-- `JSON.parse(fs.readFileSync(abiPath, 'utf8')).abi` -/
  abi : Except JsError Abi
  /-- `new ethers.JsonRpcProvider(RPC_URL)` and `new ethers.Wallet(PRIVATE_KEY, provider)`:
  the wallet address -/
  signer : Except JsError String
  /-- `new ethers.Contract(MONTHLY_DATA_UPLOADER_ADDRESS, abi, wallet)` -/
  contract : Except JsError Unit
  /-- `process.argv.slice(2)` -/
  argv : List String
  /-- the library function `ethers.isAddress` -/
  isAddress : String → Bool
  /-- `contract.getCreatorStats(creatorAddress)` -/
  getCreatorStats : Except JsError CreatorStats
  /-- `contract.isCreator(creatorAddress)` -/
  isCreator : Except JsError Bool
  /-- `contract.getAllCreators()` -/
  getAllCreators : Except JsError (List String)

/-- The `try` of `main` in `getCreator.js`: the primary query, then the two optional ones. -/
def creatorQuery (env : CreatorEnv) (target creatorAddress : String) : Script Unit := do
  log [.str "\n开始调用 getCreatorStats..."]
  let stats ← await (.query target "getCreatorStats" [.str creatorAddress]) env.getCreatorStats
  log [.str "✅ 查询成功！"]
  log [.str "\n📊 创作者统计信息:"]
  log [.str "  🔸 总发布数量 (totalPublished):", .num stats.totalPublished]
  log [.str "  🔸 总获得数量 (totalAcquired):", .num stats.totalAcquired]
  log [.str "  🔸 当前持有数量 (currentHeld):", .num stats.currentHeld]
  log [.str "\n📈 详细统计:"]
  log [.str "   ================="]
  log [.str "   总发布数量:", .num stats.totalPublished, .str "个章节"]
  log [.str "   总获得数量:", .num stats.totalAcquired, .str "个NFT"]
  log [.str "   当前持有数量:", .num stats.currentHeld, .str "个NFT"]
  if stats.totalPublished ≠ 0 then
    let avgAcquired :=
      (JsNumber.ofBigInt stats.totalAcquired).div (JsNumber.ofBigInt stats.totalPublished)
    log [.str "   平均每章节获得:", avgAcquired.toFixed2, .str "个NFT"]
  tryCatch
    (do
      let isCreator ← await (.query target "isCreator" [.str creatorAddress]) env.isCreator
      log [.str "   注册状态:", .str (if isCreator then "✅ 已注册" else "❌ 未注册")])
    (fun _error => log [.str "   注册状态: 无法查询"])
  tryCatch
    (do
      let allCreators ← await (.query target "getAllCreators" []) env.getAllCreators
      log [.str "   总创作者数量:", .num allCreators.length, .str "个"]
      if allCreators.contains creatorAddress then
        log [.str "   在创作者列表中: ✅ 是"]
      else
        log [.str "   在创作者列表中: ❌ 否"])
    (fun _error => log [.str "   无法获取创作者列表"])

/-- The outer `catch (err)` of `main` in `getCreator.js`. -/
def creatorCatch (err : JsError) : Script Unit := do
  logError [.str "❌ 执行出错:", .str err.message]
  if includes err.message "Creator data not found" then
    logError [.str "\n🔍 可能的原因:"]
    logError [.str "1. 创作者地址不存在"]
    logError [.str "2. 创作者从未发布过章节"]
    logError [.str "3. 合约数据为空"]
  if includes err.message "execution reverted" then
    logError [.str "\n🔍 可能的原因:"]
    logError [.str "1. 合约地址错误"]
    logError [.str "2. ABI 不匹配"]
    logError [.str "3. 网络连接问题"]
  processExit 1

/-- The function `main` of `getCreator.js`. -/
def creatorMain (env : CreatorEnv) : Script Unit := do
  if unset env.RPC_URL || unset env.CREATOR_KEY || unset env.DATAUPLOADER_ADDRESS then
    logError [.str "请确认 .env 文件中已正确设置 RPC_URL、CREATOR_KEY 和 MONTHLY_DATA_UPLOADER_ADDRESS"]
    processExit 1
  let MONTHLY_DATA_UPLOADER_ADDRESS := env.DATAUPLOADER_ADDRESS.getD ""
  log [.str "ABI路径:", .str env.abiPath]
  if !env.abiExists then
    logError [.str "ABI文件不存在，请先运行 forge build"]
    processExit 1
  let _abi ← attempt env.abi
  let walletAddress ← attempt env.signer
  attempt env.contract
  log [.str "准备调用 getCreatorStats 方法..."]
  log [.str "调用者地址:", .str walletAddress]
  log [.str "合约地址:", .str MONTHLY_DATA_UPLOADER_ADDRESS]
  if env.argv.length < 1 then
    logError [.str "❌ 请提供创作者地址"]
    logError [.str "用法: node scripts/getCreatorStats.js <creator_address>"]
    logError [.str "示例: node scripts/getCreatorStats.js 0x1234..."]
    processExit 1
  let creatorAddress := env.argv.headD ""
  if !env.isAddress creatorAddress then
    logError [.str "❌ 无效的创作者地址:", .str creatorAddress]
    processExit 1
  log [.str "\n📋 查询信息:"]
  log [.str "  创作者地址:", .str creatorAddress]
  tryCatch (creatorQuery env MONTHLY_DATA_UPLOADER_ADDRESS creatorAddress) creatorCatch

/-! ## uploader/getInvestor.js -/

/-- What `contract.getInvestorStats(address)` resolves to. -/
structure InvestorStats where
  /-- `stats[0]` -/
  totalAcquired : Nat
  /-- `stats[1]` -/
  currentHeld : Nat
deriving DecidableEq, Repr

/-- What the outside answers during one run of `getInvestor.js`. The last four
fields answer the calls written on `monthlyDataUploaderContract`. -/
structure InvestorEnv where
  RPC_URL : Option String
  CREATOR_KEY : Option String
  DATAUPLOADER_ADDRESS : Option String
  /-- `path.resolve(__dirname, '../../abi/MonthlyDataUploader.json')` -/
  abiPath : String
  /-- `fs.existsSync(abiPath)` -/
  abiExists : Bool
  /-- `JSON.parse(fs.readFileSync(abiPath, 'utf8')).abi` -/
  abi : Except JsError Abi
  /-- `new ethers.JsonRpcProvider(RPC_URL)` and `new ethers.Wallet(PRIVATE_KEY, provider)`:
  the wallet address -/
  signer : Except JsError String
  /-- `new ethers.Contract(MANGA_NFT_ADDRESS, abi, wallet)` -/
  contract : Except JsError Unit
  /-- `contract.platformAddress()` -/
  platformAddress : Except JsError String
  /-- `process.argv.slice(2)` -/
  argv : List String
  /-- the library function `ethers.isAddress` -/
  isAddress : String → Bool
  /-- `contract.getInvestorStats(investorAddress)` -/
  getInvestorStats : Except JsError InvestorStats
  /-- `Date.now()` -/
  now : Nat
  /-- `isInvestor(investorAddress)` -/
  isInvestor : Except JsError Bool
  /-- `getAllInvestors()` -/
  getAllInvestors : Except JsError (List String)
  /-- `getCurrentHeldNFTCountByInvestorExternal(investorAddress)` -/
  currentHeldCount : Except JsError Nat
  /-- `getInvestorMonthlyStats(investorAddress, currentYearMonth)` -/
  monthlyStats : Except JsError Nat

/-- The identifier `monthlyDataUploaderContract`: `getInvestor.js` declares no such
binding (only `provider`, `wallet` and `contract`), so evaluating it throws a
`ReferenceError`. -/
def monthlyDataUploaderContract : Except JsError String :=
  .error ⟨"monthlyDataUploaderContract is not defined"⟩

/-- The expression `Math.floor(Date.now() / 1000 / 60 / 60 / 24 / 30)`. -/
def currentYearMonth (now : Nat) : JsNumber :=
  (((((JsNumber.finite now).div (.finite 1000)).div (.finite 60)).div (.finite 60)).div
    (.finite 24)).div (.finite 30) |>.floor

/-- The expression `(Number(stats[1]) / Number(stats[0]) * 100).toFixed(2)`. -/
def retentionRate (stats : InvestorStats) : Val :=
  (((JsNumber.ofBigInt stats.currentHeld).div (JsNumber.ofBigInt stats.totalAcquired)).mul
    (.finite 100)).toFixed2

/-- The `try` of `main` in `getInvestor.js`: the primary query, then the four optional blocks. -/
def investorQuery (env : InvestorEnv) (target investorAddress : String) : Script Unit := do
  log [.str "\n开始调用 getInvestorStats..."]
  let stats ← await (.query target "getInvestorStats" [.str investorAddress]) env.getInvestorStats
  log [.str "✅ 查询成功！"]
  log [.str "\n📊 投资者统计信息:"]
  log [.str "  🔸 总获得数量 (totalAcquired):", .num stats.totalAcquired]
  log [.str "  🔸 当前持有数量 (currentHeld):", .num stats.currentHeld]
  log [.str "\n📈 详细统计:"]
  log [.str "   ================="]
  log [.str "   总获得数量:", .num stats.totalAcquired, .str "个NFT"]
  log [.str "   当前持有数量:", .num stats.currentHeld, .str "个NFT"]
  if stats.totalAcquired ≠ 0 then
    log [.str "   持有率:", .cat (retentionRate stats) (.str "%")]
  tryCatch
    (do
      let uploader ← attempt monthlyDataUploaderContract
      let isInvestor ← await (.query uploader "isInvestor" [.str investorAddress]) env.isInvestor
      log [.str "   注册状态:", .str (if isInvestor then "✅ 已注册" else "❌ 未注册")])
    (fun _error => log [.str "   注册状态: 无法查询"])
  tryCatch
    (do
      let uploader ← attempt monthlyDataUploaderContract
      let allInvestors ← await (.query uploader "getAllInvestors" []) env.getAllInvestors
      log [.str "   总投资者数量:", .num allInvestors.length, .str "个"]
      if allInvestors.contains investorAddress then
        log [.str "   在投资者列表中: ✅ 是"]
      else
        log [.str "   在投资者列表中: ❌ 否"])
    (fun _error => log [.str "   无法获取投资者列表"])
  tryCatch
    (do
      let uploader ← attempt monthlyDataUploaderContract
      let currentHeldCount ← await
        (.query uploader "getCurrentHeldNFTCountByInvestorExternal" [.str investorAddress])
        env.currentHeldCount
      log [.str "   当前持有NFT总数:", .num currentHeldCount, .str "个"])
    (fun _error => log [.str "   无法获取当前持有数量"])
  tryCatch
    (do
      let key := currentYearMonth env.now
      let uploader ← attempt monthlyDataUploaderContract
      let monthlyStats ← await
        (.query uploader "getInvestorMonthlyStats" [.str investorAddress, key.toVal])
        env.monthlyStats
      log [.str "   当月获得数量:", .num monthlyStats, .str "个NFT"])
    (fun _error => log [.str "   无法获取月度统计"])

/-- The outer `catch (err)` of `main` in `getInvestor.js`. -/
def investorCatch (err : JsError) : Script Unit := do
  logError [.str "❌ 执行出错:", .str err.message]
  if includes err.message "Investor data not found" then
    logError [.str "\n🔍 可能的原因:"]
    logError [.str "1. 投资者地址不存在"]
    logError [.str "2. 投资者从未获得过NFT"]
    logError [.str "3. 合约数据为空"]
  if includes err.message "execution reverted" then
    logError [.str "\n🔍 可能的原因:"]
    logError [.str "1. 合约地址错误"]
    logError [.str "2. ABI 不匹配"]
    logError [.str "3. 网络连接问题"]
  processExit 1

/-- The function `main` of `getInvestor.js`. -/
def investorMain (env : InvestorEnv) : Script Unit := do
  if unset env.RPC_URL || unset env.CREATOR_KEY || unset env.DATAUPLOADER_ADDRESS then
    logError [.str "请确认 .env 文件中已正确设置 RPC_URL、CREATOR_KEY 和 MANGA_NFT_ADDRESS"]
    processExit 1
  let MANGA_NFT_ADDRESS := env.DATAUPLOADER_ADDRESS.getD ""
  log [.str "ABI路径:", .str env.abiPath]
  if !env.abiExists then
    logError [.str "ABI文件不存在，请先运行 forge build"]
    processExit 1
  let _abi ← attempt env.abi
  let walletAddress ← attempt env.signer
  attempt env.contract
  log [.str "准备调用 getInvestorStats 方法..."]
  log [.str "调用者地址:", .str walletAddress]
  log [.str "合约地址:", .str MANGA_NFT_ADDRESS]
  tryCatch
    (do
      let platformAddress ← await (.query MANGA_NFT_ADDRESS "platformAddress" []) env.platformAddress
      log [.str "平台地址:", .str platformAddress])
    (fun error => logError [.str "获取合约状态失败:", .str error.message])
  if env.argv.length < 1 then
    logError [.str "❌ 请提供投资者地址"]
    logError [.str "用法: node scripts/getInvestorStats.js <investor_address>"]
    logError [.str "示例: node scripts/getInvestorStats.js 0x1234..."]
    processExit 1
  let investorAddress := env.argv.headD ""
  if !env.isAddress investorAddress then
    logError [.str "❌ 无效的投资者地址:", .str investorAddress]
    processExit 1
  log [.str "\n📋 查询信息:"]
  log [.str "  投资者地址:", .str investorAddress]
  tryCatch (investorQuery env MANGA_NFT_ADDRESS investorAddress) investorCatch

/-! ## Properties of script fragments -/

namespace Script

/-- A script that never changes the artifact store. -/
def KeepsFiles {α : Type} (m : Script α) : Prop := ∀ w, (m w).2.files = w.files

/-- A script whose chain operations all satisfy `P`. -/
def Issues {α : Type} (P : ChainOp → Prop) (m : Script α) : Prop :=
  ∀ w, ∃ rest, (m w).2.chain = w.chain ++ rest ∧ ∀ op ∈ rest, P op

/-- A script under which every file is as before or holds a content satisfying `ok`. -/
def Writes {α : Type} (ok : Content → Prop) (m : Script α) : Prop :=
  ∀ w k c, (m w).2.files.read k = some c → w.files.read k = some c ∨ ok c

/-- A script that calls `process.exit` only with codes satisfying `P`. -/
def ExitCodes {α : Type} (P : Nat → Prop) (m : Script α) : Prop :=
  ∀ w c, (m w).1 = .error (.exit c) → P c

end Script

/-- What may follow step 3 on the chain: the two read-backs and `getNetwork`. -/
abbrev readOnly (a b : String) (op : ChainOp) : Prop :=
  op = .query a "mangaNFTContract" [] ∨ op = .query b "monthlyDataUploader" [] ∨ op = .getNetwork

/-- The member `contracts` of the record of a run that deployed `a` and `b`. -/
def expectedContracts (config : Config) (d : Deployed) : List (String × ContractEntry) :=
  [("monthlyDataUploader",
      ⟨d.monthlyDataUploader, [config.platformAddress, AddressZero],
        d.monthlyDataUploaderArtifact.abi⟩),
    ("mangaNFT",
      ⟨d.mangaNFT, [config.uri, config.platformAddress, config.paymentToken,
        d.monthlyDataUploader], d.mangaNFTArtifact.abi⟩)]

/-! ## Sequences of deployment runs -/

/-- The store a run leaves when all its writes succeed. -/
def Store.saved (s : Store) (now : Nat) (info : DeploymentInfo) : Store :=
  (((if s.dirExists then s else { s with dirExists := true }).write
    (.deployment now) (.json info)).write .latest (.json info)).write
    .foundryScript (.text (generateFoundryScript info))

/-- The record `info` is the one a run under `penv` and `env` builds. -/
def IsRecordOf (penv : ProcessEnv) (env : DeployEnv) (info : DeploymentInfo) : Prop :=
  ∃ d : Deployed,
    env.artifactMDU = .ok d.monthlyDataUploaderArtifact ∧
    env.artifactNFT = .ok d.mangaNFTArtifact ∧
    env.deployMDU = .ok d.monthlyDataUploader ∧
    env.deployNFT = .ok d.mangaNFT ∧
    info.contracts = expectedContracts (loadConfig penv) d ∧
    env.wallet = .ok info.deployer ∧
    info.deploymentTime = env.isoTime ∧
    info.config = loadConfig penv ∧
    (∃ n, env.networkForName = .ok n ∧ info.network = n.name) ∧
    (∃ n, env.networkForChainId = .ok n ∧ info.chainId = n.chainId)

/-- Successive runs of the deployment command, each a new process that finds the
store as the previous one left it. -/
def storeAfter : List (ProcessEnv × DeployEnv) → Store → Store
  | [], s => s
  | r :: rest, s => storeAfter rest (runDeploy r.1 r.2 ⟨[], [], s⟩).world.files

/-- Every run of the sequence ends with exit status 0. -/
def allSucceed : List (ProcessEnv × DeployEnv) → Store → Prop
  | [], _ => True
  | r :: rest, s =>
    (runDeploy r.1 r.2 ⟨[], [], s⟩).termination = .exited 0 ∧
      allSucceed rest (runDeploy r.1 r.2 ⟨[], [], s⟩).world.files

/-! ## Sample inputs -/

/-- An environment in which every call succeeds and the first read-back returns the
zero address instead of the MangaNFT address. -/
def mismatchEnv : DeployEnv where
  wallet := .ok "0xDeployer"
  balance := .ok 1000
  networkAtStart := .ok ⟨"amoy", 80002⟩
  artifactMDU := .ok ⟨["updateMangaNFTContract"], "0x60"⟩
  artifactNFT := .ok ⟨["freeMint"], "0x61"⟩
  factoryMDU := .ok ()
  deployMDU := .ok "0xAAAA"
  deployedMDU := .ok ()
  factoryNFT := .ok ()
  deployNFT := .ok "0xBBBB"
  deployedNFT := .ok ()
  updateTx := .ok "0xtx"
  updateWait := .ok ()
  readMangaNFTContract := .ok AddressZero
  readMonthlyDataUploader := .ok "0xAAAA"
  networkForName := .ok ⟨"amoy", 80002⟩
  networkForChainId := .ok ⟨"amoy", 80002⟩
  isoTime := "2025-01-01T00:00:00.000Z"
  mkdir := .ok ()
  now := 1735689600000
  writeTimestamped := .ok ()
  writeLatest := .ok ()
  writeScript := .ok ()

/-- No environment variable set. -/
def noEnv : ProcessEnv := ⟨none, none, none, none, none⟩


/-- A decoder that knows the logs with data `"A"` and `"B"` as `ChapterCreated` events,
`"M"` as a `ChapterMinted` event and `"R"` as an `InvestorNFTAcquired` event, and no
other log. -/
def sampleDecoder : Decoder where
  parseLog := fun entry =>
    if entry.data = "A" then
      some ⟨"ChapterCreated", [("tokenId", .uint 1), ("creator", .text "0xC1")]⟩
    else if entry.data = "B" then
      some ⟨"ChapterCreated", [("tokenId", .uint 2), ("creator", .text "0xC2")]⟩
    else if entry.data = "M" then
      some ⟨"ChapterMinted", [("tokenId", .uint 1), ("to", .text "0xT1"),
        ("amountMinted", .uint 10), ("mintTime", .uint 1700000000)]⟩
    else if entry.data = "R" then
      some ⟨"InvestorNFTAcquired", [("investor", .text "0xF1"), ("acquiredCount", .uint 1),
        ("totalAcquired", .uint 4)]⟩
    else none

/-- An environment in which every call succeeds and both read-backs return the
deployed addresses. -/
def okEnv (a b : String) (now : Nat) (isoTime : String) : DeployEnv where
  wallet := .ok "0xDeployer"
  balance := .ok 1000
  networkAtStart := .ok ⟨"amoy", 80002⟩
  artifactMDU := .ok ⟨["updateMangaNFTContract"], "0x60"⟩
  artifactNFT := .ok ⟨["freeMint"], "0x61"⟩
  factoryMDU := .ok ()
  deployMDU := .ok a
  deployedMDU := .ok ()
  factoryNFT := .ok ()
  deployNFT := .ok b
  deployedNFT := .ok ()
  updateTx := .ok "0xtx"
  updateWait := .ok ()
  readMangaNFTContract := .ok b
  readMonthlyDataUploader := .ok a
  networkForName := .ok ⟨"amoy", 80002⟩
  networkForChainId := .ok ⟨"amoy", 80002⟩
  isoTime := isoTime
  mkdir := .ok ()
  now := now
  writeTimestamped := .ok ()
  writeLatest := .ok ()
  writeScript := .ok ()

/-- As `okEnv`, with the confirmation of `updateMangaNFTContract` reverting. -/
def bindRevertEnv : DeployEnv :=
  { okEnv "0xAAAA" "0xBBBB" 1735689600000 "2025-01-01T00:00:00.000Z" with
    updateWait := .error ⟨"transaction reverted"⟩ }

/-- As `okEnv`, with the deployment of MangaNFT failing. -/
def deployFailEnv : DeployEnv :=
  { okEnv "0xAAAA" "0xBBBB" 1735689600000 "2025-01-01T00:00:00.000Z" with
    deployNFT := .error ⟨"insufficient funds"⟩ }

/-- A first successful run. -/
def firstRun : ProcessEnv × DeployEnv :=
  (noEnv, okEnv "0xA1" "0xB1" 1735689600000 "2025-01-01T00:00:00.000Z")

/-- A second successful run, of other contracts, that reads the same `Date.now()`. -/
def sameClockRun : ProcessEnv × DeployEnv :=
  (noEnv, okEnv "0xA2" "0xB2" 1735689600000 "2025-01-01T00:00:00.000Z")

/-- A second successful run one minute later. -/
def laterRun : ProcessEnv × DeployEnv :=
  (noEnv, okEnv "0xA2" "0xB2" 1735689660000 "2025-01-01T00:01:00.000Z")

/-- A run of `getCreator.js` with statistics 3, 7, 7 and a roster query that throws. -/
def sampleCreatorEnv : CreatorEnv where
  RPC_URL := some "http://localhost:8545"
  CREATOR_KEY := some "0xkey"
  DATAUPLOADER_ADDRESS := some "0xUploader"
  abiPath := "abi/MonthlyDataUploader.json"
  abiExists := true
  abi := .ok []
  signer := .ok "0xCaller"
  contract := .ok ()
  argv := ["0xCreator"]
  isAddress := fun _ => true
  getCreatorStats := .ok ⟨3, 7, 7⟩
  isCreator := .ok true
  getAllCreators := .error ⟨"roster unavailable"⟩

/-- A run of `getInvestor.js` for an investor who acquired nothing. -/
def zeroInvestorEnv : InvestorEnv where
  RPC_URL := some "http://localhost:8545"
  CREATOR_KEY := some "0xkey"
  DATAUPLOADER_ADDRESS := some "0xUploader"
  abiPath := "abi/MonthlyDataUploader.json"
  abiExists := true
  abi := .ok []
  signer := .ok "0xCaller"
  contract := .ok ()
  platformAddress := .ok "0xPlatform"
  argv := ["0xInvestor"]
  isAddress := fun _ => true
  getInvestorStats := .ok ⟨0, 0⟩
  now := 1735689600000
  isInvestor := .ok true
  getAllInvestors := .ok []
  currentHeldCount := .ok 0
  monthlyStats := .ok 0

/-- A stand-in for `ethers.isAddress` on the sample runs: `0x` followed by 40
hexadecimal digits. The library accepts such a string when its letters are all of one
case, and a mixed-case one when its checksum is right. -/
def sampleIsAddress (s : String) : Bool :=
  match s.data with
  | '0' :: 'x' :: digits => digits.length == 40 && digits.all fun c => (digitValue 16 c).isSome
  | _ => false

/-- A run of `getInvestor.js` with an argument that is no address. -/
def badAddressInvestorEnv : InvestorEnv :=
  { zeroInvestorEnv with argv := ["not-an-address"], isAddress := sampleIsAddress }

/-- A run of `Register.js` in which the chain answers every call, for the given
arguments. The error for a token identifier that cannot be encoded carries the head of
the library's message. -/
def sampleRegisterEnv (argv : List String) : RegisterEnv where
  RPC_URL := some "http://localhost:8545"
  CREATOR_KEY := some "0xkey"
  MANGA_NFT_ADDRESS := some "0xManga"
  abiPath := "abi/MangaNFT.json"
  abiExists := true
  abi := .ok []
  signer := .ok "0xCaller"
  contract := .ok ()
  platformAddress := .ok "0xCaller"
  argv := argv
  isAddress := sampleIsAddress
  balanceOf := .ok 1
  submit := ⟨.ok "0xtx", .ok ⟨7, []⟩, .ok sampleDecoder,
    fun _ => ⟨"invalid BigNumberish string"⟩⟩

/-- A run of `FreeMint.js` whose `freeMint` transaction is rejected. -/
def revertedFreeMintEnv : FreeMintEnv where
  MANGA_NFT_ADDRESS := some "0xManga"
  abiPath := "abi/MangaNFT.json"
  abiExists := true
  abi := .ok []
  signer := .ok ()
  contract := .ok ()
  freeMint := .error ⟨"execution reverted"⟩
  wait := .ok ()

/-- A run of `getCreator.js` for an address given in lower case, with a roster that
holds the same address in checksum case. -/
def lowerCaseCreatorEnv : CreatorEnv :=
  { sampleCreatorEnv with
    argv := ["0x1e86a3da7301ac98dd170278e2c5cf9d6d9616c7"]
    isAddress := sampleIsAddress
    getAllCreators := .ok ["0x1E86A3da7301AC98DD170278E2c5cF9D6d9616C7"] }

/-- The environment of a run with another signer key. -/
def otherKeyEnv : ProcessEnv := { noEnv with PRIVATE_KEY := some "0xother" }

/-! # Properties -/

namespace Script

@[simp] theorem bind_apply {α β : Type} (m : Script α) (f : α → Script β) (w : World) :
    (m >>= f) w = match m w with
      | (.ok a, w1) => f a w1
      | (.error e, w1) => (.error e, w1) := rfl

@[simp] theorem pure_apply {α : Type} (a : α) (w : World) :
    (pure a : Script α) w = (.ok a, w) := rfl

@[simp] theorem log_apply (args : List Val) (w : World) :
    log args w = (.ok (), { w with console := w.console ++ [⟨.log, args⟩] }) := rfl

@[simp] theorem warn_apply (args : List Val) (w : World) :
    warn args w = (.ok (), { w with console := w.console ++ [⟨.warn, args⟩] }) := rfl

@[simp] theorem logError_apply (args : List Val) (w : World) :
    logError args w = (.ok (), { w with console := w.console ++ [⟨.error, args⟩] }) := rfl

@[simp] theorem processExit_apply {α : Type} (code : Nat) (w : World) :
    (processExit code : Script α) w = (.error (.exit code), w) := rfl

@[simp] theorem attempt_ok {α : Type} (a : α) (w : World) :
    attempt (.ok a) w = (.ok a, w) := rfl

@[simp] theorem attempt_error {α : Type} (e : JsError) (w : World) :
    (attempt (.error e) : Script α) w = (.error (.thrown e), w) := rfl

@[simp] theorem await_ok {α : Type} (op : ChainOp) (a : α) (w : World) :
    await op (.ok a) w = (.ok a, { w with chain := w.chain ++ [op] }) := rfl

@[simp] theorem await_error {α : Type} (op : ChainOp) (e : JsError) (w : World) :
    (await op (.error e) : Script α) w =
      (.error (.thrown e), { w with chain := w.chain ++ [op] }) := rfl

@[simp] theorem dirExists_apply (w : World) : dirExists w = (.ok w.files.dirExists, w) := rfl

@[simp] theorem mkdir_ok (u : Unit) (w : World) :
    mkdir (.ok u) w = (.ok (), { w with files := { w.files with dirExists := true } }) := rfl

@[simp] theorem mkdir_error (e : JsError) (w : World) :
    mkdir (.error e) w = (.error (.thrown e), w) := rfl

@[simp] theorem writeFile_ok (k : FileKey) (c : Content) (u : Unit) (w : World) :
    writeFile k c (.ok u) w = (.ok (), { w with files := w.files.write k c }) := rfl

@[simp] theorem writeFile_error (k : FileKey) (c : Content) (e : JsError) (w : World) :
    writeFile k c (.error e) w = (.error (.thrown e), w) := rfl

@[simp] theorem ite_apply {α : Type} (c : Prop) [Decidable c] (m1 m2 : Script α) (w : World) :
    (if c then m1 else m2) w = if c then m1 w else m2 w := by
  split <;> rfl

theorem tryCatch_apply {α : Type} (body : Script α) (handler : JsError → Script α) (w : World) :
    tryCatch body handler w = match body w with
      | (.error (.thrown e), w1) => handler e w1
      | r => r := rfl

end Script

/-! ## The artifact store -/

theorem Store.find_filter_ne (l : List (FileKey × Content)) (k k2 : FileKey) (h : k2 ≠ k) :
    List.find? (fun e => e.1 == k2) (List.filter (fun e => !(e.1 == k)) l)
      = List.find? (fun e => e.1 == k2) l := by
  have hk : (k == k2) = false := by simpa using fun h3 : k = k2 => h h3.symm
  induction l with
  | nil => rfl
  | cons x xs ih =>
    by_cases hx : x.1 = k
    · simp [List.filter_cons, List.find?_cons, hx, hk, ih]
    · by_cases hx2 : x.1 = k2
      · simp [List.filter_cons, List.find?_cons, hx2, h]
      · simp [List.filter_cons, List.find?_cons, hx, hx2, ih]

theorem Store.read_write_same (s : Store) (k : FileKey) (c : Content) :
    (s.write k c).read k = some c := by
  have h : List.find? (fun e => e.1 == k) (List.filter (fun e => !(e.1 == k)) s.entries)
      = none := by
    simp [List.find?_eq_none]
  simp [Store.read, Store.write, List.find?_append, h]

theorem Store.read_write_other (s : Store) (k k2 : FileKey) (c : Content) (h : k2 ≠ k) :
    (s.write k c).read k2 = s.read k2 := by
  have h2 : ¬ k = k2 := fun h3 => h h3.symm
  simp [Store.read, Store.write, List.find?_append, Store.find_filter_ne _ _ _ h,
    List.find?_cons, h2]

theorem Store.read_write (s : Store) (k k2 : FileKey) (c : Content) :
    (s.write k c).read k2 = if k2 = k then some c else s.read k2 := by
  by_cases h : k2 = k
  · subst h
    simp [Store.read_write_same]
  · simp [h, Store.read_write_other _ _ _ _ h]

theorem Store.read_mkdir (s : Store) (b : Bool) (k : FileKey) :
    Store.read { s with dirExists := b } k = s.read k := rfl

/-! ## Composition of script fragments -/
namespace Script

theorem bind_eq {α β : Type} (m : Script α) (f : α → Script β) (w : World) :
    (m >>= f) w = match (m w).1 with
      | .ok a => f a (m w).2
      | .error e => (.error e, (m w).2) := by
  show andThen m f w = _
  unfold andThen
  rcases m w with ⟨r, w1⟩
  cases r <;> rfl

theorem tryCatch_eq {α : Type} (body : Script α) (handler : JsError → Script α) (w : World) :
    tryCatch body handler w = match (body w).1 with
      | .error (.thrown e) => handler e (body w).2
      | _ => body w := by
  unfold tryCatch
  rcases body w with ⟨r, w1⟩
  rcases r with (e | c) | a <;> rfl

theorem keepsFiles_bind {α β : Type} {m : Script α} {f : α → Script β}
    (hm : KeepsFiles m) (hf : ∀ a, KeepsFiles (f a)) : KeepsFiles (m >>= f) := by
  intro w
  rw [bind_eq]
  have := hm w
  cases h : (m w).1 with
  | ok a => simp only [h]; rw [hf a]; exact this
  | error e => simpa [h] using this

theorem keepsFiles_tryCatch {α : Type} {m : Script α} {f : JsError → Script α}
    (hm : KeepsFiles m) (hf : ∀ e, KeepsFiles (f e)) : KeepsFiles (tryCatch m f) := by
  intro w
  rw [tryCatch_eq]
  have := hm w
  rcases h : (m w).1 with (e | c) | a
  · simp only [h]; rw [hf e]; exact this
  · simpa [h] using this
  · simpa [h] using this

theorem keepsFiles_pure {α : Type} (a : α) : KeepsFiles (pure a : Script α) := fun _ => rfl
theorem keepsFiles_log (args : List Val) : KeepsFiles (log args) := fun _ => rfl
theorem keepsFiles_warn (args : List Val) : KeepsFiles (warn args) := fun _ => rfl
theorem keepsFiles_logError (args : List Val) : KeepsFiles (logError args) := fun _ => rfl
theorem keepsFiles_processExit {α : Type} (c : Nat) : KeepsFiles (processExit c : Script α) :=
  fun _ => rfl
theorem keepsFiles_attempt {α : Type} (o : Except JsError α) : KeepsFiles (attempt o) := by
  intro w; cases o <;> rfl
theorem keepsFiles_await {α : Type} (op : ChainOp) (o : Except JsError α) :
    KeepsFiles (await op o) := by
  intro w; cases o <;> rfl
theorem keepsFiles_ite {α : Type} (c : Prop) [Decidable c] {m1 m2 : Script α}
    (h1 : KeepsFiles m1) (h2 : KeepsFiles m2) : KeepsFiles (if c then m1 else m2) := by
  split <;> assumption

end Script

set_option maxRecDepth 100000 in
theorem deployConnect_keepsFiles (config : Config) (env : DeployEnv) :
    KeepsFiles (deployConnect config env) := by
  unfold deployConnect
  with_reducible repeat (first
    | apply keepsFiles_bind | apply keepsFiles_ite
    | exact keepsFiles_pure _ | exact keepsFiles_log _ | exact keepsFiles_attempt _
    | exact keepsFiles_await _ _ | intro _ | dsimp only)

set_option maxRecDepth 100000 in
theorem deployAndBind_keepsFiles (config : Config) (env : DeployEnv) :
    KeepsFiles (deployAndBind config env) := by
  unfold deployAndBind
  with_reducible repeat (first
    | apply keepsFiles_bind | apply keepsFiles_ite
    | exact keepsFiles_pure _ | exact keepsFiles_log _ | exact keepsFiles_attempt _
    | exact keepsFiles_await _ _ | intro _ | dsimp only)

set_option maxRecDepth 100000 in
theorem verifyConnections_keepsFiles (env : DeployEnv) (d : Deployed) :
    KeepsFiles (verifyConnections env d) := by
  unfold verifyConnections
  with_reducible repeat (first
    | apply keepsFiles_bind | apply keepsFiles_ite
    | exact keepsFiles_pure _ | exact keepsFiles_log _ | exact keepsFiles_attempt _
    | exact keepsFiles_await _ _ | intro _ | dsimp only)

set_option maxRecDepth 100000 in
theorem buildDeploymentInfo_keepsFiles (config : Config) (wa : String) (env : DeployEnv)
    (d : Deployed) : KeepsFiles (buildDeploymentInfo config wa env d) := by
  unfold buildDeploymentInfo
  with_reducible repeat (first
    | apply keepsFiles_bind | apply keepsFiles_ite
    | exact keepsFiles_pure _ | exact keepsFiles_log _ | exact keepsFiles_attempt _
    | exact keepsFiles_await _ _ | intro _ | dsimp only)

set_option maxRecDepth 100000 in
theorem displaySummary_keepsFiles (wa : String) (d : Deployed) (info : DeploymentInfo) :
    KeepsFiles (displaySummary wa d info) := by
  unfold displaySummary
  with_reducible repeat (first
    | apply keepsFiles_bind | apply keepsFiles_ite
    | exact keepsFiles_pure _ | exact keepsFiles_log _ | exact keepsFiles_attempt _
    | exact keepsFiles_await _ _ | intro _ | dsimp only)

theorem deployCatch_keepsFiles (e : JsError) : KeepsFiles (deployCatch e) := by
  unfold deployCatch
  exact keepsFiles_bind (keepsFiles_logError _) (fun _ => keepsFiles_processExit _)

namespace Script

theorem issues_of_chain_eq {α : Type} {P : ChainOp → Prop} {m : Script α}
    (h : ∀ w, (m w).2.chain = w.chain) : Issues P m :=
  fun w => ⟨[], by simp [h w], by simp⟩

theorem issues_bind {α β : Type} {P : ChainOp → Prop} {m : Script α} {f : α → Script β}
    (hm : Issues P m) (hf : ∀ a, Issues P (f a)) : Issues P (m >>= f) := by
  intro w
  rw [bind_eq]
  obtain ⟨r1, h1, p1⟩ := hm w
  cases h : (m w).1 with
  | ok a =>
    obtain ⟨r2, h2, p2⟩ := hf a (m w).2
    refine ⟨r1 ++ r2, ?_, ?_⟩
    · simp only [h2, h1, List.append_assoc]
    · intro op hop
      rcases List.mem_append.mp hop with h3 | h3
      · exact p1 op h3
      · exact p2 op h3
  | error e => exact ⟨r1, by simpa using h1, p1⟩

theorem issues_tryCatch {α : Type} {P : ChainOp → Prop} {m : Script α}
    {f : JsError → Script α} (hm : Issues P m) (hf : ∀ e, Issues P (f e)) :
    Issues P (tryCatch m f) := by
  intro w
  rw [tryCatch_eq]
  obtain ⟨r1, h1, p1⟩ := hm w
  rcases h : (m w).1 with (e | c) | a
  · obtain ⟨r2, h2, p2⟩ := hf e (m w).2
    refine ⟨r1 ++ r2, ?_, ?_⟩
    · simp only [h2, h1, List.append_assoc]
    · intro op hop
      rcases List.mem_append.mp hop with h3 | h3
      · exact p1 op h3
      · exact p2 op h3
  · exact ⟨r1, by simpa using h1, p1⟩
  · exact ⟨r1, by simpa using h1, p1⟩

theorem issues_pure {α : Type} {P : ChainOp → Prop} (a : α) : Issues P (pure a : Script α) :=
  issues_of_chain_eq fun _ => rfl
theorem issues_log {P : ChainOp → Prop} (args : List Val) : Issues P (log args) :=
  issues_of_chain_eq fun _ => rfl
theorem issues_warn {P : ChainOp → Prop} (args : List Val) : Issues P (warn args) :=
  issues_of_chain_eq fun _ => rfl
theorem issues_logError {P : ChainOp → Prop} (args : List Val) : Issues P (logError args) :=
  issues_of_chain_eq fun _ => rfl
theorem issues_processExit {α : Type} {P : ChainOp → Prop} (c : Nat) :
    Issues P (processExit c : Script α) :=
  issues_of_chain_eq fun _ => rfl
theorem issues_attempt {α : Type} {P : ChainOp → Prop} (o : Except JsError α) :
    Issues P (attempt o) :=
  issues_of_chain_eq fun w => by cases o <;> rfl
theorem issues_dirExists {P : ChainOp → Prop} : Issues P dirExists :=
  issues_of_chain_eq fun _ => rfl
theorem issues_mkdir {P : ChainOp → Prop} (o : Except JsError Unit) : Issues P (mkdir o) :=
  issues_of_chain_eq fun w => by cases o <;> rfl
theorem issues_writeFile {P : ChainOp → Prop} (k : FileKey) (c : Content)
    (o : Except JsError Unit) : Issues P (writeFile k c o) :=
  issues_of_chain_eq fun w => by cases o <;> rfl
theorem issues_await {α : Type} {P : ChainOp → Prop} (op : ChainOp) (o : Except JsError α)
    (h : P op) : Issues P (await op o) := by
  intro w
  refine ⟨[op], ?_, by simpa using h⟩
  cases o <;> rfl
theorem issues_ite {α : Type} {P : ChainOp → Prop} (c : Prop) [Decidable c] {m1 m2 : Script α}
    (h1 : Issues P m1) (h2 : Issues P m2) : Issues P (if c then m1 else m2) := by
  split <;> assumption

theorem issues_elim {α : Type} {P : ChainOp → Prop} {m : Script α} (h : Issues P m) (w : World) :
    ∃ rest, (m w).2.chain = w.chain ++ rest ∧ ∀ op ∈ rest, P op := h w


end Script

theorem runDeploy_chain (penv : ProcessEnv) (env : DeployEnv) (w : World) :
    (runDeploy penv env w).world.chain = (deployMain penv env w).2.chain := by
  unfold runDeploy
  rcases deployMain penv env w with ⟨(e | c) | a, w1⟩ <;> rfl

theorem runDeploy_files (penv : ProcessEnv) (env : DeployEnv) (w : World) :
    (runDeploy penv env w).world.files = (deployMain penv env w).2.files := by
  unfold runDeploy
  rcases deployMain penv env w with ⟨(e | c) | a, w1⟩ <;> rfl

set_option maxRecDepth 100000 in
theorem after_bind_issues (config : Config) (wa : String) (env : DeployEnv) (d : Deployed) :
    Issues (readOnly d.monthlyDataUploader d.mangaNFT)
      (tryCatch (do
        verifyConnections env d
        let deploymentInfo ← buildDeploymentInfo config wa env d
        saveDeployment env deploymentInfo
        displaySummary wa d deploymentInfo) deployCatch) := by
  unfold verifyConnections buildDeploymentInfo saveDeployment displaySummary deployCatch
  with_reducible repeat (first
    | apply issues_bind | apply issues_tryCatch | apply issues_ite
    | exact issues_pure _ | exact issues_log _ | exact issues_logError _
    | exact issues_attempt _ | exact issues_processExit _ | exact issues_dirExists
    | exact issues_mkdir _ | exact issues_writeFile _ _ _
    | exact issues_await _ _ (Or.inl rfl)
    | exact issues_await _ _ (Or.inr (Or.inl rfl))
    | exact issues_await _ _ (Or.inr (Or.inr rfl))
    | intro _ | dsimp only)


theorem Script.tryCatch_bind_ok {α β : Type} (m : Script α) (f : α → Script β)
    (h : JsError → Script β) (w : World) (a : α) (hm : (m w).1 = .ok a) :
    tryCatch (m >>= f) h w = tryCatch (f a) h (m w).2 := by
  rw [tryCatch_eq, tryCatch_eq, bind_eq]
  simp only [hm]

theorem Script.bind_ok {α β : Type} (m : Script α) (f : α → Script β) (w : World) (a : α)
    (hm : (m w).1 = .ok a) : (m >>= f) w = f a (m w).2 := by
  rw [bind_eq]
  simp only [hm]

theorem deployConnect_ok (config : Config) (env : DeployEnv) (w : World)
    (wa : String) (bal : Nat) (net : Network)
    (hw : env.wallet = .ok wa) (hbal : env.balance = .ok bal)
    (hnet : env.networkAtStart = .ok net) :
    (deployConnect config env w).1 = .ok wa ∧
    (deployConnect config env w).2.chain = w.chain ++ [.getBalance wa, .getNetwork] ∧
    (deployConnect config env w).2.files = w.files := by
  simp [deployConnect, hw, hbal, hnet]

theorem deployAndBind_ok (config : Config) (env : DeployEnv) (w : World)
    (artA artB : Artifact) (a b tx : String)
    (hA : env.artifactMDU = .ok artA) (hB : env.artifactNFT = .ok artB)
    (hfA : env.factoryMDU = .ok ()) (hdA : env.deployMDU = .ok a)
    (hcA : env.deployedMDU = .ok ()) (hfB : env.factoryNFT = .ok ())
    (hdB : env.deployNFT = .ok b) (hcB : env.deployedNFT = .ok ())
    (hu : env.updateTx = .ok tx) (huw : env.updateWait = .ok ()) :
    (deployAndBind config env w).1 = .ok ⟨artA, artB, a, b⟩ ∧
    (deployAndBind config env w).2.chain = w.chain ++ [
        .deploy "MonthlyDataUploader" [.str config.platformAddress, .str AddressZero]
          config.gasLimit config.gasPrice,
        .awaitDeployed a,
        .deploy "MangaNFT" [.str config.uri, .str config.platformAddress,
          .str config.paymentToken, .str a] config.gasLimit config.gasPrice,
        .awaitDeployed b,
        .send a "updateMangaNFTContract" [.str b] (some (200000, config.gasPrice)),
        .awaitTx tx] ∧
    (deployAndBind config env w).2.files = w.files := by
  simp [deployAndBind, hA, hB, hfA, hdA, hcA, hfB, hdB, hcB, hu, huw]

namespace Script

theorem writes_of_keepsFiles {α : Type} {ok : Content → Prop} {m : Script α}
    (h : KeepsFiles m) : Writes ok m := by
  intro w k c hc
  rw [h w] at hc
  exact Or.inl hc

theorem writes_bind_of_returns {α β : Type} {ok : Content → Prop} {m : Script α}
    {f : α → Script β} (Q : α → Prop) (hm : Writes ok m)
    (hq : ∀ w a, (m w).1 = .ok a → Q a) (hf : ∀ a, Q a → Writes ok (f a)) :
    Writes ok (m >>= f) := by
  intro w k c hc
  rw [bind_eq] at hc
  cases h : (m w).1 with
  | ok a =>
    simp only [h] at hc
    rcases hf a (hq w a h) (m w).2 k c hc with h1 | h1
    · exact hm w k c h1
    · exact Or.inr h1
  | error e =>
    simp only [h] at hc
    exact hm w k c hc

theorem writes_bind {α β : Type} {ok : Content → Prop} {m : Script α} {f : α → Script β}
    (hm : Writes ok m) (hf : ∀ a, Writes ok (f a)) : Writes ok (m >>= f) :=
  writes_bind_of_returns (fun _ => True) hm (fun _ _ _ => trivial) (fun a _ => hf a)

theorem writes_tryCatch {α : Type} {ok : Content → Prop} {m : Script α}
    {f : JsError → Script α} (hm : Writes ok m) (hf : ∀ e, Writes ok (f e)) :
    Writes ok (tryCatch m f) := by
  intro w k c hc
  rw [tryCatch_eq] at hc
  rcases h : (m w).1 with (e | x) | a
  · simp only [h] at hc
    rcases hf e (m w).2 k c hc with h1 | h1
    · exact hm w k c h1
    · exact Or.inr h1
  · simp only [h] at hc
    exact hm w k c hc
  · simp only [h] at hc
    exact hm w k c hc

theorem writes_ite {α : Type} {ok : Content → Prop} (c : Prop) [Decidable c] {m1 m2 : Script α}
    (h1 : Writes ok m1) (h2 : Writes ok m2) : Writes ok (if c then m1 else m2) := by
  split <;> assumption

theorem writes_dirExists {ok : Content → Prop} : Writes ok dirExists :=
  fun _ _ _ h => Or.inl h

theorem writes_mkdir {ok : Content → Prop} (o : Except JsError Unit) : Writes ok (mkdir o) := by
  intro w k c hc
  cases o <;> exact Or.inl hc

theorem writes_writeFile {ok : Content → Prop} (k : FileKey) (c : Content)
    (o : Except JsError Unit) (h : ok c) : Writes ok (writeFile k c o) := by
  intro w k2 c2 hc
  cases o with
  | error e => exact Or.inl hc
  | ok u =>
    simp only [writeFile_ok, Store.read_write] at hc
    split at hc
    · cases hc
      exact Or.inr h
    · exact Or.inl hc

end Script

theorem buildDeploymentInfo_returns (config : Config) (wa : String) (env : DeployEnv)
    (d : Deployed) (w : World) (info : DeploymentInfo)
    (h : (buildDeploymentInfo config wa env d w).1 = .ok info) :
    info.contracts = expectedContracts config d ∧ info.deployer = wa ∧
      info.deploymentTime = env.isoTime ∧ info.config = config ∧
      (∃ n, env.networkForName = .ok n ∧ info.network = n.name) ∧
      (∃ n, env.networkForChainId = .ok n ∧ info.chainId = n.chainId) := by
  unfold buildDeploymentInfo at h
  rcases h1 : env.networkForName with e | n1
  · simp [h1] at h
  rcases h2 : env.networkForChainId with e | n2
  · simp [h1, h2] at h
  simp [h1, h2] at h
  subst h
  simp [expectedContracts]

set_option maxRecDepth 100000 in
theorem after_bind_writes (config : Config) (wa : String) (env : DeployEnv) (d : Deployed) :
    Writes (fun c => ∀ info, c = .json info → info.contracts = expectedContracts config d)
      (tryCatch (do
        verifyConnections env d
        let deploymentInfo ← buildDeploymentInfo config wa env d
        saveDeployment env deploymentInfo
        displaySummary wa d deploymentInfo) deployCatch) := by
  apply writes_tryCatch
  · apply writes_bind (writes_of_keepsFiles (verifyConnections_keepsFiles env d))
    intro _
    apply writes_bind_of_returns (fun info => info.contracts = expectedContracts config d)
      (writes_of_keepsFiles (buildDeploymentInfo_keepsFiles config wa env d))
      (fun w info h => (buildDeploymentInfo_returns config wa env d w info h).1)
    intro info hinfo
    apply writes_bind
    · unfold saveDeployment
      with_reducible repeat (first
        | apply writes_bind | apply writes_ite
        | exact writes_dirExists | exact writes_mkdir _
        | exact writes_of_keepsFiles (keepsFiles_log _)
        | exact writes_of_keepsFiles (keepsFiles_pure _)
        | exact writes_writeFile _ _ _ (fun i hi => by cases hi; exact hinfo)
        | exact writes_writeFile _ _ _ (fun i hi => by cases hi)
        | intro _ | dsimp only)
    · intro _
      exact writes_of_keepsFiles (displaySummary_keepsFiles wa d info)
  · intro e
    exact writes_of_keepsFiles (deployCatch_keepsFiles e)


/-- C4. When steps 1 to 3 complete, the chain saw, in this order and once each: the deployment
of MonthlyDataUploader with `[platformAddress, AddressZero]`, the deployment of MangaNFT
with `[uri, platformAddress, paymentToken, <address of step 1>]`, and
`updateMangaNFTContract(<address of step 2>)` on the step-1 contract; what follows are
only reads. Every record the run writes lists these addresses and argument lists,
MonthlyDataUploader first. -/
theorem deploy_order_and_record (penv : ProcessEnv) (env : DeployEnv) (w : World)
    (wa : String) (bal : Nat) (net : Network) (artA artB : Artifact) (a b tx : String)
    (hw : env.wallet = .ok wa) (hbal : env.balance = .ok bal)
    (hnet : env.networkAtStart = .ok net)
    (hA : env.artifactMDU = .ok artA) (hB : env.artifactNFT = .ok artB)
    (hfA : env.factoryMDU = .ok ()) (hdA : env.deployMDU = .ok a)
    (hcA : env.deployedMDU = .ok ()) (hfB : env.factoryNFT = .ok ())
    (hdB : env.deployNFT = .ok b) (hcB : env.deployedNFT = .ok ())
    (hu : env.updateTx = .ok tx) (huw : env.updateWait = .ok ()) :
    (∃ rest, (runDeploy penv env w).world.chain = w.chain ++ [.getBalance wa, .getNetwork,
        .deploy "MonthlyDataUploader"
          [.str (loadConfig penv).platformAddress, .str AddressZero] 5000000 (20 * 10 ^ 9),
        .awaitDeployed a,
        .deploy "MangaNFT" [.str (loadConfig penv).uri, .str (loadConfig penv).platformAddress,
          .str (loadConfig penv).paymentToken, .str a] 5000000 (20 * 10 ^ 9),
        .awaitDeployed b,
        .send a "updateMangaNFTContract" [.str b] (some (200000, 20 * 10 ^ 9)),
        .awaitTx tx] ++ rest ∧
      ∀ op ∈ rest, op = .query a "mangaNFTContract" [] ∨
        op = .query b "monthlyDataUploader" [] ∨ op = .getNetwork) ∧
    (∀ k info, (runDeploy penv env w).world.files.read k = some (.json info) →
      w.files.read k ≠ some (.json info) →
      info.contracts = [
        ("monthlyDataUploader",
          ⟨a, [(loadConfig penv).platformAddress, AddressZero], artA.abi⟩),
        ("mangaNFT",
          ⟨b, [(loadConfig penv).uri, (loadConfig penv).platformAddress,
            (loadConfig penv).paymentToken, a], artB.abi⟩)]) := by
  obtain ⟨c1, c2, c3⟩ := deployConnect_ok (loadConfig penv) env w wa bal net hw hbal hnet
  obtain ⟨b1, b2, b3⟩ := deployAndBind_ok (loadConfig penv) env
    (deployConnect (loadConfig penv) env w).2 artA artB a b tx hA hB hfA hdA hcA hfB hdB hcB hu huw
  have hmain : deployMain penv env w =
      tryCatch (do
        verifyConnections env ⟨artA, artB, a, b⟩
        let deploymentInfo ← buildDeploymentInfo (loadConfig penv) wa env ⟨artA, artB, a, b⟩
        saveDeployment env deploymentInfo
        displaySummary wa ⟨artA, artB, a, b⟩ deploymentInfo) deployCatch
        (deployAndBind (loadConfig penv) env (deployConnect (loadConfig penv) env w).2).2 := by
    unfold deployMain
    rw [bind_ok _ _ _ _ c1]
    unfold deployTryBody
    rw [tryCatch_bind_ok _ _ _ _ _ b1]
  constructor
  · obtain ⟨rest, h1, h2⟩ := issues_elim
      (after_bind_issues (loadConfig penv) wa env ⟨artA, artB, a, b⟩)
      (deployAndBind (loadConfig penv) env (deployConnect (loadConfig penv) env w).2).2
    refine ⟨rest, ?_, h2⟩
    rw [runDeploy_chain, hmain, h1, b2, c2]
    simp [loadConfig]
  · intro k info hk hne
    rw [runDeploy_files, hmain] at hk
    rcases after_bind_writes (loadConfig penv) wa env ⟨artA, artB, a, b⟩ _ k _ hk with h1 | h1
    · rw [b3, c3] at h1
      exact absurd h1 hne
    · exact h1 info rfl

theorem Script.bind_ok_inv {α β : Type} (m : Script α) (f : α → Script β) (w : World) (b : β)
    (h : ((m >>= f) w).1 = .ok b) :
    ∃ a, (m w).1 = .ok a ∧ (m >>= f) w = f a (m w).2 := by
  rw [bind_eq] at h
  cases h1 : (m w).1 with
  | ok a => exact ⟨a, rfl, by rw [bind_eq]; simp only [h1]⟩
  | error e => simp [h1] at h

theorem Script.tryCatch_ok_inv {α : Type} (m : Script α) (f : JsError → Script α) (w : World)
    (b : α) (hf : ∀ e w1, (f e w1).1 ≠ .ok b) (h : (tryCatch m f w).1 = .ok b) :
    tryCatch m f w = m w := by
  rw [tryCatch_eq] at h ⊢
  rcases h1 : (m w).1 with (e | c) | a
  · simp only [h1] at h
    exact absurd h (hf e _)
  · rfl
  · rfl


namespace Script

theorem exitCodes_bind {α β : Type} {P : Nat → Prop} {m : Script α} {f : α → Script β}
    (hm : ExitCodes P m) (hf : ∀ a, ExitCodes P (f a)) : ExitCodes P (m >>= f) := by
  intro w c h
  rw [bind_eq] at h
  cases h1 : (m w).1 with
  | ok a =>
    simp only [h1] at h
    exact hf a _ c h
  | error e =>
    simp only [h1] at h
    injection h with h2
    exact hm w c (by rw [h1, h2])

theorem exitCodes_tryCatch {α : Type} {P : Nat → Prop} {m : Script α} {f : JsError → Script α}
    (hm : ExitCodes P m) (hf : ∀ e, ExitCodes P (f e)) : ExitCodes P (tryCatch m f) := by
  intro w c h
  rw [tryCatch_eq] at h
  rcases h1 : (m w).1 with (e | x) | a
  · simp only [h1] at h
    exact hf e _ c h
  · simp only [h1] at h
    exact hm w c (h1.trans h)
  · simp only [h1] at h
    exact hm w c (h1.trans h)

theorem exitCodes_ite {α : Type} {P : Nat → Prop} (c : Prop) [Decidable c] {m1 m2 : Script α}
    (h1 : ExitCodes P m1) (h2 : ExitCodes P m2) : ExitCodes P (if c then m1 else m2) := by
  split <;> assumption

theorem exitCodes_pure {α : Type} {P : Nat → Prop} (a : α) : ExitCodes P (pure a : Script α) := by
  intro w c h
  cases h
theorem exitCodes_log {P : Nat → Prop} (args : List Val) : ExitCodes P (log args) := by
  intro w c h
  cases h
theorem exitCodes_warn {P : Nat → Prop} (args : List Val) : ExitCodes P (warn args) := by
  intro w c h
  cases h
theorem exitCodes_logError {P : Nat → Prop} (args : List Val) : ExitCodes P (logError args) := by
  intro w c h
  cases h
theorem exitCodes_processExit {α : Type} {P : Nat → Prop} (code : Nat) (h : P code) :
    ExitCodes P (processExit code : Script α) := by
  intro w c h1
  cases h1
  exact h
theorem exitCodes_attempt {α : Type} {P : Nat → Prop} (o : Except JsError α) :
    ExitCodes P (attempt o) := by
  intro w c h
  cases o <;> cases h
theorem exitCodes_await {α : Type} {P : Nat → Prop} (op : ChainOp) (o : Except JsError α) :
    ExitCodes P (await op o) := by
  intro w c h
  cases o <;> cases h
theorem exitCodes_dirExists {P : Nat → Prop} : ExitCodes P dirExists := by
  intro w c h
  cases h
theorem exitCodes_mkdir {P : Nat → Prop} (o : Except JsError Unit) : ExitCodes P (mkdir o) := by
  intro w c h
  cases o <;> cases h
theorem exitCodes_writeFile {P : Nat → Prop} (k : FileKey) (c : Content)
    (o : Except JsError Unit) : ExitCodes P (writeFile k c o) := by
  intro w c h
  cases o <;> cases h

end Script

set_option maxRecDepth 100000 in
theorem deployMain_exitCodes (penv : ProcessEnv) (env : DeployEnv) :
    ExitCodes (fun c => c = 1) (deployMain penv env) := by
  unfold deployMain deployConnect deployTryBody deployAndBind verifyConnections
    buildDeploymentInfo saveDeployment displaySummary deployCatch
  with_reducible repeat (first
    | apply exitCodes_bind | apply exitCodes_tryCatch | apply exitCodes_ite
    | exact exitCodes_pure _ | exact exitCodes_log _ | exact exitCodes_logError _
    | exact exitCodes_attempt _ | exact exitCodes_await _ _ | exact exitCodes_dirExists
    | exact exitCodes_mkdir _ | exact exitCodes_writeFile _ _ _
    | exact exitCodes_processExit _ rfl
    | intro _ | dsimp only)

theorem runDeploy_termination (penv : ProcessEnv) (env : DeployEnv) (w : World)
    (h : (runDeploy penv env w).termination = .exited 0) :
    (deployMain penv env w).1 = .ok () := by
  have hx := deployMain_exitCodes penv env w
  unfold runDeploy at h
  rcases h1 : deployMain penv env w with ⟨(e | c) | a, w1⟩
  · simp [h1] at h
  · simp [h1] at h
    have := hx c (by rw [h1])
    omega
  · rfl

theorem deployConnect_inv (config : Config) (env : DeployEnv) (w : World) (wa : String)
    (h : (deployConnect config env w).1 = .ok wa) : env.wallet = .ok wa := by
  unfold deployConnect at h
  rcases h1 : env.wallet with e | a
  · simp [h1] at h
  rcases h2 : env.balance with e | bal
  · simp [h1, h2] at h
  rcases h3 : env.networkAtStart with e | n
  · simp [h1, h2, h3] at h
  simp [h1, h2, h3] at h
  rw [h]

theorem deployAndBind_inv (config : Config) (env : DeployEnv) (w : World) (d : Deployed)
    (h : (deployAndBind config env w).1 = .ok d) :
    env.artifactMDU = .ok d.monthlyDataUploaderArtifact ∧
    env.artifactNFT = .ok d.mangaNFTArtifact ∧
    env.deployMDU = .ok d.monthlyDataUploader ∧
    env.deployNFT = .ok d.mangaNFT := by
  unfold deployAndBind at h
  rcases h1 : env.artifactMDU with e | a1
  · simp [h1] at h
  rcases h2 : env.artifactNFT with e | a2
  · simp [h1, h2] at h
  rcases h3 : env.factoryMDU with e | a3
  · simp [h1, h2, h3] at h
  rcases h4 : env.deployMDU with e | a4
  · simp [h1, h2, h3, h4] at h
  rcases h5 : env.deployedMDU with e | a5
  · simp [h1, h2, h3, h4, h5] at h
  rcases h6 : env.factoryNFT with e | a6
  · simp [h1, h2, h3, h4, h5, h6] at h
  rcases h7 : env.deployNFT with e | a7
  · simp [h1, h2, h3, h4, h5, h6, h7] at h
  rcases h8 : env.deployedNFT with e | a8
  · simp [h1, h2, h3, h4, h5, h6, h7, h8] at h
  rcases h9 : env.updateTx with e | a9
  · simp [h1, h2, h3, h4, h5, h6, h7, h8, h9] at h
  rcases h10 : env.updateWait with e | a10
  · simp [h1, h2, h3, h4, h5, h6, h7, h8, h9, h10] at h
  simp [h1, h2, h3, h4, h5, h6, h7, h8, h9, h10] at h
  subst h
  simp

theorem saveDeployment_ok (env : DeployEnv) (info : DeploymentInfo) (w : World)
    (h : (saveDeployment env info w).1 = .ok ()) :
    (saveDeployment env info w).2.files = w.files.saved env.now info := by
  unfold saveDeployment at h ⊢
  rcases h0 : w.files.dirExists <;> rcases h1 : env.mkdir with e | u1 <;>
    rcases h2 : env.writeTimestamped with e | u2 <;>
    rcases h3 : env.writeLatest with e | u3 <;>
    rcases h4 : env.writeScript with e | u4 <;>
    simp [h0, h1, h2, h3, h4, Store.saved] at h ⊢


theorem deployCatch_not_ok (e : JsError) (w : World) : (deployCatch e w).1 ≠ .ok () := by
  simp [deployCatch]

theorem runDeploy_success (penv : ProcessEnv) (env : DeployEnv) (w : World)
    (h : (runDeploy penv env w).termination = .exited 0) :
    ∃ info, IsRecordOf penv env info ∧
      (runDeploy penv env w).world.files = w.files.saved env.now info := by
  have h0 := runDeploy_termination penv env w h
  rw [runDeploy_files]
  unfold deployMain at h0 ⊢
  obtain ⟨wa, hc, e1⟩ := bind_ok_inv _ _ _ _ h0
  rw [e1] at h0 ⊢
  have e2 := tryCatch_ok_inv _ _ _ _ deployCatch_not_ok h0
  rw [e2] at h0 ⊢
  unfold deployTryBody at h0 ⊢
  obtain ⟨d, hd, e3⟩ := bind_ok_inv _ _ _ _ h0
  rw [e3] at h0 ⊢
  obtain ⟨u, hv, e4⟩ := bind_ok_inv _ _ _ _ h0
  rw [e4] at h0 ⊢
  obtain ⟨info, hi, e5⟩ := bind_ok_inv _ _ _ _ h0
  rw [e5] at h0 ⊢
  obtain ⟨u2, hs, e6⟩ := bind_ok_inv _ _ _ _ h0
  rw [e6]
  obtain ⟨i1, i2, i3, i4, i5, i6⟩ := buildDeploymentInfo_returns _ _ _ _ _ _ hi
  obtain ⟨d1, d2, d3, d4⟩ := deployAndBind_inv _ _ _ _ hd
  refine ⟨info, ⟨d, d1, d2, d3, d4, i1, ?_, i3, i4, i5, i6⟩, ?_⟩
  · rw [i2]
    exact deployConnect_inv _ _ _ _ hc
  · rw [displaySummary_keepsFiles, saveDeployment_ok _ _ _ hs, buildDeploymentInfo_keepsFiles,
      verifyConnections_keepsFiles, deployAndBind_keepsFiles, deployConnect_keepsFiles]


theorem FileKey.timestamp_deployment (t : Nat) : (FileKey.deployment t).timestamp = some t := rfl
theorem FileKey.timestamp_latest : FileKey.latest.timestamp = none := rfl
theorem FileKey.timestamp_foundryScript : FileKey.foundryScript.timestamp = none := rfl

theorem Store.timestamps_write_deployment (s : Store) (t : Nat) (c : Content) :
    (s.write (.deployment t) c).timestamps = s.timestamps.filter (fun x => x ≠ t) ++ [t] := by
  simp only [Store.timestamps, Store.write, List.filterMap_append]
  congr 1
  induction s.entries with
  | nil => rfl
  | cons x xs ih =>
    rcases x with ⟨k, v⟩
    cases k with
    | deployment t2 =>
      by_cases h : t2 = t
      · simp [List.filter_cons, List.filterMap_cons, FileKey.timestamp_deployment, h, ih]
      · simp [List.filter_cons, List.filterMap_cons, FileKey.timestamp_deployment, h, ih]
    | latest => simp [List.filter_cons, List.filterMap_cons, FileKey.timestamp_latest, ih]
    | foundryScript =>
      simp [List.filter_cons, List.filterMap_cons, FileKey.timestamp_foundryScript, ih]

theorem Store.timestamps_write_other (s : Store) (k : FileKey) (c : Content)
    (hk : k.timestamp = none) : (s.write k c).timestamps = s.timestamps := by
  simp only [Store.timestamps, Store.write, List.filterMap_append]
  have h1 : List.filterMap (fun e : FileKey × Content => e.1.timestamp) [(k, c)] = [] := by
    simp [List.filterMap_cons, hk]
  rw [h1, List.append_nil]
  induction s.entries with
  | nil => rfl
  | cons x xs ih =>
    rcases x with ⟨k2, v⟩
    by_cases h : k2 = k
    · subst h
      simp [List.filter_cons, List.filterMap_cons, hk, ih]
    · simp [List.filter_cons, List.filterMap_cons, h, ih]

theorem Store.timestamps_saved (s : Store) (now : Nat) (info : DeploymentInfo)
    (h : now ∉ s.timestamps) : (s.saved now info).timestamps = s.timestamps ++ [now] := by
  unfold Store.saved
  rw [Store.timestamps_write_other _ .foundryScript _ rfl,
    Store.timestamps_write_other _ .latest _ rfl, Store.timestamps_write_deployment]
  have h1 : (if s.dirExists = true then s else { s with dirExists := true }).timestamps
      = s.timestamps := by
    split <;> rfl
  rw [h1, List.filter_eq_self.mpr]
  intro x hx
  simpa using fun hxn : x = now => h (hxn ▸ hx)

theorem Store.read_saved_deployment (s : Store) (now t : Nat) (info : DeploymentInfo) :
    (s.saved now info).read (.deployment t)
      = if t = now then some (.json info) else s.read (.deployment t) := by
  unfold Store.saved
  rw [Store.read_write, Store.read_write, Store.read_write]
  have h1 : ∀ k, (if s.dirExists = true then s else { s with dirExists := true }).read k
      = s.read k := by
    intro k
    split <;> rfl
  simp [h1]

theorem Store.read_saved_latest (s : Store) (now : Nat) (info : DeploymentInfo) :
    (s.saved now info).read .latest = some (.json info) := by
  unfold Store.saved
  rw [Store.read_write, Store.read_write]
  simp

theorem Store.latest_count_saved (s : Store) (now : Nat) (info : DeploymentInfo) :
    ((s.saved now info).entries.filter (fun e => e.1 == .latest)).length = 1 := by
  unfold Store.saved
  simp [Store.write, List.filter_append, List.filter_filter]
  intro a b _ h1 _ h3
  exact absurd h1 h3


theorem storeAfter_succeed (runs : List (ProcessEnv × DeployEnv)) :
    ∀ s : Store, allSucceed runs s → (runs.map (fun r => r.2.now)).Nodup →
      (∀ r ∈ runs, r.2.now ∉ s.timestamps) →
      (storeAfter runs s).timestamps = s.timestamps ++ runs.map (fun r => r.2.now) ∧
      (∀ t, t ∉ runs.map (fun r => r.2.now) →
        (storeAfter runs s).read (.deployment t) = s.read (.deployment t)) ∧
      (∀ r ∈ runs, ∃ info, IsRecordOf r.1 r.2 info ∧
        (storeAfter runs s).read (.deployment r.2.now) = some (.json info)) ∧
      (∀ r, runs.getLast? = some r → ∃ info, IsRecordOf r.1 r.2 info ∧
        (storeAfter runs s).read .latest = some (.json info) ∧
        (storeAfter runs s).read (.deployment r.2.now) = some (.json info)) ∧
      (runs ≠ [] →
        ((storeAfter runs s).entries.filter (fun e => e.1 == .latest)).length = 1) := by
  induction runs with
  | nil =>
    intro s _ _ _
    simp [storeAfter]
  | cons r rest ih =>
    intro s hs hd hf
    obtain ⟨hr, hrest⟩ := hs
    obtain ⟨info, hrec, hfiles⟩ := runDeploy_success r.1 r.2 ⟨[], [], s⟩ hr
    simp only at hfiles
    rw [hfiles] at hrest
    rw [List.map_cons, List.nodup_cons] at hd
    have hfresh : r.2.now ∉ s.timestamps := hf r (List.mem_cons_self _ _)
    have hts := Store.timestamps_saved s r.2.now info hfresh
    have hf2 : ∀ r2 ∈ rest, r2.2.now ∉ (s.saved r.2.now info).timestamps := by
      intro r2 hr2
      rw [hts, List.mem_append, not_or]
      refine ⟨hf r2 (List.mem_cons_of_mem _ hr2), ?_⟩
      intro h3
      rw [List.mem_singleton] at h3
      exact hd.1 (h3 ▸ List.mem_map_of_mem (fun r => r.2.now) hr2)
    obtain ⟨i1, i2, i3, i4, i5⟩ := ih (s.saved r.2.now info) hrest hd.2 hf2
    have hstep : storeAfter (r :: rest) s = storeAfter rest (s.saved r.2.now info) := by
      simp only [storeAfter, hfiles]
    rw [hstep]
    refine ⟨?_, ?_, ?_, ?_, ?_⟩
    · rw [i1, hts]
      simp
    · intro t ht
      rw [List.map_cons, List.mem_cons, not_or] at ht
      rw [i2 t ht.2, Store.read_saved_deployment, if_neg ht.1]
    · intro r2 hr2
      rcases List.mem_cons.mp hr2 with h3 | h3
      · subst h3
        refine ⟨info, hrec, ?_⟩
        rw [i2 _ hd.1, Store.read_saved_deployment, if_pos rfl]
      · exact i3 r2 h3
    · intro r2 hr2
      cases rest with
      | nil =>
        simp only [List.getLast?_singleton, Option.some.injEq] at hr2
        subst hr2
        refine ⟨info, hrec, ?_, ?_⟩
        · simp only [storeAfter]
          exact Store.read_saved_latest _ _ _
        · simp only [storeAfter]
          rw [Store.read_saved_deployment, if_pos rfl]
      | cons r3 rest2 =>
        rw [List.getLast?_cons_cons] at hr2
        exact i4 r2 hr2
    · intro _
      cases rest with
      | nil =>
        simp only [storeAfter]
        exact Store.latest_count_saved _ _ _
      | cons r3 rest2 => exact i5 (List.cons_ne_nil _ _)

/-! ## deploy/DeployNFT.js -/

/-- C2. When deploying MonthlyDataUploader, deploying MangaNFT or the
`updateMangaNFTContract` call (submission or confirmation) fails, the run leaves the
artifact store exactly as it found it and ends with exit status 1. -/
theorem failed_deploy_leaves_store (penv : ProcessEnv) (env : DeployEnv) (w : World)
    (h : (∃ e, env.deployMDU = .error e) ∨ (∃ e, env.deployedMDU = .error e) ∨
      (∃ e, env.deployNFT = .error e) ∨ (∃ e, env.deployedNFT = .error e) ∨
      (∃ e, env.updateTx = .error e) ∨ (∃ e, env.updateWait = .error e)) :
    (runDeploy penv env w).world.files = w.files ∧
      (runDeploy penv env w).termination = .exited 1 := by
  obtain ⟨wallet, balance, networkAtStart, artifactMDU, artifactNFT, factoryMDU, deployMDU,
    deployedMDU, factoryNFT, deployNFT, deployedNFT, updateTx, updateWait, r1, r2, n1, n2,
    isoTime, mk, now, w1, w2, w3⟩ := env
  simp only [runDeploy, deployMain, deployConnect, deployTryBody, deployCatch, deployAndBind,
    tryCatch_apply, bind_apply, log_apply]
  rcases wallet with e | a <;> simp
  rcases balance with e | a <;> simp
  rcases networkAtStart with e | a <;> simp
  rcases artifactMDU with e | a <;> simp
  rcases artifactNFT with e | a <;> simp
  rcases factoryMDU with e | a <;> simp
  rcases deployMDU with e | a <;> simp
  rcases deployedMDU with e | a <;> simp
  rcases factoryNFT with e | a <;> simp
  rcases deployNFT with e | a <;> simp
  rcases deployedNFT with e | a <;> simp
  rcases updateTx with e | a <;> simp
  rcases updateWait with e | a <;> simp
  simp at h

/-- C1 against the code: with a read-back that differs from the deployed address, the
run prints the verification failure line, still writes the timestamped and the latest
record, and exits with status 0. -/
theorem verification_mismatch_exits_zero :
    mismatchEnv.readMangaNFTContract ≠ mismatchEnv.deployNFT ∧
    (runDeploy noEnv mismatchEnv World.empty).termination = .exited 0 ∧
    ⟨.log, [.str "❌ Contract connections verification failed!"]⟩ ∈
      (runDeploy noEnv mismatchEnv World.empty).world.console ∧
    ((runDeploy noEnv mismatchEnv World.empty).world.files.read .latest).isSome = true ∧
    ((runDeploy noEnv mismatchEnv World.empty).world.files.read
      (.deployment 1735689600000)).isSome = true := by
  decide

/-- C5. A step that fails ends the run: the chain operations stop at the failing one,
each was issued once, the error of the step is printed and the exit status is 1. -/
theorem failed_step_stops_the_run (penv : ProcessEnv) (env : DeployEnv) (w : World)
    (wa : String) (bal : Nat) (net : Network) (artA artB : Artifact)
    (hw : env.wallet = .ok wa) (hbal : env.balance = .ok bal)
    (hnet : env.networkAtStart = .ok net)
    (hA : env.artifactMDU = .ok artA) (hB : env.artifactNFT = .ok artB)
    (hfA : env.factoryMDU = .ok ()) :
    (∀ e, env.deployMDU = .error e →
      (runDeploy penv env w).world.chain = w.chain ++ [.getBalance wa, .getNetwork,
        .deploy "MonthlyDataUploader"
          [.str (loadConfig penv).platformAddress, .str AddressZero] 5000000 (20 * 10 ^ 9)] ∧
      (runDeploy penv env w).termination = .exited 1 ∧
      (runDeploy penv env w).world.console.getLast? =
        some ⟨.error, [.str "\n❌ Deployment failed:", .err e]⟩) ∧
    (∀ a e, env.deployMDU = .ok a → env.deployedMDU = .error e →
      (runDeploy penv env w).world.chain = w.chain ++ [.getBalance wa, .getNetwork,
        .deploy "MonthlyDataUploader"
          [.str (loadConfig penv).platformAddress, .str AddressZero] 5000000 (20 * 10 ^ 9),
        .awaitDeployed a] ∧
      (runDeploy penv env w).termination = .exited 1 ∧
      (runDeploy penv env w).world.console.getLast? =
        some ⟨.error, [.str "\n❌ Deployment failed:", .err e]⟩) ∧
    (∀ a e, env.deployMDU = .ok a → env.deployedMDU = .ok () → env.factoryNFT = .ok () →
      env.deployNFT = .error e →
      (runDeploy penv env w).world.chain = w.chain ++ [.getBalance wa, .getNetwork,
        .deploy "MonthlyDataUploader"
          [.str (loadConfig penv).platformAddress, .str AddressZero] 5000000 (20 * 10 ^ 9),
        .awaitDeployed a,
        .deploy "MangaNFT" [.str (loadConfig penv).uri, .str (loadConfig penv).platformAddress,
          .str (loadConfig penv).paymentToken, .str a] 5000000 (20 * 10 ^ 9)] ∧
      (runDeploy penv env w).termination = .exited 1 ∧
      (runDeploy penv env w).world.console.getLast? =
        some ⟨.error, [.str "\n❌ Deployment failed:", .err e]⟩) ∧
    (∀ a b e, env.deployMDU = .ok a → env.deployedMDU = .ok () → env.factoryNFT = .ok () →
      env.deployNFT = .ok b → env.deployedNFT = .error e →
      (runDeploy penv env w).world.chain = w.chain ++ [.getBalance wa, .getNetwork,
        .deploy "MonthlyDataUploader"
          [.str (loadConfig penv).platformAddress, .str AddressZero] 5000000 (20 * 10 ^ 9),
        .awaitDeployed a,
        .deploy "MangaNFT" [.str (loadConfig penv).uri, .str (loadConfig penv).platformAddress,
          .str (loadConfig penv).paymentToken, .str a] 5000000 (20 * 10 ^ 9),
        .awaitDeployed b] ∧
      (runDeploy penv env w).termination = .exited 1 ∧
      (runDeploy penv env w).world.console.getLast? =
        some ⟨.error, [.str "\n❌ Deployment failed:", .err e]⟩) ∧
    (∀ a b e, env.deployMDU = .ok a → env.deployedMDU = .ok () → env.factoryNFT = .ok () →
      env.deployNFT = .ok b → env.deployedNFT = .ok () → env.updateTx = .error e →
      (runDeploy penv env w).world.chain = w.chain ++ [.getBalance wa, .getNetwork,
        .deploy "MonthlyDataUploader"
          [.str (loadConfig penv).platformAddress, .str AddressZero] 5000000 (20 * 10 ^ 9),
        .awaitDeployed a,
        .deploy "MangaNFT" [.str (loadConfig penv).uri, .str (loadConfig penv).platformAddress,
          .str (loadConfig penv).paymentToken, .str a] 5000000 (20 * 10 ^ 9),
        .awaitDeployed b,
        .send a "updateMangaNFTContract" [.str b] (some (200000, 20 * 10 ^ 9))] ∧
      (runDeploy penv env w).termination = .exited 1 ∧
      (runDeploy penv env w).world.console.getLast? =
        some ⟨.error, [.str "\n❌ Deployment failed:", .err e]⟩) ∧
    (∀ a b tx e, env.deployMDU = .ok a → env.deployedMDU = .ok () → env.factoryNFT = .ok () →
      env.deployNFT = .ok b → env.deployedNFT = .ok () → env.updateTx = .ok tx →
      env.updateWait = .error e →
      (runDeploy penv env w).world.chain = w.chain ++ [.getBalance wa, .getNetwork,
        .deploy "MonthlyDataUploader"
          [.str (loadConfig penv).platformAddress, .str AddressZero] 5000000 (20 * 10 ^ 9),
        .awaitDeployed a,
        .deploy "MangaNFT" [.str (loadConfig penv).uri, .str (loadConfig penv).platformAddress,
          .str (loadConfig penv).paymentToken, .str a] 5000000 (20 * 10 ^ 9),
        .awaitDeployed b,
        .send a "updateMangaNFTContract" [.str b] (some (200000, 20 * 10 ^ 9)),
        .awaitTx tx] ∧
      (runDeploy penv env w).termination = .exited 1 ∧
      (runDeploy penv env w).world.console.getLast? =
        some ⟨.error, [.str "\n❌ Deployment failed:", .err e]⟩) := by
  refine ⟨?_, ?_, ?_, ?_, ?_, ?_⟩
  · intro e h1
    simp [runDeploy, deployMain, deployConnect, deployTryBody, deployCatch, deployAndBind, tryCatch_apply,
      loadConfig, hw, hbal, hnet, hA, hB, hfA, h1]
  · intro a e h1 h2
    simp [runDeploy, deployMain, deployConnect, deployTryBody, deployCatch, deployAndBind, tryCatch_apply,
      loadConfig, hw, hbal, hnet, hA, hB, hfA, h1, h2]
  · intro a e h1 h2 h3 h4
    simp [runDeploy, deployMain, deployConnect, deployTryBody, deployCatch, deployAndBind, tryCatch_apply,
      loadConfig, hw, hbal, hnet, hA, hB, hfA, h1, h2, h3, h4]
  · intro a b e h1 h2 h3 h4 h5
    simp [runDeploy, deployMain, deployConnect, deployTryBody, deployCatch, deployAndBind, tryCatch_apply,
      loadConfig, hw, hbal, hnet, hA, hB, hfA, h1, h2, h3, h4, h5]
  · intro a b e h1 h2 h3 h4 h5 h6
    simp [runDeploy, deployMain, deployConnect, deployTryBody, deployCatch, deployAndBind, tryCatch_apply,
      loadConfig, hw, hbal, hnet, hA, hB, hfA, h1, h2, h3, h4, h5, h6]
  · intro a b tx e h1 h2 h3 h4 h5 h6 h7
    simp [runDeploy, deployMain, deployConnect, deployTryBody, deployCatch, deployAndBind, tryCatch_apply,
      loadConfig, hw, hbal, hnet, hA, hB, hfA, h1, h2, h3, h4, h5, h6, h7]

/-! ## Event decoding -/

theorem publishLog_step (dec : Decoder) (entry : RawLog) (w : World) :
    tryCatch (publishLogBody dec entry) skipLog w =
      (.ok (), { w with console := w.console ++ publishLogLines dec entry }) := by
  unfold publishLogLines publishLogBody parse skipLog
  rcases hp : dec.parseLog entry with _ | d
  · simp [tryCatch_apply, World.empty]
  · by_cases h1 : d.name = "ChapterCreated" <;> by_cases h2 : d.name = "ChapterMinted" <;>
      rcases h3 : argToString (d.arg "tokenId") with e1 | v1 <;>
      rcases h4 : argToString (d.arg "amountMinted") with e2 | v2 <;>
      rcases h5 : argToNumber (d.arg "mintTime") with e3 | v3 <;>
      simp [tryCatch_apply, World.empty, h1, h2, h3, h4, h5]


theorem registerLog_step (dec : Decoder) (entry : RawLog) (w : World) :
    tryCatch (registerLogBody dec entry) skipLog w =
      (.ok (), { w with console := w.console ++ registerLogLines dec entry }) := by
  unfold registerLogLines registerLogBody parse skipLog
  rcases hp : dec.parseLog entry with _ | d
  · simp [tryCatch_apply, World.empty]
  · by_cases h1 : d.name = "InvestorNFTAcquired" <;>
      rcases h3 : argToString (d.arg "acquiredCount") with e1 | v1 <;>
      rcases h4 : argToString (d.arg "totalAcquired") with e2 | v2 <;>
      simp [tryCatch_apply, World.empty, h1, h3, h4]

theorem publishDecodeLoop_eq (dec : Decoder) (logs : List RawLog) :
    ∀ w : World, publishDecodeLoop dec logs w =
      (.ok (), { w with console := w.console ++ (logs.map (publishLogLines dec)).flatten }) := by
  induction logs with
  | nil => intro w; simp [publishDecodeLoop]
  | cons entry rest ih =>
    intro w
    simp only [publishDecodeLoop, bind_apply, publishLog_step, ih]
    simp

theorem registerDecodeLoop_eq (dec : Decoder) (logs : List RawLog) :
    ∀ w : World, registerDecodeLoop dec logs w =
      (.ok (), { w with console := w.console ++ (logs.map (registerLogLines dec)).flatten }) := by
  induction logs with
  | nil => intro w; simp [registerDecodeLoop]
  | cons entry rest ih =>
    intro w
    simp only [registerDecodeLoop, bind_apply, registerLog_step, ih]
    simp

theorem publishLogLines_unknown (dec : Decoder) (entry : RawLog)
    (h : dec.parseLog entry = none) :
    publishLogLines dec entry = [⟨.log, [.str "跳过无效事件日志"]⟩] := by
  simp [publishLogLines, publishLogBody, parse, skipLog, tryCatch_apply, World.empty, h]

theorem registerLogLines_unknown (dec : Decoder) (entry : RawLog)
    (h : dec.parseLog entry = none) :
    registerLogLines dec entry = [⟨.log, [.str "跳过无效事件日志"]⟩] := by
  simp [registerLogLines, registerLogBody, parse, skipLog, tryCatch_apply, World.empty, h]

theorem publishLogLines_created (dec : Decoder) (entry : RawLog)
    (args : List (String × ArgVal)) (id : Nat)
    (h : dec.parseLog entry = some ⟨"ChapterCreated", args⟩)
    (hid : LogDescription.arg ⟨"ChapterCreated", args⟩ "tokenId" = some (.uint id)) :
    publishLogLines dec entry = [
      ⟨.log, [.str "\n🎉 ChapterCreated 事件:"]⟩,
      ⟨.log, [.str "  🔸 tokenId:     ", .num id]⟩,
      ⟨.log, [.str "  🔸 creator:     ",
        showArg (LogDescription.arg ⟨"ChapterCreated", args⟩ "creator")]⟩,
      ⟨.log, [.str "  🔸 mangaTitleZh:",
        showArg (LogDescription.arg ⟨"ChapterCreated", args⟩ "mangaTitleZh")]⟩,
      ⟨.log, [.str "  🔸 mangaTitleEn:",
        showArg (LogDescription.arg ⟨"ChapterCreated", args⟩ "mangaTitleEn")]⟩,
      ⟨.log, [.str "  🔸 mangaTitleJp:",
        showArg (LogDescription.arg ⟨"ChapterCreated", args⟩ "mangaTitleJp")]⟩] := by
  simp [publishLogLines, publishLogBody, parse, skipLog, tryCatch_apply, World.empty, h, hid,
    argToString]

theorem registerLogLines_acquired (dec : Decoder) (entry : RawLog)
    (args : List (String × ArgVal)) (n total : Nat)
    (h : dec.parseLog entry = some ⟨"InvestorNFTAcquired", args⟩)
    (hn : LogDescription.arg ⟨"InvestorNFTAcquired", args⟩ "acquiredCount" = some (.uint n))
    (ht : LogDescription.arg ⟨"InvestorNFTAcquired", args⟩ "totalAcquired" = some (.uint total)) :
    registerLogLines dec entry = [
      ⟨.log, [.str "\n🎉 InvestorNFTAcquired 事件:"]⟩,
      ⟨.log, [.str "  🔸 investor:     ",
        showArg (LogDescription.arg ⟨"InvestorNFTAcquired", args⟩ "investor")]⟩,
      ⟨.log, [.str "  🔸 acquiredCount:", .num n]⟩,
      ⟨.log, [.str "  🔸 totalAcquired:", .num total]⟩] := by
  simp [registerLogLines, registerLogBody, parse, skipLog, tryCatch_apply, World.empty, h, hn, ht,
    argToString]


theorem publishMain_completes (env : PublishEnv) (w : World) (abi : Abi) (wa tx : String)
    (r : Receipt) (dec : Decoder)
    (h1 : unset env.RPC_URL = false) (h2 : unset env.CREATOR_KEY = false)
    (h3 : unset env.MANGA_NFT_ADDRESS = false) (h4 : env.abiExists = true)
    (h5 : env.abi = .ok abi) (h6 : env.signer = .ok wa) (h7 : env.contract = .ok ())
    (h8 : env.createChapter = .ok tx) (h9 : env.receipt = .ok r)
    (h10 : env.interface = .ok dec) :
    (runMain (publishMain env) w).termination = .ranToEnd := by
  rcases hp : env.platformAddress with e | pa
  · simp [runMain, publishMain, publishCheckState, publishCreateChapter, tryCatch_apply,
      publishDecodeLoop_eq, h1, h2, h3, h4, h5, h6, h7, h8, h9, h10, hp]
  rcases hm : env.monthlyDataUploader with e | mdu
  · simp [runMain, publishMain, publishCheckState, publishCreateChapter, tryCatch_apply,
      publishDecodeLoop_eq, h1, h2, h3, h4, h5, h6, h7, h8, h9, h10, hp, hm]
  by_cases hl : wa.toLower = pa.toLower
  · simp [runMain, publishMain, publishCheckState, publishCreateChapter, tryCatch_apply,
      publishDecodeLoop_eq, h1, h2, h3, h4, h5, h6, h7, h8, h9, h10, hp, hm, hl]
  · simp [runMain, publishMain, publishCheckState, publishCreateChapter, tryCatch_apply,
      publishDecodeLoop_eq, h1, h2, h3, h4, h5, h6, h7, h8, h9, h10, hp, hm, hl]

theorem publishLogLines_minted (dec : Decoder) (entry : RawLog)
    (args : List (String × ArgVal)) (id amount : Nat)
    (h : dec.parseLog entry = some ⟨"ChapterMinted", args⟩)
    (hid : LogDescription.arg ⟨"ChapterMinted", args⟩ "tokenId" = some (.uint id))
    (ha : LogDescription.arg ⟨"ChapterMinted", args⟩ "amountMinted" = some (.uint amount)) :
    publishLogLines dec entry = [
      ⟨.log, [.str "\n🔔 ChapterMinted 事件:"]⟩,
      ⟨.log, [.str "  🔸 tokenId:     ", .num id]⟩,
      ⟨.log, [.str "  🔸 to:          ",
        showArg (LogDescription.arg ⟨"ChapterMinted", args⟩ "to")]⟩,
      ⟨.log, [.str "  🔸 amountMinted:", .num amount]⟩,
      ⟨.log, [.str "跳过无效事件日志"]⟩] := by
  rcases hm : LogDescription.arg ⟨"ChapterMinted", args⟩ "mintTime" with _ | v
  · simp [publishLogLines, publishLogBody, parse, skipLog, tryCatch_apply, World.empty, h, hid,
      ha, hm, argToString, argToNumber]
  · cases v <;>
    simp [publishLogLines, publishLogBody, parse, skipLog, tryCatch_apply, World.empty, h, hid,
      ha, hm, argToString, argToNumber]

theorem registerSubmit_completes (env : RegisterTxEnv) (w : World) (target addr id tx : String)
    (n : Nat) (r : Receipt) (dec : Decoder) (h7 : encodeUint256 id = some n)
    (h8 : env.investorRegistration = .ok tx) (h9 : env.receipt = .ok r)
    (h10 : env.interface = .ok dec) :
    (registerSubmit env target addr id w).1 = .ok () := by
  simp [registerSubmit, encodeTokenId, tryCatch_apply, registerDecodeLoop_eq, h7, h8, h9, h10]


/-- C6 against the code: in `PublishNFT.js` a `ChapterMinted` log, an event of the ABI, is
not reported in full. After the lines for `tokenId`, `to` and `amountMinted` the call
`mintTime.toNumber()` throws, so the `mintTime` line is never printed and the notice for
a skipped invalid log follows; the logs `[ChapterMinted, unknown, ChapterCreated]` print
the cut report, two skip notices and the `ChapterCreated` report. The rest holds: both
loops go through every log list in receipt order and return normally, a log matching no
event prints only the skip notice, `ChapterCreated` and `InvestorNFTAcquired` are
reported in full, and `PublishNFT.js` runs to its end. -/
theorem minted_report_is_cut_short (dec : Decoder) (logs : List RawLog) (w : World) :
    publishDecodeLoop dec logs w =
      (.ok (), { w with console := w.console ++ (logs.map (publishLogLines dec)).flatten }) ∧
    registerDecodeLoop dec logs w =
      (.ok (), { w with console := w.console ++ (logs.map (registerLogLines dec)).flatten }) ∧
    (∀ entry, dec.parseLog entry = none →
      publishLogLines dec entry = [⟨.log, [.str "跳过无效事件日志"]⟩] ∧
      registerLogLines dec entry = [⟨.log, [.str "跳过无效事件日志"]⟩]) ∧
    (∀ (entry : RawLog) (args : List (String × ArgVal)) (id amount : Nat),
      dec.parseLog entry = some ⟨"ChapterMinted", args⟩ →
      LogDescription.arg ⟨"ChapterMinted", args⟩ "tokenId" = some (.uint id) →
      LogDescription.arg ⟨"ChapterMinted", args⟩ "amountMinted" = some (.uint amount) →
      publishLogLines dec entry = [
        ⟨.log, [.str "\n🔔 ChapterMinted 事件:"]⟩,
        ⟨.log, [.str "  🔸 tokenId:     ", .num id]⟩,
        ⟨.log, [.str "  🔸 to:          ",
          showArg (LogDescription.arg ⟨"ChapterMinted", args⟩ "to")]⟩,
        ⟨.log, [.str "  🔸 amountMinted:", .num amount]⟩,
        ⟨.log, [.str "跳过无效事件日志"]⟩]) ∧
    (∀ (m u c : RawLog) (argsM argsC : List (String × ArgVal)) (idM amount idC : Nat),
      dec.parseLog m = some ⟨"ChapterMinted", argsM⟩ →
      LogDescription.arg ⟨"ChapterMinted", argsM⟩ "tokenId" = some (.uint idM) →
      LogDescription.arg ⟨"ChapterMinted", argsM⟩ "amountMinted" = some (.uint amount) →
      dec.parseLog u = none →
      dec.parseLog c = some ⟨"ChapterCreated", argsC⟩ →
      LogDescription.arg ⟨"ChapterCreated", argsC⟩ "tokenId" = some (.uint idC) →
      publishDecodeLoop dec [m, u, c] w = (.ok (), { w with console := w.console ++ [
        ⟨.log, [.str "\n🔔 ChapterMinted 事件:"]⟩,
        ⟨.log, [.str "  🔸 tokenId:     ", .num idM]⟩,
        ⟨.log, [.str "  🔸 to:          ",
          showArg (LogDescription.arg ⟨"ChapterMinted", argsM⟩ "to")]⟩,
        ⟨.log, [.str "  🔸 amountMinted:", .num amount]⟩,
        ⟨.log, [.str "跳过无效事件日志"]⟩,
        ⟨.log, [.str "跳过无效事件日志"]⟩,
        ⟨.log, [.str "\n🎉 ChapterCreated 事件:"]⟩,
        ⟨.log, [.str "  🔸 tokenId:     ", .num idC]⟩,
        ⟨.log, [.str "  🔸 creator:     ",
          showArg (LogDescription.arg ⟨"ChapterCreated", argsC⟩ "creator")]⟩,
        ⟨.log, [.str "  🔸 mangaTitleZh:",
          showArg (LogDescription.arg ⟨"ChapterCreated", argsC⟩ "mangaTitleZh")]⟩,
        ⟨.log, [.str "  🔸 mangaTitleEn:",
          showArg (LogDescription.arg ⟨"ChapterCreated", argsC⟩ "mangaTitleEn")]⟩,
        ⟨.log, [.str "  🔸 mangaTitleJp:",
          showArg (LogDescription.arg ⟨"ChapterCreated", argsC⟩ "mangaTitleJp")]⟩] })) ∧
    (∀ (entry : RawLog) (args : List (String × ArgVal)) (id : Nat),
      dec.parseLog entry = some ⟨"ChapterCreated", args⟩ →
      LogDescription.arg ⟨"ChapterCreated", args⟩ "tokenId" = some (.uint id) →
      publishLogLines dec entry = [
        ⟨.log, [.str "\n🎉 ChapterCreated 事件:"]⟩,
        ⟨.log, [.str "  🔸 tokenId:     ", .num id]⟩,
        ⟨.log, [.str "  🔸 creator:     ",
          showArg (LogDescription.arg ⟨"ChapterCreated", args⟩ "creator")]⟩,
        ⟨.log, [.str "  🔸 mangaTitleZh:",
          showArg (LogDescription.arg ⟨"ChapterCreated", args⟩ "mangaTitleZh")]⟩,
        ⟨.log, [.str "  🔸 mangaTitleEn:",
          showArg (LogDescription.arg ⟨"ChapterCreated", args⟩ "mangaTitleEn")]⟩,
        ⟨.log, [.str "  🔸 mangaTitleJp:",
          showArg (LogDescription.arg ⟨"ChapterCreated", args⟩ "mangaTitleJp")]⟩]) ∧
    (∀ (entry : RawLog) (args : List (String × ArgVal)) (n total : Nat),
      dec.parseLog entry = some ⟨"InvestorNFTAcquired", args⟩ →
      LogDescription.arg ⟨"InvestorNFTAcquired", args⟩ "acquiredCount" = some (.uint n) →
      LogDescription.arg ⟨"InvestorNFTAcquired", args⟩ "totalAcquired" = some (.uint total) →
      registerLogLines dec entry = [
        ⟨.log, [.str "\n🎉 InvestorNFTAcquired 事件:"]⟩,
        ⟨.log, [.str "  🔸 investor:     ",
          showArg (LogDescription.arg ⟨"InvestorNFTAcquired", args⟩ "investor")]⟩,
        ⟨.log, [.str "  🔸 acquiredCount:", .num n]⟩,
        ⟨.log, [.str "  🔸 totalAcquired:", .num total]⟩]) ∧
    (∀ (env : PublishEnv) (abi : Abi) (wa tx : String) (blockNumber : Nat),
      unset env.RPC_URL = false → unset env.CREATOR_KEY = false →
      unset env.MANGA_NFT_ADDRESS = false → env.abiExists = true →
      env.abi = .ok abi → env.signer = .ok wa → env.contract = .ok () →
      env.createChapter = .ok tx → env.receipt = .ok ⟨blockNumber, logs⟩ →
      env.interface = .ok dec →
      (runMain (publishMain env) w).termination = .ranToEnd) ∧
    (∀ (env : RegisterTxEnv) (target addr id tx : String) (n blockNumber : Nat),
      encodeUint256 id = some n →
      env.investorRegistration = .ok tx → env.receipt = .ok ⟨blockNumber, logs⟩ →
      env.interface = .ok dec →
      (registerSubmit env target addr id w).1 = .ok ()) := by
  refine ⟨publishDecodeLoop_eq dec logs w, registerDecodeLoop_eq dec logs w, ?_,
    publishLogLines_minted dec, ?_, publishLogLines_created dec,
    registerLogLines_acquired dec, ?_, ?_⟩
  · intro entry h
    exact ⟨publishLogLines_unknown dec entry h, registerLogLines_unknown dec entry h⟩
  · intro m u c argsM argsC idM amount idC hm h1 h2 hu hc h3
    rw [publishDecodeLoop_eq]
    simp only [List.map_cons, List.map_nil, List.flatten_cons, List.flatten_nil,
      publishLogLines_minted dec m argsM idM amount hm h1 h2, publishLogLines_unknown dec u hu,
      publishLogLines_created dec c argsC idC hc h3]
    rfl
  · intro env abi wa tx blockNumber h1 h2 h3 h4 h5 h6 h7 h8 h9 h10
    exact publishMain_completes env w abi wa tx _ dec h1 h2 h3 h4 h5 h6 h7 h8 h9 h10
  · intro env target addr id tx n blockNumber h7 h8 h9 h10
    exact registerSubmit_completes env w target addr id tx n _ dec h7 h8 h9 h10

/-- C6 at the receipt `[ChapterMinted, unknown, ChapterCreated]` under the sample
decoder: the `ChapterMinted` report stops after `amountMinted` and is followed by the
skip notice. -/
theorem minted_report_is_cut_short_witness :
    publishDecodeLoop sampleDecoder [⟨"0xN", [], "M"⟩, ⟨"0xN", [], "?"⟩, ⟨"0xN", [], "A"⟩]
        World.empty =
      (.ok (), { World.empty with console := [
        ⟨.log, [.str "\n🔔 ChapterMinted 事件:"]⟩,
        ⟨.log, [.str "  🔸 tokenId:     ", .num 1]⟩,
        ⟨.log, [.str "  🔸 to:          ", .str "0xT1"]⟩,
        ⟨.log, [.str "  🔸 amountMinted:", .num 10]⟩,
        ⟨.log, [.str "跳过无效事件日志"]⟩,
        ⟨.log, [.str "跳过无效事件日志"]⟩,
        ⟨.log, [.str "\n🎉 ChapterCreated 事件:"]⟩,
        ⟨.log, [.str "  🔸 tokenId:     ", .num 1]⟩,
        ⟨.log, [.str "  🔸 creator:     ", .str "0xC1"]⟩,
        ⟨.log, [.str "  🔸 mangaTitleZh:", .undefined]⟩,
        ⟨.log, [.str "  🔸 mangaTitleEn:", .undefined]⟩,
        ⟨.log, [.str "  🔸 mangaTitleJp:", .undefined]⟩] }) :=
  (minted_report_is_cut_short sampleDecoder [] World.empty).2.2.2.2.1
    ⟨"0xN", [], "M"⟩ ⟨"0xN", [], "?"⟩ ⟨"0xN", [], "A"⟩ _ _ 1 10 1 rfl rfl rfl rfl rfl rfl

/-! ## uploader/getCreator.js and uploader/getInvestor.js -/

theorem primary_failure_fails_creator (env : CreatorEnv) (w : World) (e : JsError)
    (h : env.getCreatorStats = .error e) :
    (runMain (creatorMain env) w).termination = .exited 1 ∧
    ((runMain (creatorMain env) w).world.chain = w.chain ∨
      (runMain (creatorMain env) w).world.chain = w.chain ++
        [.query (env.DATAUPLOADER_ADDRESS.getD "") "getCreatorStats"
          [.str (env.argv.headD "")]]) := by
  rcases h1 : unset env.RPC_URL || unset env.CREATOR_KEY || unset env.DATAUPLOADER_ADDRESS
  swap
  · simp [runMain, creatorMain, h1]
  rcases h2 : env.abiExists
  · simp [runMain, creatorMain, h1, h2]
  rcases h3 : env.abi with e3 | abi
  · simp [runMain, creatorMain, h1, h2, h3]
  rcases h4 : env.signer with e4 | wa
  · simp [runMain, creatorMain, h1, h2, h3, h4]
  rcases h5 : env.contract with e5 | u
  · simp [runMain, creatorMain, h1, h2, h3, h4, h5]
  by_cases h6 : env.argv.length < 1
  · simp [runMain, creatorMain, h1, h2, h3, h4, h5, h6]
  rcases h7 : env.isAddress (env.argv.head?.getD "")
  · simp [runMain, creatorMain, h1, h2, h3, h4, h5, h6, h7]
  rcases hi1 : includes e.message "Creator data not found" <;>
  rcases hi2 : includes e.message "execution reverted" <;>
  simp [runMain, creatorMain, creatorQuery, creatorCatch, tryCatch_apply, h1, h2, h3, h4, h5,
    h6, h7, h, hi1, hi2]

set_option maxHeartbeats 1000000 in
theorem primary_failure_fails_investor (env : InvestorEnv) (w : World) (e : JsError)
    (h : env.getInvestorStats = .error e) :
    (runMain (investorMain env) w).termination = .exited 1 ∧
    ((runMain (investorMain env) w).world.chain = w.chain ∨
      (runMain (investorMain env) w).world.chain = w.chain ++
        [.query (env.DATAUPLOADER_ADDRESS.getD "") "platformAddress" []] ∨
      (runMain (investorMain env) w).world.chain = w.chain ++
        [.query (env.DATAUPLOADER_ADDRESS.getD "") "platformAddress" [],
         .query (env.DATAUPLOADER_ADDRESS.getD "") "getInvestorStats"
          [.str (env.argv.headD "")]]) := by
  rcases h1 : unset env.RPC_URL || unset env.CREATOR_KEY || unset env.DATAUPLOADER_ADDRESS
  swap
  · simp [runMain, investorMain, h1]
  rcases h2 : env.abiExists
  · simp [runMain, investorMain, h1, h2]
  rcases h3 : env.abi with e3 | abi
  · simp [runMain, investorMain, h1, h2, h3]
  rcases h4 : env.signer with e4 | wa
  · simp [runMain, investorMain, h1, h2, h3, h4]
  rcases h5 : env.contract with e5 | u
  · simp [runMain, investorMain, h1, h2, h3, h4, h5]
  rcases h8 : env.platformAddress with e8 | pa
  · by_cases h6 : env.argv.length < 1
    · simp [runMain, investorMain, tryCatch_apply, h1, h2, h3, h4, h5, h6, h8]
    rcases h7 : env.isAddress (env.argv.head?.getD "")
    · simp [runMain, investorMain, tryCatch_apply, h1, h2, h3, h4, h5, h6, h7, h8]
    rcases hi1 : includes e.message "Investor data not found" <;>
    rcases hi2 : includes e.message "execution reverted" <;>
    simp [runMain, investorMain, investorQuery, investorCatch, tryCatch_apply, h1, h2, h3, h4,
      h5, h6, h7, h8, h, hi1, hi2]
  · by_cases h6 : env.argv.length < 1
    · simp [runMain, investorMain, tryCatch_apply, h1, h2, h3, h4, h5, h6, h8]
    rcases h7 : env.isAddress (env.argv.head?.getD "")
    · simp [runMain, investorMain, tryCatch_apply, h1, h2, h3, h4, h5, h6, h7, h8]
    rcases hi1 : includes e.message "Investor data not found" <;>
    rcases hi2 : includes e.message "execution reverted" <;>
    simp [runMain, investorMain, investorQuery, investorCatch, tryCatch_apply, h1, h2, h3, h4,
      h5, h6, h7, h8, h, hi1, hi2]


set_option maxHeartbeats 1000000 in
/-- C7. In `getCreator.js`, when `getCreatorStats` succeeds: whatever `isCreator` and
`getAllCreators` do, the command runs to its end, all three queries are issued, the three
primary values are printed, a failed secondary query prints its own unavailable line
and a successful one prints its value and not that line. -/
theorem creator_secondaries_degrade (env : CreatorEnv) (w : World) (abi : Abi)
    (wa target addr : String) (rest : List String) (stats : CreatorStats)
    (h1 : env.RPC_URL ≠ none ∧ env.RPC_URL ≠ some "")
    (h2 : env.CREATOR_KEY ≠ none ∧ env.CREATOR_KEY ≠ some "")
    (h3 : env.DATAUPLOADER_ADDRESS = some target ∧ target ≠ "")
    (h4 : env.abiExists = true) (h5 : env.abi = .ok abi) (h6 : env.signer = .ok wa)
    (h7 : env.contract = .ok ()) (h8 : env.argv = addr :: rest)
    (h9 : env.isAddress addr = true) (h10 : env.getCreatorStats = .ok stats) :
    (runMain (creatorMain env) w).termination = .ranToEnd ∧
    (runMain (creatorMain env) w).world.chain = w.chain ++ [
      .query target "getCreatorStats" [.str addr],
      .query target "isCreator" [.str addr],
      .query target "getAllCreators" []] ∧
    ⟨.log, [.str "   总发布数量:", .num stats.totalPublished, .str "个章节"]⟩ ∈
      (runMain (creatorMain env) w).world.console ∧
    ⟨.log, [.str "   总获得数量:", .num stats.totalAcquired, .str "个NFT"]⟩ ∈
      (runMain (creatorMain env) w).world.console ∧
    ⟨.log, [.str "   当前持有数量:", .num stats.currentHeld, .str "个NFT"]⟩ ∈
      (runMain (creatorMain env) w).world.console ∧
    (∀ e, env.isCreator = .error e →
      ⟨.log, [.str "   注册状态: 无法查询"]⟩ ∈ (runMain (creatorMain env) w).world.console) ∧
    (∀ b, env.isCreator = .ok b →
      ⟨.log, [.str "   注册状态:", .str (if b then "✅ 已注册" else "❌ 未注册")]⟩ ∈
        (runMain (creatorMain env) w).world.console ∧
      ⟨.log, [.str "   注册状态: 无法查询"]⟩ ∉
        (runMain (creatorMain env) w).world.console.drop w.console.length) ∧
    (∀ e, env.getAllCreators = .error e →
      ⟨.log, [.str "   无法获取创作者列表"]⟩ ∈ (runMain (creatorMain env) w).world.console) ∧
    (∀ l, env.getAllCreators = .ok l →
      ⟨.log, [.str "   总创作者数量:", .num l.length, .str "个"]⟩ ∈
        (runMain (creatorMain env) w).world.console ∧
      ⟨.log, [.str (if l.contains addr then "   在创作者列表中: ✅ 是"
        else "   在创作者列表中: ❌ 否")]⟩ ∈ (runMain (creatorMain env) w).world.console ∧
      ⟨.log, [.str "   无法获取创作者列表"]⟩ ∉
        (runMain (creatorMain env) w).world.console.drop w.console.length) := by
  have u1 : unset env.RPC_URL = false := by
    rcases hx : env.RPC_URL with _ | x
    · exact absurd hx h1.1
    · simpa [unset] using fun hh : x = "" => h1.2 (hx.trans (congrArg some hh))
  have u2 : unset env.CREATOR_KEY = false := by
    rcases hx : env.CREATOR_KEY with _ | x
    · exact absurd hx h2.1
    · simpa [unset] using fun hh : x = "" => h2.2 (hx.trans (congrArg some hh))
  have u3 : unset (some target) = false := by
    simpa [unset] using h3.2
  have hd : ∀ (l1 l2 : List Line), List.drop l1.length (l1 ++ l2) = l2 := by
    intro l1 l2
    simp
  rcases hc : env.isCreator with e1 | b <;> by_cases hp : stats.totalPublished = 0 <;>
    rcases hr : env.getAllCreators with e2 | l
  all_goals first
    | (simp [runMain, creatorMain, creatorQuery, tryCatch_apply, u1, u2, u3, h3.1, h4, h5, h6,
        h7, h8, h9, h10, hc, hr, hp, hd]; done)
    | (by_cases hm : addr ∈ l <;>
        simp [runMain, creatorMain, creatorQuery, tryCatch_apply, u1, u2, u3, h3.1, h4, h5, h6,
          h7, h8, h9, h10, hc, hr, hp, hd, hm])

/-! ## JavaScript numbers -/

theorem roundHalfEven_le (y : ℚ) (n : ℤ) (h : y ≤ n) : roundHalfEven y ≤ n := by
  unfold roundHalfEven
  have hf1 : (⌊y⌋ : ℚ) ≤ y := Int.floor_le y
  have hfn : ⌊y⌋ ≤ n := by exact_mod_cast hf1.trans h
  simp only
  split_ifs with h1 h2 h3
  · exact hfn
  · rcases lt_or_eq_of_le hfn with h4 | h4
    · omega
    · exfalso
      have : (⌊y⌋ : ℚ) = n := by exact_mod_cast h4
      linarith
  · exact hfn
  · rcases lt_or_eq_of_le hfn with h4 | h4
    · omega
    · exfalso
      have : (⌊y⌋ : ℚ) = n := by exact_mod_cast h4
      linarith

theorem le_roundHalfEven (y : ℚ) (n : ℤ) (h : (n : ℚ) ≤ y) : n ≤ roundHalfEven y := by
  unfold roundHalfEven
  have hfn : n ≤ ⌊y⌋ := Int.le_floor.mpr h
  simp only
  split_ifs <;> omega

theorem roundHalfEven_le_pred (y : ℚ) (n : ℤ) (h : y < n - 1 / 2) : roundHalfEven y ≤ n - 1 := by
  unfold roundHalfEven
  have hf1 : (⌊y⌋ : ℚ) ≤ y := Int.floor_le y
  have hfn : ⌊y⌋ ≤ n - 1 := by
    have : ⌊y⌋ < n := by
      have : (⌊y⌋ : ℚ) < n := by linarith
      exact_mod_cast this
    omega
  simp only
  split_ifs with h1 h2 h3
  · exact hfn
  · rcases lt_or_eq_of_le hfn with h4 | h4
    · omega
    · exfalso
      have : (⌊y⌋ : ℚ) = n - 1 := by exact_mod_cast h4
      linarith
  · exact hfn
  · rcases lt_or_eq_of_le hfn with h4 | h4
    · omega
    · exfalso
      have : (⌊y⌋ : ℚ) = n - 1 := by exact_mod_cast h4
      linarith

theorem roundHalfEven_sub_le (y : ℚ) : |(roundHalfEven y : ℚ) - y| ≤ 1 / 2 := by
  unfold roundHalfEven
  have hf1 : (⌊y⌋ : ℚ) ≤ y := Int.floor_le y
  have hf2 : y < ⌊y⌋ + 1 := Int.lt_floor_add_one y
  simp only
  rw [abs_le]
  split_ifs with h1 h2 h3
  · constructor <;> linarith
  · push_cast
    constructor <;> linarith
  · constructor <;> linarith
  · push_cast
    constructor <;> linarith

theorem roundHalfEven_intCast (n : ℤ) : roundHalfEven (n : ℚ) = n := by
  apply le_antisymm
  · exact roundHalfEven_le _ _ le_rfl
  · exact le_roundHalfEven _ _ le_rfl


theorem ulp_pos (z : ℚ) : 0 < ulp z := by
  unfold ulp
  positivity

theorem two_zpow_log_le (z : ℚ) (hz : 0 < z) : (2 : ℚ) ^ Int.log 2 z ≤ z := by
  have := Int.zpow_log_le_self (b := 2) (by norm_num) hz
  simpa using this

theorem lt_two_zpow_log_succ (z : ℚ) : z < (2 : ℚ) ^ (Int.log 2 z + 1) := by
  have := Int.lt_zpow_succ_log_self (b := 2) (by norm_num) z
  simpa using this

theorem log_lt_of_lt_zpow (z : ℚ) (hz : 0 < z) (k : ℤ) (h : z < 2 ^ k) : Int.log 2 z < k := by
  have := (Int.lt_zpow_iff_log_lt (b := 2) (by norm_num) (x := k) hz).mp (by simpa using h)
  exact this

theorem le_log_of_zpow_le (z : ℚ) (hz : 0 < z) (k : ℤ) (h : 2 ^ k ≤ z) : k ≤ Int.log 2 z := by
  have := (Int.zpow_le_iff_le_log (b := 2) (by norm_num) (x := k) hz).mp (by simpa using h)
  exact this

theorem two_zpow_eq_mul_ulp (z : ℚ) (k : ℤ) :
    (2 : ℚ) ^ (Int.log 2 z + k) = 2 ^ (52 + k) * ulp z := by
  unfold ulp
  rw [← zpow_add₀ (by norm_num : (2 : ℚ) ≠ 0)]
  congr 1
  ring

theorem le_rdq_of_onGrid (z d : ℚ) (h : d ≤ z) (hd : OnGrid d (Int.log 2 z - 52)) :
    d ≤ rdq z := by
  obtain ⟨n, rfl⟩ := hd
  unfold rdq
  have hu := ulp_pos z
  have h1 : (n : ℚ) ≤ z / ulp z := by
    rw [le_div_iff₀ hu]
    exact h
  have h2 : (n : ℚ) ≤ roundHalfEven (z / ulp z) := by
    exact_mod_cast le_roundHalfEven _ _ h1
  exact mul_le_mul_of_nonneg_right h2 hu.le

theorem rdq_le_of_onGrid (z d : ℚ) (h : z ≤ d) (hd : OnGrid d (Int.log 2 z - 52)) :
    rdq z ≤ d := by
  obtain ⟨n, rfl⟩ := hd
  unfold rdq
  have hu := ulp_pos z
  have h1 : z / ulp z ≤ (n : ℚ) := by
    rw [div_le_iff₀ hu]
    exact h
  have h2 : (roundHalfEven (z / ulp z) : ℚ) ≤ n := by
    exact_mod_cast roundHalfEven_le _ _ h1
  exact mul_le_mul_of_nonneg_right h2 hu.le

theorem rdq_snap (z a : ℚ) (ha : OnGrid a (Int.log 2 z - 52)) (h : z < a - ulp z / 2) :
    rdq z ≤ a - ulp z := by
  obtain ⟨n, rfl⟩ := ha
  unfold rdq
  have hu := ulp_pos z
  have h0 : (n : ℚ) * 2 ^ (Int.log 2 z - 52) = n * ulp z := rfl
  rw [h0] at h ⊢
  have h1 : z / ulp z < (n : ℚ) - 1 / 2 := by
    rw [div_lt_iff₀ hu]
    linarith
  have h2 : (roundHalfEven (z / ulp z) : ℚ) ≤ n - 1 := by
    exact_mod_cast roundHalfEven_le_pred _ _ h1
  have := mul_le_mul_of_nonneg_right h2 hu.le
  linarith

theorem rdq_bounds (z : ℚ) (hz : 0 < z) :
    (2 : ℚ) ^ Int.log 2 z ≤ rdq z ∧ rdq z ≤ 2 ^ (Int.log 2 z + 1) := by
  constructor
  · apply le_rdq_of_onGrid _ _ (two_zpow_log_le z hz)
    refine ⟨2 ^ 52, ?_⟩
    have := two_zpow_eq_mul_ulp z 0
    simp only [add_zero] at this
    rw [this]
    unfold ulp
    norm_num
  · apply rdq_le_of_onGrid _ _ (lt_two_zpow_log_succ z).le
    refine ⟨2 ^ 53, ?_⟩
    rw [two_zpow_eq_mul_ulp z 1]
    unfold ulp
    norm_num

theorem rdq_sub_le (z : ℚ) : |rdq z - z| ≤ ulp z / 2 := by
  unfold rdq
  have hu := ulp_pos z
  have h1 := roundHalfEven_sub_le (z / ulp z)
  have h2 : (roundHalfEven (z / ulp z) : ℚ) * ulp z - z
      = ((roundHalfEven (z / ulp z) : ℚ) - z / ulp z) * ulp z := by
    field_simp
  rw [h2, abs_mul, abs_of_pos hu]
  calc |(roundHalfEven (z / ulp z) : ℚ) - z / ulp z| * ulp z ≤ 1 / 2 * ulp z :=
        mul_le_mul_of_nonneg_right h1 hu.le
    _ = ulp z / 2 := by ring

theorem roundToDouble_normal (z : ℚ) (h1 : (2 : ℚ) ^ (-1022 : ℤ) ≤ z)
    (h2 : z < (2 : ℚ) ^ (1023 : ℤ)) : roundToDouble z = .finite (rdq z) := by
  have hz : 0 < z := lt_of_lt_of_le (by positivity) h1
  have he1 : -1022 ≤ Int.log 2 z := le_log_of_zpow_le z hz _ h1
  have he2 : Int.log 2 z < 1023 := log_lt_of_lt_zpow z hz _ h2
  have hr : rdq z ≤ 2 ^ (Int.log 2 z + 1) := (rdq_bounds z hz).2
  have hr2 : (2 : ℚ) ^ (Int.log 2 z + 1) ≤ 2 ^ (1023 : ℤ) :=
    zpow_le_zpow_right₀ (by norm_num) (by omega)
  have hr3 : rdq z < 2 ^ (1024 : ℕ) := by
    have : (2 : ℚ) ^ (1023 : ℤ) < 2 ^ (1024 : ℕ) := by norm_num
    linarith
  unfold roundToDouble
  rw [if_neg hz.ne', abs_of_pos hz, max_eq_left he1]
  simp only
  have hr4 : ¬ (2 : ℚ) ^ (1024 : ℕ) ≤
      (roundHalfEven (z / 2 ^ (Int.log 2 z - 52)) : ℚ) * 2 ^ (Int.log 2 z - 52) :=
    not_le.mpr hr3
  rw [if_neg hr4, if_neg (not_lt.mpr hz.le)]
  rfl


theorem onGrid_intCast (n : ℤ) (k : ℤ) (hk : k ≤ 0) : OnGrid (n : ℚ) k := by
  refine ⟨n * 2 ^ (-k).toNat, ?_⟩
  have h1 : ((2 : ℚ) ^ (-k).toNat) = 2 ^ (-k) := by
    rw [← zpow_natCast]
    congr 1
    omega
  push_cast
  rw [h1, mul_assoc, ← zpow_add₀ (by norm_num : (2 : ℚ) ≠ 0)]
  simp

/-- One division by a constant `c` with `2 ^ k < c < 2 ^ (k + 1)`: the quotient stays
between the integers `b` and `a`, and stays below `a` by a full spacing. -/
theorem div_step (x c : ℚ) (a b : ℤ) (e m k : ℤ)
    (hc1 : (2 : ℚ) ^ k < c) (hc2 : c < 2 ^ (k + 1))
    (hxlo : (2 : ℚ) ^ m ≤ x) (hxb : b * c ≤ x) (hxa : x ≤ a * c - 2 ^ (e - 52))
    (hxe : x ≤ 2 ^ (e + 1)) (he : e - k ≤ 52) (hm : -1022 ≤ m - k - 1)
    (he2 : e + 1 - k ≤ 1023) :
    ∃ (y : ℚ) (e2 : ℤ), (JsNumber.finite x).div (.finite c) = .finite y ∧ e2 ≤ e - k ∧
      (2 : ℚ) ^ (m - k - 1) ≤ y ∧ (b : ℚ) ≤ y ∧ y ≤ a - 2 ^ (e2 - 52) ∧ y ≤ 2 ^ (e2 + 1) := by
  have hc0 : 0 < c := lt_trans (by positivity) hc1
  have hx0 : 0 < x := lt_of_lt_of_le (by positivity) hxlo
  have hz0 : 0 < x / c := div_pos hx0 hc0
  -- the quotient is below `2 ^ (e + 1 - k)`
  have hzhi : x / c < 2 ^ (e + 1 - k) := by
    rw [div_lt_iff₀ hc0]
    calc x ≤ 2 ^ (e + 1) := hxe
      _ = 2 ^ (e + 1 - k) * 2 ^ k := by
        rw [← zpow_add₀ (by norm_num : (2 : ℚ) ≠ 0)]
        congr 1
        ring
      _ < 2 ^ (e + 1 - k) * c := by
        apply mul_lt_mul_of_pos_left hc1
        positivity
  -- and above `2 ^ (m - k - 1)`
  have hzlo : (2 : ℚ) ^ (m - k - 1) ≤ x / c := by
    rw [le_div_iff₀ hc0]
    calc (2 : ℚ) ^ (m - k - 1) * c ≤ 2 ^ (m - k - 1) * 2 ^ (k + 1) := by
          apply mul_le_mul_of_nonneg_left hc2.le
          positivity
      _ = 2 ^ m := by
        rw [← zpow_add₀ (by norm_num : (2 : ℚ) ≠ 0)]
        congr 1
        ring
      _ ≤ x := hxlo
  have hlog1 : Int.log 2 (x / c) ≤ e - k := by
    have := log_lt_of_lt_zpow _ hz0 _ hzhi
    omega
  have hlog2 : m - k - 1 ≤ Int.log 2 (x / c) := le_log_of_zpow_le _ hz0 _ hzlo
  have hnorm : roundToDouble (x / c) = .finite (rdq (x / c)) := by
    apply roundToDouble_normal
    · exact le_trans (zpow_le_zpow_right₀ (by norm_num) hm) hzlo
    · exact lt_of_lt_of_le hzhi (zpow_le_zpow_right₀ (by norm_num) he2)
  have hgrid : ∀ n : ℤ, OnGrid (n : ℚ) (Int.log 2 (x / c) - 52) :=
    fun n => onGrid_intCast n _ (by omega)
  refine ⟨rdq (x / c), Int.log 2 (x / c), ?_, hlog1, ?_, ?_, ?_, (rdq_bounds _ hz0).2⟩
  · show (if c = 0 then _ else roundToDouble (x / c)) = _
    rw [if_neg hc0.ne', hnorm]
  · exact le_trans (zpow_le_zpow_right₀ (by norm_num) hlog2) (rdq_bounds _ hz0).1
  · apply le_rdq_of_onGrid _ _ _ (hgrid b)
    rw [le_div_iff₀ hc0]
    exact hxb
  · have hs := rdq_snap (x / c) a (hgrid a) ?_
    · exact hs
    · -- the gap left by the previous step, divided by `c`, exceeds half a spacing
      have h1 : x / c ≤ a - 2 ^ (e - 52) / c := by
        rw [div_le_iff₀ hc0]
        have : (↑a - 2 ^ (e - 52) / c) * c = a * c - 2 ^ (e - 52) := by
          field_simp
        rw [this]
        exact hxa
      have h2 : ulp (x / c) / 2 < 2 ^ (e - 52) / c := by
        rw [lt_div_iff₀ hc0]
        unfold ulp
        calc (2 : ℚ) ^ (Int.log 2 (x / c) - 52) / 2 * c
            < 2 ^ (Int.log 2 (x / c) - 52) / 2 * 2 ^ (k + 1) := by
              apply mul_lt_mul_of_pos_left hc2
              positivity
          _ = 2 ^ (Int.log 2 (x / c) - 52 + k) := by
              rw [zpow_add₀ (by norm_num : (2 : ℚ) ≠ 0), zpow_add₀ (by norm_num : (2 : ℚ) ≠ 0)]
              ring
          _ ≤ 2 ^ (e - 52) := zpow_le_zpow_right₀ (by norm_num) (by omega)
      linarith


theorem currentYearMonth_zero : currentYearMonth 0 = .finite 0 := by
  simp [currentYearMonth, JsNumber.div, JsNumber.floor, roundToDouble]

theorem currentYearMonth_eq (t : ℕ) (ht : t < 2 ^ 53) :
    currentYearMonth t = .finite ((t / 2592000000 : ℕ) : ℚ) := by
  rcases Nat.eq_zero_or_pos t with h0 | hpos
  · subst h0
    simpa using currentYearMonth_zero
  have hK1 : (2592000000 : ℚ) * ((t / 2592000000 : ℕ) : ℚ) ≤ t := by
    exact_mod_cast Nat.mul_div_le t 2592000000
  have hK2 : (t : ℚ) + 1 ≤ 2592000000 * (((t / 2592000000 : ℕ) : ℚ) + 1) := by
    have := Nat.lt_mul_div_succ t (by norm_num : 0 < 2592000000)
    have h2 : t + 1 ≤ 2592000000 * (t / 2592000000 + 1) := this
    exact_mod_cast h2
  have ht1 : (1 : ℚ) ≤ t := by exact_mod_cast hpos
  have ht2 : (t : ℚ) ≤ 2 ^ 53 := by exact_mod_cast ht.le
  generalize t / 2592000000 = K at hK1 hK2 ⊢
  obtain ⟨y1, e1, q1, he1, hm1, hb1, ha1, hx1⟩ := div_step (t : ℚ) 1000
    ((2592000 * (K + 1) : ℕ) : ℤ) ((2592000 * K : ℕ) : ℤ) 52 0 9
    (by norm_num) (by norm_num) (by norm_num; exact hpos) (by push_cast; linarith)
    (by push_cast; norm_num; linarith) (by norm_num; exact ht.le) (by norm_num) (by norm_num)
    (by norm_num)
  obtain ⟨y2, e2, q2, he2, hm2, hb2, ha2, hx2⟩ := div_step y1 60
    ((43200 * (K + 1) : ℕ) : ℤ) ((43200 * K : ℕ) : ℤ) e1 (0 - 9 - 1) 5
    (by norm_num) (by norm_num) hm1 (by push_cast at hb1 ⊢; linarith)
    (by push_cast at ha1 ⊢; linarith) hx1 (by omega) (by norm_num) (by omega)
  obtain ⟨y3, e3, q3, he3, hm3, hb3, ha3, hx3⟩ := div_step y2 60
    ((720 * (K + 1) : ℕ) : ℤ) ((720 * K : ℕ) : ℤ) e2 (0 - 9 - 1 - 5 - 1) 5
    (by norm_num) (by norm_num) hm2 (by push_cast at hb2 ⊢; linarith)
    (by push_cast at ha2 ⊢; linarith) hx2 (by omega) (by norm_num) (by omega)
  obtain ⟨y4, e4, q4, he4, hm4, hb4, ha4, hx4⟩ := div_step y3 24
    ((30 * (K + 1) : ℕ) : ℤ) ((30 * K : ℕ) : ℤ) e3 (0 - 9 - 1 - 5 - 1 - 5 - 1) 4
    (by norm_num) (by norm_num) hm3 (by push_cast at hb3 ⊢; linarith)
    (by push_cast at ha3 ⊢; linarith) hx3 (by omega) (by norm_num) (by omega)
  obtain ⟨y5, e5, q5, he5, hm5, hb5, ha5, hx5⟩ := div_step y4 30
    ((K + 1 : ℕ) : ℤ) ((K : ℕ) : ℤ) e4 (0 - 9 - 1 - 5 - 1 - 5 - 1 - 4 - 1) 4
    (by norm_num) (by norm_num) hm4 (by push_cast at hb4 ⊢; linarith)
    (by push_cast at ha4 ⊢; linarith) hx4 (by omega) (by norm_num) (by omega)
  unfold currentYearMonth
  rw [q1, q2, q3, q4, q5]
  show JsNumber.finite ((⌊y5⌋ : ℤ) : ℚ) = _
  have hfl : ⌊y5⌋ = (K : ℤ) := by
    rw [Int.floor_eq_iff]
    constructor
    · exact_mod_cast hb5
    · have : (0 : ℚ) < 2 ^ (e5 - 52) := by positivity
      push_cast at ha5 ⊢
      linarith
  rw [hfl]
  simp


theorem rdq_of_onGrid (z : ℚ) (hd : OnGrid z (Int.log 2 z - 52)) : rdq z = z :=
  le_antisymm (rdq_le_of_onGrid z z le_rfl hd) (le_rdq_of_onGrid z z le_rfl hd)

theorem ofBigInt_exact (n : ℕ) (hn : n < 2 ^ 53) : JsNumber.ofBigInt n = .finite n := by
  unfold JsNumber.ofBigInt
  rcases Nat.eq_zero_or_pos n with h0 | hpos
  · subst h0
    simp [roundToDouble]
  have h1 : (1 : ℚ) ≤ n := by exact_mod_cast hpos
  have h2 : (n : ℚ) < 2 ^ (53 : ℤ) := by
    have h3 : ((n : ℕ) : ℚ) < ((2 ^ 53 : ℕ) : ℚ) := Nat.cast_lt.mpr hn
    have h4 : (((2 : ℕ) ^ 53 : ℕ) : ℚ) = (2 : ℚ) ^ (53 : ℤ) := by norm_num
    rw [h4] at h3
    exact h3
  have hz : (0 : ℚ) < n := by linarith
  rw [roundToDouble_normal]
  · congr 1
    apply rdq_of_onGrid
    have hl : Int.log 2 (n : ℚ) < 53 := log_lt_of_lt_zpow _ hz _ h2
    have := onGrid_intCast (n : ℤ) (Int.log 2 (n : ℚ) - 52) (by omega)
    simpa using this
  · exact le_trans (by norm_num) h1
  · exact lt_trans h2 (by norm_num)

theorem retentionRate_ten_five : retentionRate ⟨10, 5⟩ = .fixed2 false 5000 := by
  unfold retentionRate
  have h5 := ofBigInt_exact 5 (by norm_num)
  have h10 := ofBigInt_exact 10 (by norm_num)
  simp only [Nat.cast_ofNat] at h5 h10
  rw [h5, h10]
  have hdiv : (JsNumber.finite 5).div (.finite 10) = .finite (1 / 2) := by
    show (if (10 : ℚ) = 0 then (if (5 : ℚ) = 0 then JsNumber.nan
      else JsNumber.infinite (decide ((5 : ℚ) < 0))) else roundToDouble (5 / 10)) = _
    rw [if_neg (by norm_num), roundToDouble_normal _ (by norm_num) (by norm_num)]
    congr 1
    have h : (5 / 10 : ℚ) = 2 ^ (-1 : ℤ) := by norm_num
    have h' : (1 / 2 : ℚ) = 2 ^ (-1 : ℤ) := by norm_num
    rw [h, h']
    apply rdq_of_onGrid
    have hl : Int.log 2 ((2 : ℚ) ^ (-1 : ℤ)) = -1 := by
      have := Int.log_zpow (R := ℚ) (b := 2) (by norm_num) (-1)
      simpa using this
    rw [hl]
    exact ⟨2 ^ 52, by norm_num⟩
  have hmul : (JsNumber.finite (1 / 2)).mul (.finite 100) = .finite 50 := by
    show roundToDouble (1 / 2 * 100) = _
    have h50 := ofBigInt_exact 50 (by norm_num)
    simp only [JsNumber.ofBigInt, Nat.cast_ofNat] at h50
    norm_num
    exact h50
  rw [hdiv, hmul]
  simp only [JsNumber.toFixed2]
  norm_num
  rfl


theorem ulp_half_le (z : ℚ) (hz : 0 < z) : ulp z / 2 ≤ z / 2 ^ 53 := by
  have h1 := two_zpow_log_le z hz
  have h2 : ulp z = 2 ^ Int.log 2 z / 2 ^ 52 := by
    unfold ulp
    rw [zpow_sub₀ (by norm_num : (2 : ℚ) ≠ 0)]
    norm_num
  rw [h2]
  have h3 : (2 : ℚ) ^ Int.log 2 z / 2 ^ 52 / 2 = 2 ^ Int.log 2 z / 2 ^ 53 := by
    rw [div_div]
    norm_num
  rw [h3]
  exact div_le_div_of_nonneg_right h1 (by positivity)

/-- Rounding a number between `2 ^ (-1022)` and `2 ^ 1023` changes it by at most one part
in `2 ^ 53`. -/
theorem roundToDouble_near (z : ℚ) (h1 : (2 : ℚ) ^ (-1022 : ℤ) ≤ z)
    (h2 : z < (2 : ℚ) ^ (1023 : ℤ)) :
    ∃ y : ℚ, roundToDouble z = .finite y ∧ |y - z| ≤ z / 2 ^ 53 := by
  have hz : 0 < z := lt_of_lt_of_le (by positivity) h1
  exact ⟨rdq z, roundToDouble_normal z h1 h2, le_trans (rdq_sub_le z) (ulp_half_le z hz)⟩

theorem retentionRate_accuracy (a h : ℕ) (ha : 0 < a) (ha2 : a < 2 ^ 53) (hh : h ≤ a) :
    ∃ n : ℕ, retentionRate ⟨a, h⟩ = .fixed2 false n ∧
      |(n : ℚ) / 100 - 100 * h / a| ≤ 1 / 200 + 1 / 10 ^ 13 := by
  unfold retentionRate
  rw [ofBigInt_exact a ha2, ofBigInt_exact h (lt_of_le_of_lt hh ha2)]
  have ha0 : (0 : ℚ) < a := by exact_mod_cast ha
  have hdivdef : (JsNumber.finite (h : ℚ)).div (.finite (a : ℚ)) = roundToDouble ((h : ℚ) / a) := by
    show (if (a : ℚ) = 0 then (if (h : ℚ) = 0 then JsNumber.nan
      else JsNumber.infinite (decide ((h : ℚ) < 0))) else roundToDouble ((h : ℚ) / a)) = _
    rw [if_neg ha0.ne']
  rw [hdivdef]
  rcases Nat.eq_zero_or_pos h with h0 | hpos
  · subst h0
    refine ⟨0, ?_, ?_⟩
    · simp [roundToDouble, JsNumber.mul, JsNumber.toFixed2]
      norm_num
    · norm_num
  have hh1 : (1 : ℚ) ≤ h := by exact_mod_cast hpos
  have hh2 : (h : ℚ) ≤ a := by exact_mod_cast hh
  have ha3 : (a : ℚ) < 2 ^ 53 := by exact_mod_cast ha2
  have hz1 : (h : ℚ) / a ≤ 1 := (div_le_one ha0).mpr hh2
  have hz2 : (1 : ℚ) / 2 ^ 53 ≤ (h : ℚ) / a := by
    rw [div_le_div_iff₀ (by positivity) ha0]
    nlinarith
  obtain ⟨q, hq, hqe⟩ := roundToDouble_near ((h : ℚ) / a)
    (le_trans (by norm_num) hz2) (lt_of_le_of_lt hz1 (by norm_num))
  rw [hq]
  rw [abs_le] at hqe
  have hq1 : (1 : ℚ) / 2 ^ 54 ≤ q := by
    have : (h : ℚ) / a / 2 ^ 53 ≤ (h : ℚ) / a / 2 := by
      apply div_le_div_of_nonneg_left (le_trans (by norm_num) hz2) (by norm_num) (by norm_num)
    linarith
  have hq2 : q ≤ 2 := by
    have : (h : ℚ) / a / 2 ^ 53 ≤ 1 := by
      apply le_trans _ hz1
      apply div_le_self (le_trans (by norm_num) hz2) (by norm_num)
    linarith
  obtain ⟨p, hp, hpe⟩ := roundToDouble_near (q * 100)
    (le_trans (by norm_num) (mul_le_mul_of_nonneg_right hq1 (by norm_num : (0 : ℚ) ≤ 100)))
    (lt_of_le_of_lt (mul_le_mul_of_nonneg_right hq2 (by norm_num : (0 : ℚ) ≤ 100))
      (by norm_num))
  have hmul : (JsNumber.finite q).mul (.finite 100) = .finite p := hp
  rw [hmul]
  rw [abs_le] at hpe
  have hp0 : 0 ≤ p := by
    have : q * 100 / 2 ^ 53 ≤ q * 100 := by
      apply div_le_self (by linarith) (by norm_num)
    linarith
  have hp1 : p ≤ 1000 := by
    have : q * 100 / 2 ^ 53 ≤ q * 100 := by
      apply div_le_self (by linarith) (by norm_num)
    linarith
  have hfl1 : ((⌊p * 100 + 1 / 2⌋ : ℤ) : ℚ) ≤ p * 100 + 1 / 2 := Int.floor_le _
  have hfl2 : p * 100 + 1 / 2 < ((⌊p * 100 + 1 / 2⌋ : ℤ) : ℚ) + 1 := Int.lt_floor_add_one _
  have hfl0 : 0 ≤ ⌊p * 100 + 1 / 2⌋ := Int.floor_nonneg.mpr (by linarith)
  refine ⟨⌊p * 100 + 1 / 2⌋.toNat, ?_, ?_⟩
  · simp only [JsNumber.toFixed2]
    rw [abs_of_nonneg hp0, if_neg (by linarith)]
    simp [not_lt.mpr hp0]
  · have hcast : ((⌊p * 100 + 1 / 2⌋.toNat : ℕ) : ℚ) = ((⌊p * 100 + 1 / 2⌋ : ℤ) : ℚ) := by
      have := Int.toNat_of_nonneg hfl0
      exact_mod_cast this
    rw [hcast, abs_le]
    have e1 : (100 : ℚ) * h / a = 100 * ((h : ℚ) / a) := by ring
    rw [e1]
    have b1 : q * 100 / 2 ^ 53 ≤ 200 / 2 ^ 53 := by
      apply div_le_div_of_nonneg_right (by linarith) (by positivity)
    have b2 : (h : ℚ) / a / 2 ^ 53 ≤ 1 / 2 ^ 53 := by
      apply div_le_div_of_nonneg_right hz1 (by positivity)
    constructor
    · norm_num at b1 b2 ⊢
      linarith
    · norm_num at b1 b2 ⊢
      linarith

theorem roundToDouble_rel (z : ℚ) (h1 : (2 : ℚ) ^ (-1022 : ℤ) ≤ z)
    (h2 : z < (2 : ℚ) ^ (1023 : ℤ)) :
    ∃ y : ℚ, roundToDouble z = .finite y ∧ z * (1 - 1 / 2 ^ 53) ≤ y ∧
      y ≤ z * (1 + 1 / 2 ^ 53) := by
  obtain ⟨y, hy, he⟩ := roundToDouble_near z h1 h2
  rw [abs_le] at he
  refine ⟨y, hy, ?_, ?_⟩
  · have : z * (1 - 1 / 2 ^ 53) = z - z / 2 ^ 53 := by ring
    linarith
  · have : z * (1 + 1 / 2 ^ 53) = z + z / 2 ^ 53 := by ring
    linarith

theorem roundToDouble_range (z : ℚ) (m n m2 n2 : ℤ) (hm : -1022 ≤ m) (hn : n < 1023)
    (hm2 : m2 + 1 = m) (hn2 : n2 = n + 1) (h1 : (2 : ℚ) ^ m ≤ z) (h2 : z ≤ (2 : ℚ) ^ n) :
    ∃ y : ℚ, roundToDouble z = .finite y ∧ z * (1 - 1 / 2 ^ 53) ≤ y ∧
      y ≤ z * (1 + 1 / 2 ^ 53) ∧ (2 : ℚ) ^ m2 ≤ y ∧ y ≤ (2 : ℚ) ^ n2 := by
  have hz : 0 < z := lt_of_lt_of_le (by positivity) h1
  obtain ⟨y, hy, b, c⟩ := roundToDouble_rel z
    (le_trans (zpow_le_zpow_right₀ (by norm_num) hm) h1)
    (lt_of_le_of_lt h2 (zpow_lt_zpow_right₀ (by norm_num) hn))
  refine ⟨y, hy, b, c, ?_, ?_⟩
  · have e : (2 : ℚ) ^ m = 2 ^ m2 * 2 := by
      rw [← hm2, zpow_add₀ (by norm_num)]
      norm_num
    have h3 : (2 : ℚ) ^ m * (1 / 2) ≤ z * (1 - 1 / 2 ^ 53) :=
      mul_le_mul h1 (by norm_num) (by norm_num) hz.le
    rw [e] at h3
    have h4 : (2 : ℚ) ^ m2 * 2 * (1 / 2) = 2 ^ m2 := by ring
    linarith
  · have e : (2 : ℚ) ^ n2 = 2 ^ n * 2 := by
      rw [hn2, zpow_add₀ (by norm_num)]
      norm_num
    have h3 : z * (1 + 1 / 2 ^ 53) ≤ 2 ^ n * 2 :=
      mul_le_mul h2 (by norm_num) (by norm_num) (by positivity)
    linarith

theorem zpow_div_bounds (x y : ℚ) (m n m2 n2 lo hi : ℤ) (hlo : lo = m - n2)
    (hhi : hi = n - m2) (hx1 : (2 : ℚ) ^ m ≤ x) (hx2 : x ≤ (2 : ℚ) ^ n)
    (hy1 : (2 : ℚ) ^ m2 ≤ y) (hy2 : y ≤ (2 : ℚ) ^ n2) :
    (2 : ℚ) ^ lo ≤ x / y ∧ x / y ≤ (2 : ℚ) ^ hi := by
  have hx : 0 < x := lt_of_lt_of_le (by positivity) hx1
  have hy : 0 < y := lt_of_lt_of_le (by positivity) hy1
  constructor
  · rw [hlo, zpow_sub₀ (by norm_num)]
    exact div_le_div₀ hx.le hx1 hy hy2
  · rw [hhi, zpow_sub₀ (by norm_num)]
    exact div_le_div₀ (by positivity) hx2 (by positivity) hy1

theorem natCast_uint256 (n : ℕ) (h0 : 0 < n) (h1 : n < 2 ^ 256) :
    (2 : ℚ) ^ (0 : ℤ) ≤ n ∧ (n : ℚ) ≤ (2 : ℚ) ^ (256 : ℤ) := by
  constructor
  · rw [zpow_zero]
    exact_mod_cast h0
  · have h2 : (n : ℚ) < ((2 ^ 256 : ℕ) : ℚ) := Nat.cast_lt.mpr h1
    have h3 : (((2 : ℕ) ^ 256 : ℕ) : ℚ) = (2 : ℚ) ^ (256 : ℤ) := by
      rw [Nat.cast_pow, Nat.cast_ofNat]
      exact (zpow_natCast (2 : ℚ) 256).symm
    rw [h3] at h2
    exact h2.le


set_option maxHeartbeats 1000000 in
theorem retentionRate_value (a h : ℕ) (ha : 0 < a) (ha2 : a < 2 ^ 256) (hh : 0 < h)
    (hh2 : h < 2 ^ 256) :
    ∃ x : ℚ, ((JsNumber.ofBigInt h).div (JsNumber.ofBigInt a)).mul (.finite 100) = .finite x ∧
      100 * h / a * (1 - 1 / 2 ^ 50) ≤ x ∧ x ≤ 100 * h / a * (1 + 1 / 2 ^ 50) := by
  obtain ⟨hA1, hA2⟩ := natCast_uint256 a ha ha2
  obtain ⟨hH1, hH2⟩ := natCast_uint256 h hh hh2
  obtain ⟨x1, e1, b1, c1, r1, s1⟩ := roundToDouble_range (h : ℚ) 0 256 (-1) 257
    (by norm_num) (by norm_num) (by norm_num) (by norm_num) hH1 hH2
  obtain ⟨x2, e2, b2, c2, r2, s2⟩ := roundToDouble_range (a : ℚ) 0 256 (-1) 257
    (by norm_num) (by norm_num) (by norm_num) (by norm_num) hA1 hA2
  obtain ⟨zlo2, zhi2⟩ := zpow_div_bounds x1 x2 (-1) 257 (-1) 257 (-258) 258
    (by norm_num) (by norm_num) r1 s1 r2 s2
  obtain ⟨q, e3, b3, c3, r3, s3⟩ := roundToDouble_range (x1 / x2) (-258) 258 (-259) 259
    (by norm_num) (by norm_num) (by norm_num) (by norm_num) zlo2 zhi2
  have qp : (0 : ℚ) < q := lt_of_lt_of_le (by positivity) r3
  have p1 : (2 : ℚ) ^ (-259 : ℤ) ≤ q * 100 := by
    have : q * 1 ≤ q * 100 := mul_le_mul_of_nonneg_left (by norm_num) qp.le
    linarith
  have p2 : q * 100 ≤ (2 : ℚ) ^ (266 : ℤ) := by
    have e : (2 : ℚ) ^ (266 : ℤ) = 2 ^ (259 : ℤ) * 2 ^ (7 : ℤ) := by
      rw [← zpow_add₀ (by norm_num)]
      norm_num
    rw [e]
    exact mul_le_mul s3 (by norm_num) (by norm_num) (by positivity)
  obtain ⟨p, e4, b4, c4, r4, s4⟩ := roundToDouble_range (q * 100) (-259) 266 (-260) 267
    (by norm_num) (by norm_num) (by norm_num) (by norm_num) p1 p2
  obtain ⟨l, hl⟩ : ∃ l : ℚ, l = 1 - 1 / 2 ^ 53 := ⟨_, rfl⟩
  obtain ⟨u, hu⟩ : ∃ u : ℚ, u = 1 + 1 / 2 ^ 53 := ⟨_, rfl⟩
  rw [← hl] at b1 b2 b3 b4
  rw [← hu] at c1 c2 c3 c4
  have hlp : (0 : ℚ) < l := by rw [hl]; norm_num
  have hup : (0 : ℚ) < u := by rw [hu]; norm_num
  have hHp : (0 : ℚ) < h := by exact_mod_cast hh
  have hAp : (0 : ℚ) < a := by exact_mod_cast ha
  have x1p : (0 : ℚ) < x1 := lt_of_lt_of_le (by positivity) r1
  have x2p : (0 : ℚ) < x2 := lt_of_lt_of_le (by positivity) r2
  have hdiv : (JsNumber.finite x1).div (.finite x2) = roundToDouble (x1 / x2) := by
    show (if x2 = 0 then (if x1 = 0 then JsNumber.nan
      else JsNumber.infinite (decide (x1 < 0))) else roundToDouble (x1 / x2)) = _
    rw [if_neg x2p.ne']
  have zlo : (h : ℚ) * l / (a * u) ≤ x1 / x2 :=
    div_le_div₀ x1p.le b1 x2p c2
  have zhi : x1 / x2 ≤ (h : ℚ) * u / (a * l) :=
    div_le_div₀ (by positivity) c1 (by positivity) b2
  have hmul : (JsNumber.finite q).mul (.finite 100) = roundToDouble (q * 100) := rfl
  refine ⟨p, ?_, ?_, ?_⟩
  · unfold JsNumber.ofBigInt
    rw [e1, e2, hdiv, e3, hmul, e4]
  · have t1 : (h : ℚ) * l / (a * u) * l * 100 * l ≤ p := by
      calc (h : ℚ) * l / (a * u) * l * 100 * l ≤ x1 / x2 * l * 100 * l := by gcongr
        _ ≤ q * 100 * l := by gcongr
        _ ≤ p := b4
    have t2 : (100 : ℚ) * h / a * (1 - 1 / 2 ^ 50) ≤ (h : ℚ) * l / (a * u) * l * 100 * l := by
      have e : (h : ℚ) * l / (a * u) * l * 100 * l = 100 * h / a * (l ^ 3 / u) := by
        field_simp
        ring
      rw [e]
      apply mul_le_mul_of_nonneg_left _ (by positivity)
      rw [hl, hu]
      norm_num
    linarith
  · have t1 : p ≤ (h : ℚ) * u / (a * l) * u * 100 * u := by
      calc p ≤ q * 100 * u := c4
        _ ≤ x1 / x2 * u * 100 * u := by gcongr
        _ ≤ (h : ℚ) * u / (a * l) * u * 100 * u := by gcongr
    have t2 : (h : ℚ) * u / (a * l) * u * 100 * u ≤ 100 * h / a * (1 + 1 / 2 ^ 50) := by
      have e : (h : ℚ) * u / (a * l) * u * 100 * u = 100 * h / a * (u ^ 3 / l) := by
        field_simp
        ring
      rw [e]
      apply mul_le_mul_of_nonneg_left _ (by positivity)
      rw [hl, hu]
      norm_num
    linarith


theorem retentionRate_general (a h : ℕ) (ha : 0 < a) (ha2 : a < 2 ^ 256) (hh2 : h < 2 ^ 256) :
    ∃ x : ℚ, |x - 100 * h / a| ≤ 100 * h / a / 2 ^ 50 ∧
      ((x < 10 ^ 21 ∧ ∃ n : ℕ, retentionRate ⟨a, h⟩ = .fixed2 false n ∧
          |(n : ℚ) / 100 - x| ≤ 1 / 200) ∨
        (10 ^ 21 ≤ x ∧ retentionRate ⟨a, h⟩ = .numStr x)) := by
  have hfix : ∀ x : ℚ, 0 ≤ x → x < 10 ^ 21 →
      ∃ n : ℕ, JsNumber.toFixed2 (.finite x) = .fixed2 false n ∧
        |(n : ℚ) / 100 - x| ≤ 1 / 200 := by
    intro x hx0 hx1
    have hfl1 : ((⌊x * 100 + 1 / 2⌋ : ℤ) : ℚ) ≤ x * 100 + 1 / 2 := Int.floor_le _
    have hfl2 : x * 100 + 1 / 2 < ((⌊x * 100 + 1 / 2⌋ : ℤ) : ℚ) + 1 := Int.lt_floor_add_one _
    have hfl0 : 0 ≤ ⌊x * 100 + 1 / 2⌋ := Int.floor_nonneg.mpr (by linarith)
    refine ⟨⌊x * 100 + 1 / 2⌋.toNat, ?_, ?_⟩
    · simp only [JsNumber.toFixed2]
      rw [abs_of_nonneg hx0, if_neg (by linarith)]
      simp [not_lt.mpr hx0]
    · have hcast : ((⌊x * 100 + 1 / 2⌋.toNat : ℕ) : ℚ) = ((⌊x * 100 + 1 / 2⌋ : ℤ) : ℚ) := by
        have := Int.toNat_of_nonneg hfl0
        exact_mod_cast this
      rw [hcast, abs_le]
      constructor <;> linarith
  rcases Nat.eq_zero_or_pos h with h0 | hpos
  · subst h0
    refine ⟨0, by simp, Or.inl ⟨by norm_num, ?_⟩⟩
    obtain ⟨hA1, hA2⟩ := natCast_uint256 a ha ha2
    obtain ⟨x2, e2, b2, c2, r2, s2⟩ := roundToDouble_range (a : ℚ) 0 256 (-1) 257
      (by norm_num) (by norm_num) (by norm_num) (by norm_num) hA1 hA2
    have x2p : (0 : ℚ) < x2 := lt_of_lt_of_le (by positivity) r2
    have hval : retentionRate ⟨a, 0⟩ = JsNumber.toFixed2 (.finite 0) := by
      unfold retentionRate JsNumber.ofBigInt
      simp only [Nat.cast_zero]
      rw [e2]
      have h0 : roundToDouble 0 = .finite 0 := by simp [roundToDouble]
      rw [h0]
      have hdiv : (JsNumber.finite 0).div (.finite x2) = .finite 0 := by
        show (if x2 = 0 then (if (0 : ℚ) = 0 then JsNumber.nan
          else JsNumber.infinite (decide ((0 : ℚ) < 0))) else roundToDouble (0 / x2)) = _
        rw [if_neg x2p.ne', zero_div, h0]
      rw [hdiv]
      show JsNumber.toFixed2 (roundToDouble (0 * 100)) = _
      rw [zero_mul, h0]
    rw [hval]
    exact hfix 0 le_rfl (by norm_num)
  · obtain ⟨x, hx, hlo, hhi⟩ := retentionRate_value a h ha ha2 hpos hh2
    have hR : (0 : ℚ) ≤ 100 * h / a := by positivity
    have hx0 : 0 ≤ x := by
      have : (0 : ℚ) ≤ 100 * h / a * (1 - 1 / 2 ^ 50) := mul_nonneg hR (by norm_num)
      linarith
    have hval : retentionRate ⟨a, h⟩ = JsNumber.toFixed2 (.finite x) := by
      unfold retentionRate
      rw [hx]
    refine ⟨x, ?_, ?_⟩
    · rw [abs_le]
      have e1 : (100 : ℚ) * h / a * (1 - 1 / 2 ^ 50) = 100 * h / a - 100 * h / a / 2 ^ 50 := by
        ring
      have e2 : (100 : ℚ) * h / a * (1 + 1 / 2 ^ 50) = 100 * h / a + 100 * h / a / 2 ^ 50 := by
        ring
      constructor <;> linarith
    · rcases lt_or_le x (10 ^ 21) with hs | hb
      · left
        rw [hval]
        exact ⟨hs, hfix x hx0 hs⟩
      · right
        refine ⟨hb, ?_⟩
        rw [hval]
        simp only [JsNumber.toFixed2]
        rw [abs_of_nonneg hx0, if_pos (by exact_mod_cast hb)]

/-! ## The claims on sequences of runs, statistics and the period key -/

/-- C2 at a concrete run: the confirmation of the binding call reverts. -/
theorem failed_deploy_leaves_store_witness :
    (runDeploy noEnv bindRevertEnv World.empty).world.files = World.empty.files ∧
      (runDeploy noEnv bindRevertEnv World.empty).termination = .exited 1 :=
  failed_deploy_leaves_store noEnv bindRevertEnv World.empty
    (Or.inr (Or.inr (Or.inr (Or.inr (Or.inr ⟨_, rfl⟩)))))

/-- C3 as stated fails: two successful runs that read the same `Date.now()` leave one
timestamped file, and the record of the first run is gone. -/
theorem same_clock_runs_overwrite :
    allSucceed [firstRun, sameClockRun] ⟨false, []⟩ ∧
    (storeAfter [firstRun, sameClockRun] ⟨false, []⟩).timestamps = [1735689600000] ∧
    (storeAfter [firstRun, sameClockRun] ⟨false, []⟩).read (.deployment 1735689600000) ≠
      (storeAfter [firstRun] ⟨false, []⟩).read (.deployment 1735689600000) :=
  ⟨⟨by decide, by decide, trivial⟩, by decide, by decide⟩

/-- C3, amended. After successful runs whose `Date.now()` readings differ from each other
and from the timestamps already in the store: one timestamped file was added per run,
in order; the file of every run holds the record of that run; `latest-deployment.json`
exists once and holds the record of the last run, as does that run's timestamped file. -/
theorem successive_runs_append (runs : List (ProcessEnv × DeployEnv)) (s : Store)
    (hs : allSucceed runs s) (hd : (runs.map (fun r => r.2.now)).Nodup)
    (hf : ∀ r ∈ runs, r.2.now ∉ s.timestamps) :
    (storeAfter runs s).timestamps = s.timestamps ++ runs.map (fun r => r.2.now) ∧
    (∀ r ∈ runs, ∃ info, IsRecordOf r.1 r.2 info ∧
      (storeAfter runs s).read (.deployment r.2.now) = some (.json info)) ∧
    (∀ r, runs.getLast? = some r → ∃ info, IsRecordOf r.1 r.2 info ∧
      (storeAfter runs s).read .latest = some (.json info) ∧
      (storeAfter runs s).read (.deployment r.2.now) = some (.json info)) ∧
    (runs ≠ [] →
      ((storeAfter runs s).entries.filter (fun e => e.1 == .latest)).length = 1) := by
  obtain ⟨h1, _, h3, h4, h5⟩ := storeAfter_succeed runs s hs hd hf
  exact ⟨h1, h3, h4, h5⟩

/-- C3, amended, at two runs one minute apart: two timestamped files. -/
theorem successive_runs_append_witness :
    (storeAfter [firstRun, laterRun] ⟨false, []⟩).timestamps
      = [1735689600000, 1735689660000] :=
  (successive_runs_append [firstRun, laterRun] ⟨false, []⟩
    ⟨by decide, by decide, trivial⟩ (by decide) (by decide)).1


/-- C4 at a concrete successful run. -/
theorem deploy_order_and_record_witness :
    ∃ rest, (runDeploy noEnv firstRun.2 World.empty).world.chain = [] ++ [
        .getBalance "0xDeployer", .getNetwork,
        .deploy "MonthlyDataUploader"
          [.str (loadConfig noEnv).platformAddress, .str AddressZero] 5000000 (20 * 10 ^ 9),
        .awaitDeployed "0xA1",
        .deploy "MangaNFT" [.str (loadConfig noEnv).uri, .str (loadConfig noEnv).platformAddress,
          .str (loadConfig noEnv).paymentToken, .str "0xA1"] 5000000 (20 * 10 ^ 9),
        .awaitDeployed "0xB1",
        .send "0xA1" "updateMangaNFTContract" [.str "0xB1"] (some (200000, 20 * 10 ^ 9)),
        .awaitTx "0xtx"] ++ rest ∧
      ∀ op ∈ rest, op = .query "0xA1" "mangaNFTContract" [] ∨
        op = .query "0xB1" "monthlyDataUploader" [] ∨ op = .getNetwork :=
  (deploy_order_and_record noEnv firstRun.2 World.empty "0xDeployer" 1000 ⟨"amoy", 80002⟩
    ⟨["updateMangaNFTContract"], "0x60"⟩ ⟨["freeMint"], "0x61"⟩ "0xA1" "0xB1" "0xtx"
    rfl rfl rfl rfl rfl rfl rfl rfl rfl rfl rfl rfl rfl).1

/-- C5 at a concrete run: the deployment of MangaNFT fails, nothing is sent after it. -/
theorem failed_step_stops_the_run_witness :
    (runDeploy noEnv deployFailEnv World.empty).world.chain = [] ++ [
        .getBalance "0xDeployer", .getNetwork,
        .deploy "MonthlyDataUploader"
          [.str (loadConfig noEnv).platformAddress, .str AddressZero] 5000000 (20 * 10 ^ 9),
        .awaitDeployed "0xAAAA",
        .deploy "MangaNFT" [.str (loadConfig noEnv).uri, .str (loadConfig noEnv).platformAddress,
          .str (loadConfig noEnv).paymentToken, .str "0xAAAA"] 5000000 (20 * 10 ^ 9)] ∧
      (runDeploy noEnv deployFailEnv World.empty).termination = .exited 1 ∧
      (runDeploy noEnv deployFailEnv World.empty).world.console.getLast? =
        some ⟨.error, [.str "\n❌ Deployment failed:", .err ⟨"insufficient funds"⟩]⟩ :=
  (failed_step_stops_the_run noEnv deployFailEnv World.empty "0xDeployer" 1000 ⟨"amoy", 80002⟩
    ⟨["updateMangaNFTContract"], "0x60"⟩ ⟨["freeMint"], "0x61"⟩ rfl rfl rfl rfl rfl rfl).2.2.1
    "0xAAAA" ⟨"insufficient funds"⟩ rfl rfl rfl rfl

/-- C7 at the run with statistics 3, 7, 7 and a roster query that throws: the command
runs to its end, the three values are printed, the roster is marked unavailable. -/
theorem creator_secondaries_degrade_witness :
    (runMain (creatorMain sampleCreatorEnv) World.empty).termination = .ranToEnd ∧
    ⟨.log, [.str "   总发布数量:", .num 3, .str "个章节"]⟩ ∈
      (runMain (creatorMain sampleCreatorEnv) World.empty).world.console ∧
    ⟨.log, [.str "   总获得数量:", .num 7, .str "个NFT"]⟩ ∈
      (runMain (creatorMain sampleCreatorEnv) World.empty).world.console ∧
    ⟨.log, [.str "   当前持有数量:", .num 7, .str "个NFT"]⟩ ∈
      (runMain (creatorMain sampleCreatorEnv) World.empty).world.console ∧
    ⟨.log, [.str "   无法获取创作者列表"]⟩ ∈
      (runMain (creatorMain sampleCreatorEnv) World.empty).world.console :=
  have h := creator_secondaries_degrade sampleCreatorEnv World.empty [] "0xCaller" "0xUploader"
    "0xCreator" [] ⟨3, 7, 7⟩ (by decide) (by decide) ⟨rfl, by decide⟩ rfl rfl rfl rfl rfl rfl rfl
  ⟨h.1, h.2.2.1, h.2.2.2.1, h.2.2.2.2.1, h.2.2.2.2.2.2.2.1 _ rfl⟩

/-- C8. In `getCreator.js` and `getInvestor.js`, when the primary query
(`getCreatorStats`, `getInvestorStats`) fails, the command exits with status 1 and no
secondary query is issued: the chain saw at most the primary query (after
`platformAddress` in `getInvestor.js`). -/
theorem primary_failure_fails_command :
    (∀ (env : CreatorEnv) (w : World) (e : JsError), env.getCreatorStats = .error e →
      (runMain (creatorMain env) w).termination = .exited 1 ∧
      ((runMain (creatorMain env) w).world.chain = w.chain ∨
        (runMain (creatorMain env) w).world.chain = w.chain ++
          [.query (env.DATAUPLOADER_ADDRESS.getD "") "getCreatorStats"
            [.str (env.argv.headD "")]])) ∧
    (∀ (env : InvestorEnv) (w : World) (e : JsError), env.getInvestorStats = .error e →
      (runMain (investorMain env) w).termination = .exited 1 ∧
      ((runMain (investorMain env) w).world.chain = w.chain ∨
        (runMain (investorMain env) w).world.chain = w.chain ++
          [.query (env.DATAUPLOADER_ADDRESS.getD "") "platformAddress" []] ∨
        (runMain (investorMain env) w).world.chain = w.chain ++
          [.query (env.DATAUPLOADER_ADDRESS.getD "") "platformAddress" [],
           .query (env.DATAUPLOADER_ADDRESS.getD "") "getInvestorStats"
            [.str (env.argv.headD "")]])) :=
  ⟨primary_failure_fails_creator, primary_failure_fails_investor⟩

/-- C8 at a concrete run of `getCreator.js` whose primary query reverts. -/
theorem primary_failure_fails_command_witness :
    (runMain (creatorMain { sampleCreatorEnv with
      getCreatorStats := .error ⟨"execution reverted"⟩ }) World.empty).termination
      = .exited 1 :=
  (primary_failure_fails_command.1 { sampleCreatorEnv with
    getCreatorStats := .error ⟨"execution reverted"⟩ } World.empty _ rfl).1


/-- C9 as stated fails: with `totalAcquired = 0` everything `getInvestor.js` prints from
the primary query on is listed here, and no line stands for the retention rate. -/
theorem zero_acquired_prints_no_marker :
    (investorQuery zeroInvestorEnv "0xUploader" "0xInvestor" World.empty).2.console = [
      ⟨.log, [.str "\n开始调用 getInvestorStats..."]⟩,
      ⟨.log, [.str "✅ 查询成功！"]⟩,
      ⟨.log, [.str "\n📊 投资者统计信息:"]⟩,
      ⟨.log, [.str "  🔸 总获得数量 (totalAcquired):", .num 0]⟩,
      ⟨.log, [.str "  🔸 当前持有数量 (currentHeld):", .num 0]⟩,
      ⟨.log, [.str "\n📈 详细统计:"]⟩,
      ⟨.log, [.str "   ================="]⟩,
      ⟨.log, [.str "   总获得数量:", .num 0, .str "个NFT"]⟩,
      ⟨.log, [.str "   当前持有数量:", .num 0, .str "个NFT"]⟩,
      ⟨.log, [.str "   注册状态: 无法查询"]⟩,
      ⟨.log, [.str "   无法获取投资者列表"]⟩,
      ⟨.log, [.str "   无法获取当前持有数量"]⟩,
      ⟨.log, [.str "   无法获取月度统计"]⟩] := by
  decide

/-- C9, amended. With `totalAcquired = 0` the run prints exactly the lines listed, none
of which stands for the retention rate: the rate is not computed and nothing marks its
absence. With `totalAcquired > 0` the same lines are printed with the retention line
after the held count; it shows `(Number(held) / Number(acquired) * 100).toFixed(2)`,
which for all values of a `uint256` is `held / acquired * 100` up to one part in
`2 ^ 50` and then rounded to two decimals (from `1e21` on, printed unrounded); for
`held ≤ acquired < 2 ^ 53` it is within `0.005 + 1e-13` of `held / acquired * 100`, and
for `acquired = 10`, `held = 5` it is `50.00`. -/
theorem retention_rate_report (env : InvestorEnv) (target addr : String) (w : World)
    (stats : InvestorStats) (h : env.getInvestorStats = .ok stats) :
    (stats.totalAcquired = 0 →
      (investorQuery env target addr w).2.console = w.console ++ [
        ⟨.log, [.str "\n开始调用 getInvestorStats..."]⟩,
        ⟨.log, [.str "✅ 查询成功！"]⟩,
        ⟨.log, [.str "\n📊 投资者统计信息:"]⟩,
        ⟨.log, [.str "  🔸 总获得数量 (totalAcquired):", .num 0]⟩,
        ⟨.log, [.str "  🔸 当前持有数量 (currentHeld):", .num stats.currentHeld]⟩,
        ⟨.log, [.str "\n📈 详细统计:"]⟩,
        ⟨.log, [.str "   ================="]⟩,
        ⟨.log, [.str "   总获得数量:", .num 0, .str "个NFT"]⟩,
        ⟨.log, [.str "   当前持有数量:", .num stats.currentHeld, .str "个NFT"]⟩,
        ⟨.log, [.str "   注册状态: 无法查询"]⟩,
        ⟨.log, [.str "   无法获取投资者列表"]⟩,
        ⟨.log, [.str "   无法获取当前持有数量"]⟩,
        ⟨.log, [.str "   无法获取月度统计"]⟩]) ∧
    (stats.totalAcquired ≠ 0 →
      (investorQuery env target addr w).2.console = w.console ++ [
        ⟨.log, [.str "\n开始调用 getInvestorStats..."]⟩,
        ⟨.log, [.str "✅ 查询成功！"]⟩,
        ⟨.log, [.str "\n📊 投资者统计信息:"]⟩,
        ⟨.log, [.str "  🔸 总获得数量 (totalAcquired):", .num stats.totalAcquired]⟩,
        ⟨.log, [.str "  🔸 当前持有数量 (currentHeld):", .num stats.currentHeld]⟩,
        ⟨.log, [.str "\n📈 详细统计:"]⟩,
        ⟨.log, [.str "   ================="]⟩,
        ⟨.log, [.str "   总获得数量:", .num stats.totalAcquired, .str "个NFT"]⟩,
        ⟨.log, [.str "   当前持有数量:", .num stats.currentHeld, .str "个NFT"]⟩,
        ⟨.log, [.str "   持有率:", .cat (retentionRate stats) (.str "%")]⟩,
        ⟨.log, [.str "   注册状态: 无法查询"]⟩,
        ⟨.log, [.str "   无法获取投资者列表"]⟩,
        ⟨.log, [.str "   无法获取当前持有数量"]⟩,
        ⟨.log, [.str "   无法获取月度统计"]⟩]) ∧
    (0 < stats.totalAcquired → stats.totalAcquired < 2 ^ 256 → stats.currentHeld < 2 ^ 256 →
      ∃ x : ℚ,
        |x - 100 * stats.currentHeld / stats.totalAcquired| ≤
          100 * stats.currentHeld / stats.totalAcquired / 2 ^ 50 ∧
        ((x < 10 ^ 21 ∧ ∃ n : ℕ, retentionRate stats = .fixed2 false n ∧
            |(n : ℚ) / 100 - x| ≤ 1 / 200) ∨
          (10 ^ 21 ≤ x ∧ retentionRate stats = .numStr x))) ∧
    (0 < stats.totalAcquired → stats.totalAcquired < 2 ^ 53 →
      stats.currentHeld ≤ stats.totalAcquired →
      ∃ n : ℕ, retentionRate stats = .fixed2 false n ∧
        |(n : ℚ) / 100 - 100 * stats.currentHeld / stats.totalAcquired| ≤ 1 / 200 + 1 / 10 ^ 13) ∧
    retentionRate ⟨10, 5⟩ = .fixed2 false 5000 := by
  refine ⟨?_, ?_, ?_, ?_, retentionRate_ten_five⟩
  · intro h0
    simp [investorQuery, tryCatch_apply, monthlyDataUploaderContract, h, h0]
  · intro h0
    simp [investorQuery, tryCatch_apply, monthlyDataUploaderContract, h, h0]
  · intro h1 h2 h3
    exact retentionRate_general stats.totalAcquired stats.currentHeld h1 h2 h3
  · intro h1 h2 h3
    exact retentionRate_accuracy stats.totalAcquired stats.currentHeld h1 h2 h3

/-- C9, amended, at `acquired = 10`, `held = 5`: the line shows `50.00%`. -/
theorem retention_rate_report_witness :
    ⟨.log, [.str "   持有率:", .cat (.fixed2 false 5000) (.str "%")]⟩ ∈
      (investorQuery { zeroInvestorEnv with getInvestorStats := .ok ⟨10, 5⟩ }
        "0xUploader" "0xInvestor" World.empty).2.console :=
  have h := retention_rate_report { zeroInvestorEnv with getInvestorStats := .ok ⟨10, 5⟩ }
    "0xUploader" "0xInvestor" World.empty ⟨10, 5⟩ rfl
  by
    rw [h.2.1 (by decide), ← h.2.2.2.2]
    simp

/-- C10. For every timestamp `t` that `Date.now()` can return (an integer below
`2 ^ 53`), `Math.floor(t / 1000 / 60 / 60 / 24 / 30)`, computed in double precision,
is `floor(t / 2592000000)`. Hence the key does not decrease with `t`, a shift by
`2592000000` ms adds one, and two timestamps have the same key exactly when they lie
in the same 30-day window counted from the epoch. -/
theorem period_key_is_floor (t : ℕ) (ht : t < 2 ^ 53) :
    currentYearMonth t = .finite ((t / 2592000000 : ℕ) : ℚ) ∧
    (∀ t2 : ℕ, t ≤ t2 → t2 < 2 ^ 53 → ∃ k k2 : ℕ,
      currentYearMonth t = .finite k ∧ currentYearMonth t2 = .finite k2 ∧ k ≤ k2) ∧
    (t + 2592000000 < 2 ^ 53 →
      currentYearMonth (t + 2592000000) = .finite ((t / 2592000000 + 1 : ℕ) : ℚ)) ∧
    (∀ t2 : ℕ, t2 < 2 ^ 53 →
      (currentYearMonth t = currentYearMonth t2 ↔ t / 2592000000 = t2 / 2592000000)) := by
  refine ⟨currentYearMonth_eq t ht, ?_, ?_, ?_⟩
  · intro t2 h1 h2
    exact ⟨_, _, currentYearMonth_eq t ht, currentYearMonth_eq t2 h2,
      Nat.div_le_div_right h1⟩
  · intro h1
    rw [currentYearMonth_eq _ h1, Nat.add_div_right _ (by norm_num)]
  · intro t2 h2
    rw [currentYearMonth_eq t ht, currentYearMonth_eq t2 h2]
    constructor
    · intro h3
      injection h3 with h4
      exact_mod_cast h4
    · intro h3
      rw [h3]

/-- C10 at the timestamp 1762387200000 (6 November 2025): the key is 679. -/
theorem period_key_is_floor_witness :
    currentYearMonth 1762387200000 = .finite 679 := by
  have h := (period_key_is_floor 1762387200000 (by norm_num)).1
  norm_num at h
  exact h

/-! ## Strings as numbers -/

theorem roundToDouble_ne_nan (x : ℚ) : roundToDouble x ≠ .nan := by
  unfold roundToDouble
  simp only
  split_ifs <;> simp

theorem roundToDouble_nonpos (x : ℚ) (h : x ≤ 0) :
    (roundToDouble x).le (.finite 0) = true := by
  unfold roundToDouble
  simp only
  by_cases h0 : x = 0
  · simp [h0, JsNumber.le]
  have hx : x < 0 := lt_of_le_of_ne h h0
  have hr : (0 : ℚ) ≤ (roundHalfEven (|x| / 2 ^ (max (Int.log 2 |x|) (-1022) - 52)) : ℚ) *
      2 ^ (max (Int.log 2 |x|) (-1022) - 52) := by
    apply mul_nonneg
    · have : (0 : ℤ) ≤ roundHalfEven (|x| / 2 ^ (max (Int.log 2 |x|) (-1022) - 52)) := by
        apply le_roundHalfEven
        simp only [Int.cast_zero]
        positivity
      exact_mod_cast this
    · positivity
  rw [if_neg h0]
  split_ifs with h1
  · simp [JsNumber.le, hx]
  · simp only [JsNumber.le, decide_eq_true_eq]
    linarith

theorem roundToDouble_pos (x : ℚ) (h : (2 : ℚ) ^ (-1074 : ℤ) ≤ x) :
    (roundToDouble x).le (.finite 0) = false := by
  have hx : 0 < x := lt_of_lt_of_le (by positivity) h
  have h0 : x ≠ 0 := ne_of_gt hx
  have habs : |x| = x := abs_of_pos hx
  have hu : (0 : ℚ) < 2 ^ (max (Int.log 2 x) (-1022) - 52) := by positivity
  have hle : (2 : ℚ) ^ (max (Int.log 2 x) (-1022) - 52) ≤ x := by
    rcases le_total (Int.log 2 x) (-1022) with hl | hl
    · rw [max_eq_right hl]
      exact h
    · rw [max_eq_left hl]
      refine le_trans ?_ (two_zpow_log_le x hx)
      exact zpow_le_zpow_right₀ (by norm_num) (by omega)
  have h1 : (1 : ℤ) ≤ roundHalfEven (x / 2 ^ (max (Int.log 2 x) (-1022) - 52)) := by
    apply le_roundHalfEven
    rw [Int.cast_one, le_div_iff₀ hu, one_mul]
    exact hle
  have hr : (0 : ℚ) < (roundHalfEven (x / 2 ^ (max (Int.log 2 x) (-1022) - 52)) : ℚ) *
      2 ^ (max (Int.log 2 x) (-1022) - 52) := by
    apply mul_pos _ hu
    exact_mod_cast lt_of_lt_of_le zero_lt_one h1
  unfold roundToDouble
  simp only [habs]
  rw [if_neg h0]
  split_ifs with h2 h3
  · simp [JsNumber.le, not_lt.mpr hx.le]
  · exact absurd h3 (not_lt.mpr hx.le)
  · simp only [JsNumber.le, decide_eq_false_iff_not, not_le]
    exact hr

theorem roundToDouble_natCast (n : ℕ) (hn : n < 2 ^ 53) : roundToDouble n = .finite n :=
  ofBigInt_exact n hn

theorem stringToNumber_examples :
    stringToNumber "0" = .finite 0 ∧ stringToNumber "" = .finite 0 ∧
    stringToNumber "abc" = .nan ∧ stringToNumber "Infinity" = .infinite false ∧
    stringToNumber "0x10" = .finite 16 ∧ stringToNumber "1e3" = .finite 1000 := by
  refine ⟨?_, by decide, by decide, by decide, ?_, ?_⟩
  · have hp : strNumericLiteral (trimWhiteSpace "0".data) = some (.scaled false 0 0) := by decide
    have he : (trimWhiteSpace "0".data).isEmpty = false := by decide
    simp [stringToNumber, hp, he, NumericValue.toNumber, roundToDouble]
  · have hp : strNumericLiteral (trimWhiteSpace "0x10".data) = some (.scaled false 16 0) := by
      decide
    have he : (trimWhiteSpace "0x10".data).isEmpty = false := by decide
    have := roundToDouble_natCast 16 (by norm_num)
    simp [stringToNumber, hp, he, NumericValue.toNumber]
    simpa using this
  · have hp : strNumericLiteral (trimWhiteSpace "1e3".data) = some (.scaled false 1 3) := by
      decide
    have he : (trimWhiteSpace "1e3".data).isEmpty = false := by decide
    have := roundToDouble_natCast 1000 (by norm_num)
    simp [stringToNumber, hp, he, NumericValue.toNumber]
    norm_num
    simpa using this

theorem roundToDouble_neg (x q : ℚ) (hx : 0 < x) (h : roundToDouble x = .finite q) :
    roundToDouble (-x) = .finite (-q) := by
  unfold roundToDouble at h ⊢
  simp only [abs_neg] at h ⊢
  have h0 : x ≠ 0 := ne_of_gt hx
  have h1 : ¬ x < 0 := not_lt.mpr hx.le
  have h2 : -x < 0 := by linarith
  have h3 : -x ≠ 0 := by linarith
  rw [if_neg h0] at h
  rw [if_neg h3]
  split_ifs at h with h4
  rw [if_neg h4, if_pos h2]
  injection h with h5
  rw [h5]

theorem stringToNumber_minus_five : stringToNumber "-5" = .finite (-5) := by
  have hp : strNumericLiteral (trimWhiteSpace "-5".data) = some (.scaled true 5 0) := by decide
  have he : (trimWhiteSpace "-5".data).isEmpty = false := by decide
  have h5 : roundToDouble (5 : ℚ) = .finite 5 := by
    simpa using ofBigInt_exact 5 (by norm_num)
  have := roundToDouble_neg 5 5 (by norm_num) h5
  simp [stringToNumber, hp, he, NumericValue.toNumber]
  exact this

theorem stringToNumber_one_and_half : stringToNumber "1.5" = .finite (3 / 2) := by
  have hp : strNumericLiteral (trimWhiteSpace "1.5".data) = some (.scaled false 15 (-1)) := by
    decide
  have he : (trimWhiteSpace "1.5".data).isEmpty = false := by decide
  have hl : Int.log 2 (3 / 2 : ℚ) = 0 := by
    have h1 := le_log_of_zpow_le (3 / 2 : ℚ) (by norm_num) 0 (by norm_num)
    have h2 := log_lt_of_lt_zpow (3 / 2 : ℚ) (by norm_num) 1 (by norm_num)
    omega
  have hr : roundToDouble (3 / 2 : ℚ) = .finite (3 / 2) := by
    rw [roundToDouble_normal _ (by norm_num) (by norm_num)]
    congr 1
    apply rdq_of_onGrid
    rw [hl]
    exact ⟨3 * 2 ^ 51, by norm_num⟩
  simp [stringToNumber, hp, he, NumericValue.toNumber]
  norm_num
  exact hr

theorem tokenCheck_iff (tok : String) :
    (isNaN tok || (stringToNumber tok).le (.finite 0)) = false ↔
      (stringToNumber tok).isPositive := by
  unfold isNaN
  rcases h : stringToNumber tok with q | s | _
  · simp [JsNumber.le, JsNumber.isPositive]
  · simp [JsNumber.le, JsNumber.isPositive]
  · simp [JsNumber.le, JsNumber.isPositive]

theorem runMain_chain (m : Script Unit) (w : World) :
    (runMain m w).world.chain = (m w).2.chain := by
  unfold runMain
  rcases m w with ⟨(e | c) | a, w1⟩ <;> rfl

set_option maxRecDepth 100000 in
theorem encodeUint256_examples :
    encodeUint256 "1.5" = none ∧ encodeUint256 "1e3" = none ∧
    encodeUint256 "Infinity" = none ∧ encodeUint256 "0x10" = some 16 := by
  decide

theorem registerSubmit_chain (env : RegisterTxEnv) (target addr tok : String) (n : Nat)
    (hn : encodeUint256 tok = some n) :
    ∃ more, ∀ w : World, (registerSubmit env target addr tok w).2.chain =
      w.chain ++ (.send target "investorRegistration" [.str addr, .str tok] none) :: more := by
  unfold registerSubmit encodeTokenId
  rcases h1 : env.investorRegistration with e | tx
  · rcases hi1 : includes e.message "require(false)" <;>
    rcases hi2 : includes e.message "insufficient funds" <;>
    rcases hi3 : includes e.message "nonce" <;>
    exact ⟨[], fun w => by simp [tryCatch_apply, hn, hi1, hi2, hi3]⟩
  rcases h2 : env.receipt with e | r
  · rcases hi1 : includes e.message "require(false)" <;>
    rcases hi2 : includes e.message "insufficient funds" <;>
    rcases hi3 : includes e.message "nonce" <;>
    exact ⟨[.awaitTx tx], fun w => by simp [tryCatch_apply, hn, hi1, hi2, hi3]⟩
  rcases h3 : env.interface with e | dec
  · rcases hi1 : includes e.message "require(false)" <;>
    rcases hi2 : includes e.message "insufficient funds" <;>
    rcases hi3 : includes e.message "nonce" <;>
    exact ⟨[.awaitTx tx], fun w => by simp [tryCatch_apply, hn, hi1, hi2, hi3]⟩
  · exact ⟨[.awaitTx tx], fun w => by simp [tryCatch_apply, hn, registerDecodeLoop_eq]⟩

theorem unset_false_of (v : Option String) (h : v ≠ none ∧ v ≠ some "") : unset v = false := by
  rcases hx : v with _ | x
  · exact absurd hx h.1
  · simpa [unset] using fun hh : x = "" => h.2 (hx.trans (congrArg some hh))

set_option maxHeartbeats 1000000 in
theorem register_rejects_token (env : RegisterEnv) (w : World) (abi : Abi)
    (wa target addr tok : String) (rest : List String)
    (h1 : env.RPC_URL ≠ none ∧ env.RPC_URL ≠ some "")
    (h2 : env.CREATOR_KEY ≠ none ∧ env.CREATOR_KEY ≠ some "")
    (h3 : env.MANGA_NFT_ADDRESS = some target ∧ target ≠ "")
    (h4 : env.abiExists = true) (h5 : env.abi = .ok abi) (h6 : env.signer = .ok wa)
    (h7 : env.contract = .ok ()) (h8 : env.argv = addr :: tok :: rest)
    (h9 : env.isAddress addr = true)
    (hc : ¬ (stringToNumber tok).isPositive) :
    (runMain (registerMain env) w).termination = .exited 1 ∧
    (runMain (registerMain env) w).world.chain =
      w.chain ++ [.query target "platformAddress" []] ∧
    (runMain (registerMain env) w).world.console.getLast? =
      some ⟨.error, [.str "❌ 无效的代币ID:", .str tok]⟩ := by
  have u1 := unset_false_of _ h1
  have u2 := unset_false_of _ h2
  have u3 : unset (some target) = false := by simpa [unset] using h3.2
  have hc2 : isNaN tok = true ∨ (stringToNumber tok).le (.finite 0) = true := by
    have h := (tokenCheck_iff tok).not.mpr hc
    rcases hn : isNaN tok <;> rcases hl : (stringToNumber tok).le (.finite 0) <;>
      simp [hn, hl] at h ⊢
  have hlen : ¬ (rest.length + 1 + 1 < 2) := by omega
  rcases hp : env.platformAddress with e | pa
  · simp [runMain, registerMain, registerCheckState, tryCatch_apply, u1, u2, u3, h3.1, h4, h5,
      h6, h7, h8, h9, hp, hc2, hlen]
  by_cases hl : wa.toLower = pa.toLower
  · simp [runMain, registerMain, registerCheckState, tryCatch_apply, u1, u2, u3, h3.1, h4, h5,
      h6, h7, h8, h9, hp, hc2, hl, hlen]
  · simp [runMain, registerMain, registerCheckState, tryCatch_apply, u1, u2, u3, h3.1, h4, h5,
      h6, h7, h8, h9, hp, hc2, hl, hlen]

set_option maxHeartbeats 1000000 in
theorem register_accepts_token (env : RegisterEnv) (w : World) (abi : Abi)
    (wa target addr tok : String) (rest : List String) (n : Nat)
    (h1 : env.RPC_URL ≠ none ∧ env.RPC_URL ≠ some "")
    (h2 : env.CREATOR_KEY ≠ none ∧ env.CREATOR_KEY ≠ some "")
    (h3 : env.MANGA_NFT_ADDRESS = some target ∧ target ≠ "")
    (h4 : env.abiExists = true) (h5 : env.abi = .ok abi) (h6 : env.signer = .ok wa)
    (h7 : env.contract = .ok ()) (h8 : env.argv = addr :: tok :: rest)
    (h9 : env.isAddress addr = true)
    (hc : (stringToNumber tok).isPositive) (hn : encodeUint256 tok = some n) :
    ∃ more, (runMain (registerMain env) w).world.chain = w.chain ++
        [.query target "platformAddress" [], .query target "balanceOf" [.str addr, .str tok]]
        ++ more ∧
      ∀ bal, env.balanceOf = .ok bal → bal ≠ 0 →
        more.head? = some (.send target "investorRegistration" [.str addr, .str tok] none) := by
  have u1 := unset_false_of _ h1
  have u2 := unset_false_of _ h2
  have u3 : unset (some target) = false := by simpa [unset] using h3.2
  have hc2 : isNaN tok = false ∧ (stringToNumber tok).le (.finite 0) = false := by
    have h := (tokenCheck_iff tok).mpr hc
    simpa using h
  have hlen : ¬ (rest.length + 1 + 1 < 2) := by omega
  rw [runMain_chain]
  rcases hb : env.balanceOf with e | bal
  · refine ⟨[], ?_, by simp⟩
    rcases hp : env.platformAddress with e | pa
    · simp [registerMain, registerCheckState, registerCheckBalance, encodeTokenId,
        tryCatch_apply, u1, u2, u3, h3.1, h4, h5, h6, h7, h8, h9, hp, hc2.1, hc2.2, hlen, hb, hn]
    by_cases hl : wa.toLower = pa.toLower
    · simp [registerMain, registerCheckState, registerCheckBalance, encodeTokenId,
        tryCatch_apply, u1, u2, u3, h3.1, h4, h5, h6, h7, h8, h9, hp, hc2.1, hc2.2, hlen, hb, hn,
        hl]
    · simp [registerMain, registerCheckState, registerCheckBalance, encodeTokenId,
        tryCatch_apply, u1, u2, u3, h3.1, h4, h5, h6, h7, h8, h9, hp, hc2.1, hc2.2, hlen, hb, hn,
        hl]
  by_cases hz : bal = 0
  · refine ⟨[], ?_, by intro b hb2 hb3; simp at hb2; exact absurd (hb2 ▸ hz) hb3⟩
    rcases hp : env.platformAddress with e | pa
    · simp [registerMain, registerCheckState, registerCheckBalance, encodeTokenId,
        tryCatch_apply, u1, u2, u3, h3.1, h4, h5, h6, h7, h8, h9, hp, hc2.1, hc2.2, hlen, hb, hn,
        hz]
    by_cases hl : wa.toLower = pa.toLower
    · simp [registerMain, registerCheckState, registerCheckBalance, encodeTokenId,
        tryCatch_apply, u1, u2, u3, h3.1, h4, h5, h6, h7, h8, h9, hp, hc2.1, hc2.2, hlen, hb, hn,
        hl, hz]
    · simp [registerMain, registerCheckState, registerCheckBalance, encodeTokenId,
        tryCatch_apply, u1, u2, u3, h3.1, h4, h5, h6, h7, h8, h9, hp, hc2.1, hc2.2, hlen, hb, hn,
        hl, hz]
  obtain ⟨m, hm⟩ := registerSubmit_chain env.submit target addr tok n hn
  refine ⟨_ :: m, ?_, fun _ _ _ => rfl⟩
  rcases hp : env.platformAddress with e | pa
  · simp [registerMain, registerCheckState, registerCheckBalance, encodeTokenId,
      tryCatch_apply, u1, u2, u3, h3.1, h4, h5, h6, h7, h8, h9, hp, hc2.1, hc2.2, hlen, hb, hn,
      hz, hm]
  by_cases hl : wa.toLower = pa.toLower
  · simp [registerMain, registerCheckState, registerCheckBalance, encodeTokenId,
      tryCatch_apply, u1, u2, u3, h3.1, h4, h5, h6, h7, h8, h9, hp, hc2.1, hc2.2, hlen, hb, hn,
      hz, hm, hl]
  · simp [registerMain, registerCheckState, registerCheckBalance, encodeTokenId,
      tryCatch_apply, u1, u2, u3, h3.1, h4, h5, h6, h7, h8, h9, hp, hc2.1, hc2.2, hlen, hb, hn,
      hz, hm, hl]

set_option maxHeartbeats 1000000 in
theorem register_unreadable_token (env : RegisterEnv) (w : World) (abi : Abi)
    (wa target addr tok : String) (rest : List String)
    (h1 : env.RPC_URL ≠ none ∧ env.RPC_URL ≠ some "")
    (h2 : env.CREATOR_KEY ≠ none ∧ env.CREATOR_KEY ≠ some "")
    (h3 : env.MANGA_NFT_ADDRESS = some target ∧ target ≠ "")
    (h4 : env.abiExists = true) (h5 : env.abi = .ok abi) (h6 : env.signer = .ok wa)
    (h7 : env.contract = .ok ()) (h8 : env.argv = addr :: tok :: rest)
    (h9 : env.isAddress addr = true)
    (hc : (stringToNumber tok).isPositive) (hn : encodeUint256 tok = none) :
    (runMain (registerMain env) w).termination = .exited 1 ∧
    (runMain (registerMain env) w).world.chain =
      w.chain ++ [.query target "platformAddress" []] ∧
    (runMain (registerMain env) w).world.console.getLast? =
      some ⟨.error, [.str "❌ 检查余额失败:", .str (env.submit.argumentError tok).message]⟩ := by
  have u1 := unset_false_of _ h1
  have u2 := unset_false_of _ h2
  have u3 : unset (some target) = false := by simpa [unset] using h3.2
  have hc2 : isNaN tok = false ∧ (stringToNumber tok).le (.finite 0) = false := by
    have h := (tokenCheck_iff tok).mpr hc
    simpa using h
  have hlen : ¬ (rest.length + 1 + 1 < 2) := by omega
  rcases hp : env.platformAddress with e | pa
  · simp [runMain, registerMain, registerCheckState, registerCheckBalance, encodeTokenId,
      tryCatch_apply, u1, u2, u3, h3.1, h4, h5, h6, h7, h8, h9, hp, hc2.1, hc2.2, hlen, hn]
  by_cases hl : wa.toLower = pa.toLower
  · simp [runMain, registerMain, registerCheckState, registerCheckBalance, encodeTokenId,
      tryCatch_apply, u1, u2, u3, h3.1, h4, h5, h6, h7, h8, h9, hp, hc2.1, hc2.2, hlen, hn, hl]
  · simp [runMain, registerMain, registerCheckState, registerCheckBalance, encodeTokenId,
      tryCatch_apply, u1, u2, u3, h3.1, h4, h5, h6, h7, h8, h9, hp, hc2.1, hc2.2, hlen, hn, hl]

theorem bad_address_creator (env : CreatorEnv) (w : World) (addr : String) (rest : List String)
    (h8 : env.argv = addr :: rest) (h9 : env.isAddress addr = false) :
    (runMain (creatorMain env) w).termination = .exited 1 ∧
    (runMain (creatorMain env) w).world.chain = w.chain := by
  rcases h1 : unset env.RPC_URL || unset env.CREATOR_KEY || unset env.DATAUPLOADER_ADDRESS
  swap
  · simp [runMain, creatorMain, h1]
  rcases h2 : env.abiExists
  · simp [runMain, creatorMain, h1, h2]
  rcases h3 : env.abi with e3 | abi
  · simp [runMain, creatorMain, h1, h2, h3]
  rcases h4 : env.signer with e4 | wa
  · simp [runMain, creatorMain, h1, h2, h3, h4]
  rcases h5 : env.contract with e5 | u
  · simp [runMain, creatorMain, h1, h2, h3, h4, h5]
  simp [runMain, creatorMain, h1, h2, h3, h4, h5, h8, h9]

theorem bad_address_investor (env : InvestorEnv) (w : World) (addr : String)
    (rest : List String) (h8 : env.argv = addr :: rest) (h9 : env.isAddress addr = false) :
    (runMain (investorMain env) w).termination = .exited 1 ∧
    ((runMain (investorMain env) w).world.chain = w.chain ∨
      (runMain (investorMain env) w).world.chain = w.chain ++
        [.query (env.DATAUPLOADER_ADDRESS.getD "") "platformAddress" []]) := by
  rcases h1 : unset env.RPC_URL || unset env.CREATOR_KEY || unset env.DATAUPLOADER_ADDRESS
  swap
  · simp [runMain, investorMain, h1]
  rcases h2 : env.abiExists
  · simp [runMain, investorMain, h1, h2]
  rcases h3 : env.abi with e3 | abi
  · simp [runMain, investorMain, h1, h2, h3]
  rcases h4 : env.signer with e4 | wa
  · simp [runMain, investorMain, h1, h2, h3, h4]
  rcases h5 : env.contract with e5 | u
  · simp [runMain, investorMain, h1, h2, h3, h4, h5]
  rcases hp : env.platformAddress with e | pa
  · simp [runMain, investorMain, tryCatch_apply, h1, h2, h3, h4, h5, h8, h9, hp]
  · simp [runMain, investorMain, tryCatch_apply, h1, h2, h3, h4, h5, h8, h9, hp]

set_option maxHeartbeats 1000000 in
theorem bad_address_register (env : RegisterEnv) (w : World) (addr : String)
    (rest : List String) (h8 : env.argv = addr :: rest) (h9 : env.isAddress addr = false) :
    (runMain (registerMain env) w).termination = .exited 1 ∧
    ((runMain (registerMain env) w).world.chain = w.chain ∨
      (runMain (registerMain env) w).world.chain = w.chain ++
        [.query (env.MANGA_NFT_ADDRESS.getD "") "platformAddress" []]) := by
  rcases h1 : unset env.RPC_URL || unset env.CREATOR_KEY || unset env.MANGA_NFT_ADDRESS
  swap
  · simp [runMain, registerMain, h1]
  rcases h2 : env.abiExists
  · simp [runMain, registerMain, h1, h2]
  rcases h3 : env.abi with e3 | abi
  · simp [runMain, registerMain, h1, h2, h3]
  rcases h4 : env.signer with e4 | wa
  · simp [runMain, registerMain, h1, h2, h3, h4]
  rcases h5 : env.contract with e5 | u
  · simp [runMain, registerMain, h1, h2, h3, h4, h5]
  by_cases hlen : rest.length + 1 < 2
  · rcases hp : env.platformAddress with e | pa
    · simp [runMain, registerMain, registerCheckState, tryCatch_apply, h1, h2, h3, h4, h5, h8,
        h9, hp, hlen]
    by_cases hl : wa.toLower = pa.toLower
    · simp [runMain, registerMain, registerCheckState, tryCatch_apply, h1, h2, h3, h4, h5, h8,
        h9, hp, hlen, hl]
    · simp [runMain, registerMain, registerCheckState, tryCatch_apply, h1, h2, h3, h4, h5, h8,
        h9, hp, hlen, hl]
  · rcases hp : env.platformAddress with e | pa
    · simp [runMain, registerMain, registerCheckState, tryCatch_apply, h1, h2, h3, h4, h5, h8,
        h9, hp, hlen]
    by_cases hl : wa.toLower = pa.toLower
    · simp [runMain, registerMain, registerCheckState, tryCatch_apply, h1, h2, h3, h4, h5, h8,
        h9, hp, hlen, hl]
    · simp [runMain, registerMain, registerCheckState, tryCatch_apply, h1, h2, h3, h4, h5, h8,
        h9, hp, hlen, hl]

set_option maxHeartbeats 1000000 in
theorem rejected_token_register (env : RegisterEnv) (w : World) (addr tok : String)
    (rest : List String) (h8 : env.argv = addr :: tok :: rest)
    (hc : ¬ (stringToNumber tok).isPositive) :
    (runMain (registerMain env) w).termination = .exited 1 ∧
    ((runMain (registerMain env) w).world.chain = w.chain ∨
      (runMain (registerMain env) w).world.chain = w.chain ++
        [.query (env.MANGA_NFT_ADDRESS.getD "") "platformAddress" []]) := by
  rcases h9 : env.isAddress addr
  · exact bad_address_register env w addr (tok :: rest) h8 h9
  have hc2 : isNaN tok = true ∨ (stringToNumber tok).le (.finite 0) = true := by
    have h := (tokenCheck_iff tok).not.mpr hc
    rcases hn : isNaN tok <;> rcases hl : (stringToNumber tok).le (.finite 0) <;>
      simp [hn, hl] at h ⊢
  have hlen : ¬ (rest.length + 1 + 1 < 2) := by omega
  rcases h1 : unset env.RPC_URL || unset env.CREATOR_KEY || unset env.MANGA_NFT_ADDRESS
  swap
  · simp [runMain, registerMain, h1]
  rcases h2 : env.abiExists
  · simp [runMain, registerMain, h1, h2]
  rcases h3 : env.abi with e3 | abi
  · simp [runMain, registerMain, h1, h2, h3]
  rcases h4 : env.signer with e4 | wa
  · simp [runMain, registerMain, h1, h2, h3, h4]
  rcases h5 : env.contract with e5 | u
  · simp [runMain, registerMain, h1, h2, h3, h4, h5]
  rcases hp : env.platformAddress with e | pa
  · simp [runMain, registerMain, registerCheckState, tryCatch_apply, h1, h2, h3, h4, h5, h8,
      h9, hp, hlen, hc2]
  by_cases hl : wa.toLower = pa.toLower
  · simp [runMain, registerMain, registerCheckState, tryCatch_apply, h1, h2, h3, h4, h5, h8,
      h9, hp, hlen, hl, hc2]
  · simp [runMain, registerMain, registerCheckState, tryCatch_apply, h1, h2, h3, h4, h5, h8,
      h9, hp, hlen, hl, hc2]

set_option maxHeartbeats 1000000 in
theorem register_rejects_address (env : RegisterEnv) (w : World) (abi : Abi)
    (wa target addr tok : String) (rest : List String)
    (h1 : env.RPC_URL ≠ none ∧ env.RPC_URL ≠ some "")
    (h2 : env.CREATOR_KEY ≠ none ∧ env.CREATOR_KEY ≠ some "")
    (h3 : env.MANGA_NFT_ADDRESS = some target ∧ target ≠ "")
    (h4 : env.abiExists = true) (h5 : env.abi = .ok abi) (h6 : env.signer = .ok wa)
    (h7 : env.contract = .ok ()) (h8 : env.argv = addr :: tok :: rest)
    (h9 : env.isAddress addr = false) :
    (runMain (registerMain env) w).termination = .exited 1 ∧
    (runMain (registerMain env) w).world.chain =
      w.chain ++ [.query target "platformAddress" []] ∧
    (runMain (registerMain env) w).world.console.getLast? =
      some ⟨.error, [.str "❌ 无效的投资者地址:", .str addr]⟩ := by
  have u1 := unset_false_of _ h1
  have u2 := unset_false_of _ h2
  have u3 : unset (some target) = false := by simpa [unset] using h3.2
  have hlen : ¬ (rest.length + 1 + 1 < 2) := by omega
  rcases hp : env.platformAddress with e | pa
  · simp [runMain, registerMain, registerCheckState, tryCatch_apply, u1, u2, u3, h3.1, h4, h5,
      h6, h7, h8, h9, hp, hlen]
  by_cases hl : wa.toLower = pa.toLower
  · simp [runMain, registerMain, registerCheckState, tryCatch_apply, u1, u2, u3, h3.1, h4, h5,
      h6, h7, h8, h9, hp, hl, hlen]
  · simp [runMain, registerMain, registerCheckState, tryCatch_apply, u1, u2, u3, h3.1, h4, h5,
      h6, h7, h8, h9, hp, hl, hlen]

theorem stringToNumber_zero_not_positive : ¬ (stringToNumber "0").isPositive := by
  rw [stringToNumber_examples.1]
  simp [JsNumber.isPositive]

/-! ## Argument validation -/

/-- C11 as stated fails: `getInvestor.js` and `Register.js`, given an argument that is no
address, exit with status 1 only after the read query `platformAddress()` was issued. -/
theorem bad_address_after_platform_query :
    sampleIsAddress "not-an-address" = false ∧
    (runMain (investorMain badAddressInvestorEnv) World.empty).termination = .exited 1 ∧
    (runMain (investorMain badAddressInvestorEnv) World.empty).world.chain =
      [.query "0xUploader" "platformAddress" []] ∧
    (runMain (registerMain (sampleRegisterEnv ["not-an-address", "1"])) World.empty).termination
      = .exited 1 ∧
    (runMain (registerMain (sampleRegisterEnv ["not-an-address", "1"])) World.empty).world.chain
      = [.query "0xManga" "platformAddress" []] :=
  have h := register_rejects_address (sampleRegisterEnv ["not-an-address", "1"]) World.empty []
    "0xCaller" "0xManga" "not-an-address" "1" [] (by decide) (by decide) ⟨rfl, by decide⟩
    rfl rfl rfl rfl rfl (by decide)
  ⟨by decide, by decide, by decide, h.1, h.2.1⟩

/-- C11, amended. Given a first argument that `ethers.isAddress` rejects, each of the three
commands exits with status 1 before any call that takes the address: `getCreator.js` has
issued no chain operation at all, `getInvestor.js` and `Register.js` at most the read
query `platformAddress()`, which they issue before reading the arguments. -/
theorem malformed_address_is_rejected :
    (∀ (env : CreatorEnv) (w : World) (addr : String) (rest : List String),
      env.argv = addr :: rest → env.isAddress addr = false →
      (runMain (creatorMain env) w).termination = .exited 1 ∧
      (runMain (creatorMain env) w).world.chain = w.chain) ∧
    (∀ (env : InvestorEnv) (w : World) (addr : String) (rest : List String),
      env.argv = addr :: rest → env.isAddress addr = false →
      (runMain (investorMain env) w).termination = .exited 1 ∧
      ((runMain (investorMain env) w).world.chain = w.chain ∨
        (runMain (investorMain env) w).world.chain = w.chain ++
          [.query (env.DATAUPLOADER_ADDRESS.getD "") "platformAddress" []])) ∧
    (∀ (env : RegisterEnv) (w : World) (addr : String) (rest : List String),
      env.argv = addr :: rest → env.isAddress addr = false →
      (runMain (registerMain env) w).termination = .exited 1 ∧
      ((runMain (registerMain env) w).world.chain = w.chain ∨
        (runMain (registerMain env) w).world.chain = w.chain ++
          [.query (env.MANGA_NFT_ADDRESS.getD "") "platformAddress" []])) :=
  ⟨bad_address_creator, bad_address_investor, bad_address_register⟩

/-- C11, amended, at a run of `getCreator.js` with the argument `not-an-address`: exit
status 1 and an empty chain trace. -/
theorem malformed_address_is_rejected_witness :
    (runMain (creatorMain { sampleCreatorEnv with
      argv := ["not-an-address"], isAddress := sampleIsAddress }) World.empty).termination
      = .exited 1 ∧
    (runMain (creatorMain { sampleCreatorEnv with
      argv := ["not-an-address"], isAddress := sampleIsAddress }) World.empty).world.chain
      = [] :=
  malformed_address_is_rejected.1 { sampleCreatorEnv with
    argv := ["not-an-address"], isAddress := sampleIsAddress } World.empty "not-an-address" []
    rfl (by decide)

/-- C12 as stated fails: `Register.js` with the token identifier `0` exits with status 1
after it has issued the read query `platformAddress()`. -/
theorem zero_token_after_platform_query :
    (runMain (registerMain (sampleRegisterEnv ["0x1e86a3da7301ac98dd170278e2c5cf9d6d9616c7", "0"])) World.empty).termination
      = .exited 1 ∧
    (runMain (registerMain (sampleRegisterEnv ["0x1e86a3da7301ac98dd170278e2c5cf9d6d9616c7", "0"])) World.empty).world.chain
      = [.query "0xManga" "platformAddress" []] :=
  have h := register_rejects_token (sampleRegisterEnv ["0x1e86a3da7301ac98dd170278e2c5cf9d6d9616c7", "0"]) World.empty []
    "0xCaller" "0xManga" "0x1e86a3da7301ac98dd170278e2c5cf9d6d9616c7" "0" [] (by decide) (by decide) ⟨rfl, by decide⟩
    rfl rfl rfl rfl rfl (by decide) stringToNumber_zero_not_positive
  ⟨h.1, h.2.1⟩

/-- C12, amended. In `Register.js`, a token identifier whose numeric value is `NaN`, zero
or negative makes the command exit with status 1 before `balanceOf` and
`investorRegistration`: the chain saw nothing, or only the read query
`platformAddress()`, which is issued before the arguments are read. -/
theorem rejected_token_stops_registration (env : RegisterEnv) (w : World)
    (addr tok : String) (rest : List String) (h8 : env.argv = addr :: tok :: rest)
    (hc : ¬ (stringToNumber tok).isPositive) :
    (runMain (registerMain env) w).termination = .exited 1 ∧
    ((runMain (registerMain env) w).world.chain = w.chain ∨
      (runMain (registerMain env) w).world.chain = w.chain ++
        [.query (env.MANGA_NFT_ADDRESS.getD "") "platformAddress" []]) :=
  rejected_token_register env w addr tok rest h8 hc

/-- C12, amended, at the token identifier `abc`: exit status 1. -/
theorem rejected_token_stops_registration_witness :
    (runMain (registerMain (sampleRegisterEnv ["0x1e86a3da7301ac98dd170278e2c5cf9d6d9616c7", "abc"])) World.empty).termination
      = .exited 1 :=
  (rejected_token_stops_registration (sampleRegisterEnv ["0x1e86a3da7301ac98dd170278e2c5cf9d6d9616c7", "abc"]) World.empty
    "0x1e86a3da7301ac98dd170278e2c5cf9d6d9616c7" "abc" [] rfl
    (by rw [stringToNumber_examples.2.2.1]; simp [JsNumber.isPositive])).1

/-- C16 as stated fails: the token string `1e3` passes the check, but `balanceOf` called
with it throws before anything is sent (ethers cannot read `1e3` as an integer), the
command exits with status 1 through the balance-check `catch`, and the string never
reaches `investorRegistration`, although the chain would have answered both calls. -/
theorem exponent_token_stops_at_balance :
    stringToNumber "1e3" = .finite 1000 ∧
    (sampleRegisterEnv ["0x1e86a3da7301ac98dd170278e2c5cf9d6d9616c7", "1e3"]).balanceOf = .ok 1 ∧
    (sampleRegisterEnv ["0x1e86a3da7301ac98dd170278e2c5cf9d6d9616c7", "1e3"]).submit.investorRegistration = .ok "0xtx" ∧
    (runMain (registerMain (sampleRegisterEnv ["0x1e86a3da7301ac98dd170278e2c5cf9d6d9616c7", "1e3"])) World.empty).termination
      = .exited 1 ∧
    (runMain (registerMain (sampleRegisterEnv ["0x1e86a3da7301ac98dd170278e2c5cf9d6d9616c7", "1e3"])) World.empty).world.chain
      = [.query "0xManga" "platformAddress" []] :=
  have h := register_unreadable_token (sampleRegisterEnv ["0x1e86a3da7301ac98dd170278e2c5cf9d6d9616c7", "1e3"]) World.empty []
    "0xCaller" "0xManga" "0x1e86a3da7301ac98dd170278e2c5cf9d6d9616c7" "1e3" [] (by decide) (by decide) ⟨rfl, by decide⟩
    rfl rfl rfl rfl rfl (by decide)
    (by rw [stringToNumber_examples.2.2.2.2.2]; simp [JsNumber.isPositive])
    encodeUint256_examples.2.1
  ⟨stringToNumber_examples.2.2.2.2.2, rfl, rfl, h.1, h.2.1⟩

/-- C16, amended. In `Register.js`, once the address is accepted: a token string whose
numeric coercion is not a number above `0` is rejected (status 1, nothing but
`platformAddress()` on the chain); the check `isNaN(s) || s <= 0` is false exactly for
strings that coerce to a number above `0`. An accepted string goes unchanged to
`balanceOf`. If ethers can read it as a `uint256`, the query is sent and, when the
balance is not zero, `investorRegistration` is sent with the same string. If ethers
cannot, `balanceOf` throws before anything is sent and the command exits with status 1.
The strings `0`, `-5`, `abc` and the empty string coerce to `0`, `-5`, `NaN`, `0`; the
strings `1.5`, `1e3`, `0x10`, `Infinity` coerce to `1.5`, `1000`, `16`, `Infinity`; of
these four only `0x10` can be read as a `uint256`. -/
theorem token_check_follows_coercion (env : RegisterEnv) (w : World) (abi : Abi)
    (wa target addr tok : String) (rest : List String)
    (h1 : env.RPC_URL ≠ none ∧ env.RPC_URL ≠ some "")
    (h2 : env.CREATOR_KEY ≠ none ∧ env.CREATOR_KEY ≠ some "")
    (h3 : env.MANGA_NFT_ADDRESS = some target ∧ target ≠ "")
    (h4 : env.abiExists = true) (h5 : env.abi = .ok abi) (h6 : env.signer = .ok wa)
    (h7 : env.contract = .ok ()) (h8 : env.argv = addr :: tok :: rest)
    (h9 : env.isAddress addr = true) :
    (¬ (stringToNumber tok).isPositive →
      (runMain (registerMain env) w).termination = .exited 1 ∧
      (runMain (registerMain env) w).world.chain =
        w.chain ++ [.query target "platformAddress" []] ∧
      (runMain (registerMain env) w).world.console.getLast? =
        some ⟨.error, [.str "❌ 无效的代币ID:", .str tok]⟩) ∧
    (∀ n, (stringToNumber tok).isPositive → encodeUint256 tok = some n →
      ∃ more, (runMain (registerMain env) w).world.chain = w.chain ++
          [.query target "platformAddress" [],
            .query target "balanceOf" [.str addr, .str tok]] ++ more ∧
        ∀ bal, env.balanceOf = .ok bal → bal ≠ 0 →
          more.head? =
            some (.send target "investorRegistration" [.str addr, .str tok] none)) ∧
    ((stringToNumber tok).isPositive → encodeUint256 tok = none →
      (runMain (registerMain env) w).termination = .exited 1 ∧
      (runMain (registerMain env) w).world.chain =
        w.chain ++ [.query target "platformAddress" []] ∧
      (runMain (registerMain env) w).world.console.getLast? =
        some ⟨.error, [.str "❌ 检查余额失败:",
          .str (env.submit.argumentError tok).message]⟩) ∧
    ((isNaN tok || (stringToNumber tok).le (.finite 0)) = false ↔
      (stringToNumber tok).isPositive) ∧
    (stringToNumber "0" = .finite 0 ∧ stringToNumber "-5" = .finite (-5) ∧
      stringToNumber "abc" = .nan ∧ stringToNumber "" = .finite 0) ∧
    (stringToNumber "1.5" = .finite (3 / 2) ∧ stringToNumber "1e3" = .finite 1000 ∧
      stringToNumber "0x10" = .finite 16 ∧ stringToNumber "Infinity" = .infinite false) ∧
    (encodeUint256 "1.5" = none ∧ encodeUint256 "1e3" = none ∧
      encodeUint256 "Infinity" = none ∧ encodeUint256 "0x10" = some 16) :=
  ⟨register_rejects_token env w abi wa target addr tok rest h1 h2 h3 h4 h5 h6 h7 h8 h9,
    fun n hc hn =>
      register_accepts_token env w abi wa target addr tok rest n h1 h2 h3 h4 h5 h6 h7 h8 h9
        hc hn,
    register_unreadable_token env w abi wa target addr tok rest h1 h2 h3 h4 h5 h6 h7 h8 h9,
    tokenCheck_iff tok,
    ⟨stringToNumber_examples.1, stringToNumber_minus_five, stringToNumber_examples.2.2.1,
      stringToNumber_examples.2.1⟩,
    ⟨stringToNumber_one_and_half, stringToNumber_examples.2.2.2.2.2,
      stringToNumber_examples.2.2.2.2.1, stringToNumber_examples.2.2.2.1⟩,
    encodeUint256_examples⟩

/-- C16, amended, at the token string `0x10`: it passes the check, is read as 16, and
reaches `balanceOf` and `investorRegistration` as the string `0x10`. -/
theorem token_check_follows_coercion_witness :
    ∃ more, (runMain (registerMain (sampleRegisterEnv ["0x1e86a3da7301ac98dd170278e2c5cf9d6d9616c7", "0x10"])) World.empty).world.chain
        = World.empty.chain ++ [.query "0xManga" "platformAddress" [],
          .query "0xManga" "balanceOf" [.str "0x1e86a3da7301ac98dd170278e2c5cf9d6d9616c7", .str "0x10"]] ++ more ∧
      more.head? = some (.send "0xManga" "investorRegistration" [.str "0x1e86a3da7301ac98dd170278e2c5cf9d6d9616c7", .str "0x10"] none) :=
  have h := token_check_follows_coercion (sampleRegisterEnv ["0x1e86a3da7301ac98dd170278e2c5cf9d6d9616c7", "0x10"]) World.empty []
    "0xCaller" "0xManga" "0x1e86a3da7301ac98dd170278e2c5cf9d6d9616c7" "0x10" [] (by decide) (by decide) ⟨rfl, by decide⟩
    rfl rfl rfl rfl rfl (by decide)
  (h.2.1 16 (by rw [h.2.2.2.2.2.1.2.2.1]; simp [JsNumber.isPositive]) h.2.2.2.2.2.2.2.2.2).imp
    fun _ hm => ⟨hm.1, hm.2 1 rfl (by decide)⟩

/-! ## Exit status of FreeMint.js -/
/-- C13 against the code: in `FreeMint.js`, once the ABI file is found, no error changes
the exit status: the run ends on its own, with status 0. When the `freeMint` transaction
is rejected at submission or at confirmation, the error is printed last and nothing
follows it on the chain. -/
theorem free_mint_failure_exits_zero (env : FreeMintEnv) (w : World)
    (h1 : env.abiExists = true) :
    (runFreeMint env w).termination = .ranToEnd ∧
    (runFreeMint env w).termination.status = 0 ∧
    (∀ abi e, env.abi = .ok abi → env.signer = .ok () → env.contract = .ok () →
      env.freeMint = .error e →
      (runFreeMint env w).world.chain = w.chain ++
        [.send (env.MANGA_NFT_ADDRESS.getD "") "freeMint"
          [.str "0xdbe41aFD9e285b446735Ca523C53a01Ad98e78C9", .str "1753619893000001", .num 1]
          none] ∧
      (runFreeMint env w).world.console.getLast? =
        some ⟨.error, [.str "❌ Mint 失败：", .err e]⟩) ∧
    (∀ abi tx e, env.abi = .ok abi → env.signer = .ok () → env.contract = .ok () →
      env.freeMint = .ok tx → env.wait = .error e →
      (runFreeMint env w).world.chain = w.chain ++
        [.send (env.MANGA_NFT_ADDRESS.getD "") "freeMint"
          [.str "0xdbe41aFD9e285b446735Ca523C53a01Ad98e78C9", .str "1753619893000001", .num 1]
          none, .awaitTx tx] ∧
      (runFreeMint env w).world.console.getLast? =
        some ⟨.error, [.str "❌ Mint 失败：", .err e]⟩) := by
  have hrun : (runFreeMint env w).termination = .ranToEnd := by
    rcases h2 : env.abi with e | abi
    · simp [runFreeMint, freeMintMain, h1, h2]
    rcases h3 : env.signer with e | u
    · simp [runFreeMint, freeMintMain, h1, h2, h3]
    rcases h4 : env.contract with e | u
    · simp [runFreeMint, freeMintMain, h1, h2, h3, h4]
    rcases h5 : env.freeMint with e | tx
    · simp [runFreeMint, freeMintMain, h1, h2, h3, h4, h5]
    rcases h6 : env.wait with e | u
    · simp [runFreeMint, freeMintMain, h1, h2, h3, h4, h5, h6]
    · simp [runFreeMint, freeMintMain, h1, h2, h3, h4, h5, h6]
  refine ⟨hrun, by rw [hrun]; rfl, ?_, ?_⟩
  · intro abi e h2 h3 h4 h5
    simp [runFreeMint, freeMintMain, h1, h2, h3, h4, h5]
  · intro abi tx e h2 h3 h4 h5 h6
    simp [runFreeMint, freeMintMain, h1, h2, h3, h4, h5, h6]

/-- C13 at a run whose `freeMint` call reverts: exit status 0, the error printed last. -/
theorem free_mint_failure_exits_zero_witness :
    (runFreeMint revertedFreeMintEnv World.empty).termination.status = 0 ∧
    (runFreeMint revertedFreeMintEnv World.empty).world.console.getLast? =
      some ⟨.error, [.str "❌ Mint 失败：", .err ⟨"execution reverted"⟩]⟩ :=
  have h := free_mint_failure_exits_zero revertedFreeMintEnv World.empty rfl
  ⟨h.2.1, (h.2.2.1 [] ⟨"execution reverted"⟩ rfl rfl rfl rfl).2⟩

/-! ## Secondary queries of getInvestor.js -/

set_option maxHeartbeats 1000000 in
/-- C14. In `getInvestor.js`, when `getInvestorStats` succeeds: whatever the four
secondary queries would answer, none of them is issued (the chain trace is
`platformAddress`, `getInvestorStats`), the run ends with the four unavailable lines in
order, no secondary value line is printed, and the command runs to its end without
`process.exit`. -/
theorem investor_secondaries_never_queried (env : InvestorEnv) (w : World) (abi : Abi)
    (wa target addr : String) (rest : List String) (stats : InvestorStats)
    (h1 : env.RPC_URL ≠ none ∧ env.RPC_URL ≠ some "")
    (h2 : env.CREATOR_KEY ≠ none ∧ env.CREATOR_KEY ≠ some "")
    (h3 : env.DATAUPLOADER_ADDRESS = some target ∧ target ≠ "")
    (h4 : env.abiExists = true) (h5 : env.abi = .ok abi) (h6 : env.signer = .ok wa)
    (h7 : env.contract = .ok ()) (h8 : env.argv = addr :: rest)
    (h9 : env.isAddress addr = true) (h10 : env.getInvestorStats = .ok stats) :
    (runMain (investorMain env) w).termination = .ranToEnd ∧
    (runMain (investorMain env) w).termination.status ≠ 1 ∧
    (runMain (investorMain env) w).world.chain = w.chain ++ [
      .query target "platformAddress" [],
      .query target "getInvestorStats" [.str addr]] ∧
    [⟨.log, [.str "   注册状态: 无法查询"]⟩,
      ⟨.log, [.str "   无法获取投资者列表"]⟩,
      ⟨.log, [.str "   无法获取当前持有数量"]⟩,
      (⟨.log, [.str "   无法获取月度统计"]⟩ : Line)] <:+
        (runMain (investorMain env) w).world.console ∧
    (∀ line ∈ (runMain (investorMain env) w).world.console.drop w.console.length,
      line.args.head? ≠ some (.str "   注册状态:") ∧
      line.args.head? ≠ some (.str "   总投资者数量:") ∧
      line.args.head? ≠ some (.str "   当前持有NFT总数:") ∧
      line.args.head? ≠ some (.str "   当月获得数量:")) := by
  have u1 : unset env.RPC_URL = false := by
    rcases hx : env.RPC_URL with _ | x
    · exact absurd hx h1.1
    · simpa [unset] using fun hh : x = "" => h1.2 (hx.trans (congrArg some hh))
  have u2 : unset env.CREATOR_KEY = false := by
    rcases hx : env.CREATOR_KEY with _ | x
    · exact absurd hx h2.1
    · simpa [unset] using fun hh : x = "" => h2.2 (hx.trans (congrArg some hh))
  have u3 : unset (some target) = false := by
    simpa [unset] using h3.2
  have hd : ∀ (l1 l2 : List Line), List.drop l1.length (l1 ++ l2) = l2 := by
    intro l1 l2
    simp
  rcases hp : env.platformAddress with e | pa <;> by_cases hz : stats.totalAcquired = 0
  all_goals
    simp [runMain, investorMain, investorQuery, tryCatch_apply, monthlyDataUploaderContract,
      Termination.status, u1, u2, u3, h3.1, h4, h5, h6, h7, h8, h9, h10, hp, hz, hd]
    refine List.IsSuffix.trans ?_ (List.suffix_append _ _)
    simp [List.suffix_cons_iff]

/-- C14 at a run in which all four secondary queries would have succeeded. -/
theorem investor_secondaries_never_queried_witness :
    (runMain (investorMain zeroInvestorEnv) World.empty).termination = .ranToEnd ∧
    (runMain (investorMain zeroInvestorEnv) World.empty).world.chain = World.empty.chain ++ [
      .query "0xUploader" "platformAddress" [],
      .query "0xUploader" "getInvestorStats" [.str "0xInvestor"]] :=
  have h := investor_secondaries_never_queried zeroInvestorEnv World.empty [] "0xCaller"
    "0xUploader" "0xInvestor" [] ⟨0, 0⟩ (by decide) (by decide) ⟨rfl, by decide⟩
    rfl rfl rfl rfl rfl rfl rfl
  ⟨h.1, h.2.2.1⟩

/-! ## The stored configuration -/

theorem isRecordOf_unique (penv : ProcessEnv) (env : DeployEnv) (i1 i2 : DeploymentInfo)
    (h1 : IsRecordOf penv env i1) (h2 : IsRecordOf penv env i2) : i1 = i2 := by
  obtain ⟨d1, a1, a2, a3, a4, a5, a6, a7, a8, ⟨n1, a9, a10⟩, ⟨m1, a11, a12⟩⟩ := h1
  obtain ⟨d2, b1, b2, b3, b4, b5, b6, b7, b8, ⟨n2, b9, b10⟩, ⟨m2, b11, b12⟩⟩ := h2
  have hd : d1 = d2 := by
    rcases d1 with ⟨x1, x2, x3, x4⟩
    rcases d2 with ⟨y1, y2, y3, y4⟩
    simp only at a1 a2 a3 a4 b1 b2 b3 b4
    rw [a1] at b1
    rw [a2] at b2
    rw [a3] at b3
    rw [a4] at b4
    injection b1 with c1
    injection b2 with c2
    injection b3 with c3
    injection b4 with c4
    simp [c1, c2, c3, c4]
  subst hd
  rw [a6] at b6
  injection b6 with c6
  rw [a9] at b9
  injection b9 with c9
  rw [a11] at b11
  injection b11 with c11
  rcases i1 with ⟨p1, p2, p3, p4, p5, p6⟩
  rcases i2 with ⟨q1, q2, q3, q4, q5, q6⟩
  simp only at a5 a7 a8 a10 a12 b5 b7 b8 b10 b12 c6
  simp only [DeploymentInfo.mk.injEq]
  refine ⟨?_, ?_, c6, ?_, ?_, ?_⟩
  · rw [a10, b10, c9]
  · rw [a12, b12, c11]
  · rw [a7, b7]
  · rw [a5, b5]
  · rw [a8, b8]

theorem isRecordOf_withKey (penv : ProcessEnv) (env : DeployEnv) (info : DeploymentInfo)
    (key : Option String) (h : IsRecordOf penv env info) :
    IsRecordOf { penv with PRIVATE_KEY := key } env
      { info with config := loadConfig { penv with PRIVATE_KEY := key } } := by
  obtain ⟨d1, a1, a2, a3, a4, a5, a6, a7, a8, a9, a10⟩ := h
  exact ⟨d1, a1, a2, a3, a4, a5, a6, a7, rfl, a9, a10⟩

/-- C15. A successful run writes, under the timestamped name and under
`latest-deployment.json`, a record whose `config` is the whole configuration object,
`privateKey` included. Two successful runs with different key values leave records that
differ in `config.privateKey`; a run that differs only in `PRIVATE_KEY` leaves the same
record with that one member changed. -/
theorem record_holds_signer_key (penv : ProcessEnv) (env : DeployEnv) (w : World)
    (h : (runDeploy penv env w).termination = .exited 0) :
    (∃ info,
      (runDeploy penv env w).world.files.read (.deployment env.now) = some (.json info) ∧
      (runDeploy penv env w).world.files.read .latest = some (.json info) ∧
      info.config = loadConfig penv ∧
      info.config.privateKey = orDefault penv.PRIVATE_KEY
        "a561d28ee8f35c86c88132952f0f82bc39ec24e240dd511c5229435f15927416") ∧
    (∀ (penv2 : ProcessEnv) (env2 : DeployEnv) (w2 : World) (info info2 : DeploymentInfo),
      (runDeploy penv2 env2 w2).termination = .exited 0 →
      (loadConfig penv).privateKey ≠ (loadConfig penv2).privateKey →
      (runDeploy penv env w).world.files.read .latest = some (.json info) →
      (runDeploy penv2 env2 w2).world.files.read .latest = some (.json info2) →
      info.config.privateKey ≠ info2.config.privateKey) ∧
    (∀ (key : Option String) (info : DeploymentInfo),
      (runDeploy { penv with PRIVATE_KEY := key } env w).termination = .exited 0 →
      (runDeploy penv env w).world.files.read .latest = some (.json info) →
      (runDeploy { penv with PRIVATE_KEY := key } env w).world.files.read .latest =
        some (.json { info with config := { info.config with
          privateKey := orDefault key
            "a561d28ee8f35c86c88132952f0f82bc39ec24e240dd511c5229435f15927416" } })) := by
  obtain ⟨info, hrec, hfiles⟩ := runDeploy_success penv env w h
  have hcfg : info.config = loadConfig penv := by
    obtain ⟨d1, a1, a2, a3, a4, a5, a6, a7, a8, a9, a10⟩ := hrec
    exact a8
  refine ⟨⟨info, ?_, ?_, hcfg, ?_⟩, ?_, ?_⟩
  · rw [hfiles, Store.read_saved_deployment, if_pos rfl]
  · rw [hfiles, Store.read_saved_latest]
  · rw [hcfg]
    rfl
  · intro penv2 env2 w2 i1 i2 h2 hne e1 e2
    obtain ⟨info2, hrec2, hfiles2⟩ := runDeploy_success penv2 env2 w2 h2
    have hcfg2 : info2.config = loadConfig penv2 := by
      obtain ⟨d1, a1, a2, a3, a4, a5, a6, a7, a8, a9, a10⟩ := hrec2
      exact a8
    rw [hfiles, Store.read_saved_latest] at e1
    rw [hfiles2, Store.read_saved_latest] at e2
    injection e1 with e1
    injection e1 with e1
    injection e2 with e2
    injection e2 with e2
    rw [← e1, ← e2, hcfg, hcfg2]
    exact hne
  · intro key i1 h2 e1
    obtain ⟨info2, hrec2, hfiles2⟩ := runDeploy_success _ env w h2
    rw [hfiles, Store.read_saved_latest] at e1
    injection e1 with e1
    injection e1 with e1
    subst e1
    have := isRecordOf_unique _ _ _ _ hrec2 (isRecordOf_withKey penv env info key hrec)
    rw [hfiles2, Store.read_saved_latest, this, hcfg]
    rfl

/-- C15 at a run with no environment variable set: the stored record holds the
built-in key. -/
theorem record_holds_signer_key_witness :
    ∃ info, (runDeploy noEnv firstRun.2 World.empty).world.files.read .latest
        = some (.json info) ∧
      info.config.privateKey = "a561d28ee8f35c86c88132952f0f82bc39ec24e240dd511c5229435f15927416" :=
  (record_holds_signer_key noEnv firstRun.2 World.empty (by decide)).1.imp
    fun _ hi => ⟨hi.2.1, hi.2.2.2⟩

/-! ## Roster membership -/

set_option maxHeartbeats 1000000 in
/-- C17. In `getCreator.js`, with a roster returned by `getAllCreators`: the line saying
the address is in the roster is printed exactly when some roster entry has the same
characters as the argument, the line saying it is not exactly when no entry has; it is
the last line of the run. -/
theorem roster_check_is_exact_match (env : CreatorEnv) (w : World) (abi : Abi)
    (wa target addr : String) (rest roster : List String) (stats : CreatorStats)
    (h1 : env.RPC_URL ≠ none ∧ env.RPC_URL ≠ some "")
    (h2 : env.CREATOR_KEY ≠ none ∧ env.CREATOR_KEY ≠ some "")
    (h3 : env.DATAUPLOADER_ADDRESS = some target ∧ target ≠ "")
    (h4 : env.abiExists = true) (h5 : env.abi = .ok abi) (h6 : env.signer = .ok wa)
    (h7 : env.contract = .ok ()) (h8 : env.argv = addr :: rest)
    (h9 : env.isAddress addr = true) (h10 : env.getCreatorStats = .ok stats)
    (h11 : env.getAllCreators = .ok roster) :
    (⟨.log, [.str "   在创作者列表中: ✅ 是"]⟩ ∈
        (runMain (creatorMain env) w).world.console.drop w.console.length ↔
      ∃ x ∈ roster, x.data = addr.data) ∧
    (⟨.log, [.str "   在创作者列表中: ❌ 否"]⟩ ∈
        (runMain (creatorMain env) w).world.console.drop w.console.length ↔
      ∀ x ∈ roster, x.data ≠ addr.data) ∧
    (runMain (creatorMain env) w).world.console.getLast? =
      some ⟨.log, [.str (if addr ∈ roster then "   在创作者列表中: ✅ 是"
        else "   在创作者列表中: ❌ 否")]⟩ := by
  have u1 : unset env.RPC_URL = false := by
    rcases hx : env.RPC_URL with _ | x
    · exact absurd hx h1.1
    · simpa [unset] using fun hh : x = "" => h1.2 (hx.trans (congrArg some hh))
  have u2 : unset env.CREATOR_KEY = false := by
    rcases hx : env.CREATOR_KEY with _ | x
    · exact absurd hx h2.1
    · simpa [unset] using fun hh : x = "" => h2.2 (hx.trans (congrArg some hh))
  have u3 : unset (some target) = false := by
    simpa [unset] using h3.2
  have hd : ∀ (l1 l2 : List Line), List.drop l1.length (l1 ++ l2) = l2 := by
    intro l1 l2
    simp
  have hmem : (∃ x ∈ roster, x.data = addr.data) ↔ addr ∈ roster := by
    constructor
    · rintro ⟨x, hx, hxa⟩
      have : x = addr := String.ext hxa
      exact this ▸ hx
    · intro h
      exact ⟨addr, h, rfl⟩
  have hnmem : (∀ x ∈ roster, x.data ≠ addr.data) ↔ addr ∉ roster := by
    rw [← hmem]
    push_neg
    rfl
  rw [hmem, hnmem]
  rcases hc : env.isCreator with e1 | b <;> by_cases hp : stats.totalPublished = 0 <;>
    by_cases hm : addr ∈ roster <;>
    simp [runMain, creatorMain, creatorQuery, tryCatch_apply, u1, u2, u3, h3.1, h4, h5, h6,
      h7, h8, h9, h10, h11, hc, hp, hd, hm]

/-- C17 at a roster holding the address in checksum case and the argument in lower case:
the argument is accepted as an address and reported as not in the roster. -/
theorem roster_check_is_exact_match_witness :
    sampleIsAddress "0x1e86a3da7301ac98dd170278e2c5cf9d6d9616c7" = true ∧
    "0x1E86A3da7301AC98DD170278E2c5cF9D6d9616C7".data.map Char.toLower = "0x1e86a3da7301ac98dd170278e2c5cf9d6d9616c7".data ∧
    (runMain (creatorMain lowerCaseCreatorEnv) World.empty).world.console.getLast? =
      some ⟨.log, [.str "   在创作者列表中: ❌ 否"]⟩ :=
  ⟨by decide, by decide,
    (roster_check_is_exact_match lowerCaseCreatorEnv World.empty [] "0xCaller" "0xUploader"
      "0x1e86a3da7301ac98dd170278e2c5cf9d6d9616c7" [] ["0x1E86A3da7301AC98DD170278E2c5cF9D6d9616C7"] ⟨3, 7, 7⟩
      (by decide) (by decide) ⟨rfl, by decide⟩ rfl rfl rfl rfl rfl (by decide) rfl rfl).2.2⟩

end MangaNftClient
